import Mathlib

/-!
EdgeLLM inference server: the request-to-generation pipeline.

A shallow embedding of `src/llama.cpp/final-server.cpp`: the slot and metrics
records, `LLaMAServer::generate_response`, `LLaMAServer::generate` and the
streaming branch of `handle_http_request`.

The llama runtime (chat template, tokenizer, decode, sampler, detokenizer) is
not part of the repository.  It is a parameter of the model: a record
`llama_api σ` of functions over an abstract session state `σ` that stands for
the `llama_context` together with the sampler chain.  Nothing is assumed about
these functions beyond their signatures.

Conventions
* C `int` values are `Int`; signed overflow is undefined behaviour in C++ and
  is not modelled.  `uint64_t` counters are `Nat` reduced modulo `2 ^ 64`.
* `std::string` is `String`, `std::vector<char>` is `List Char`.
* Times: the source keeps slot times as `double` milliseconds obtained from an
  integer microsecond difference divided by `1000.0`.  The slot fields hold the
  microsecond difference; the conversion to the `uint64_t` metric fields is the
  truncating division by 1000.
* Two ghost fields of the server record what leaves the process: `sent`, the
  events written to the client socket, and `calls`, the runtime calls made.
* The `while (true)` loop of `generate` runs on fuel.
-/

namespace EdgeLLM

/-! ## Data model -/

/-- A token id, `llama_token` (a 32-bit integer in the runtime). -/
abbrev llama_token := Int

/-- One chat turn, `llama_chat_message`. -/
structure llama_chat_message where
  role : String
  content : String
deriving DecidableEq, Repr

/-- The enum `server_slot::slot_state`. -/
inductive slot_state where
  | SLOT_STATE_IDLE
  | SLOT_STATE_PROCESSING
  | SLOT_STATE_ERROR
deriving DecidableEq, Repr

/-- The struct `server_slot`.  Time fields are in microseconds. -/
structure server_slot where
  id : Int
  n_prompt_tokens_processed : Int
  n_decoded : Int
  t_prompt_processing : Int
  t_token_generation : Int
  state : slot_state
deriving DecidableEq, Repr

/-- The method `server_slot::is_processing`. -/
def server_slot.is_processing (slot : server_slot) : Bool :=
  slot.state == slot_state.SLOT_STATE_PROCESSING

/-- The method `server_slot::set_state`. -/
def server_slot.set_state (slot : server_slot) (new_state : slot_state) : server_slot :=
  { slot with state := new_state }

/-- Conversion of a C integer to `uint64_t`. -/
def to_u64 (i : Int) : Nat := (i % 2 ^ 64).toNat

/-- Truncation of a non-negative microsecond count to whole milliseconds. -/
def ms_of_us (us : Int) : Int := us / 1000

/-- The struct `server_metrics`. -/
structure server_metrics where
  t_start : Int
  n_prompt_tokens_processed_total : Nat
  t_prompt_processing_total : Nat
  n_tokens_predicted_total : Nat
  t_tokens_generation_total : Nat
  n_prompt_tokens_processed : Nat
  t_prompt_processing : Nat
  n_tokens_predicted : Nat
  t_tokens_generation : Nat
  n_decode_total : Nat
  n_busy_slots_total : Nat
  n_requests_total : Nat
  n_requests_failed : Nat
  kv_cache_tokens_count : Nat
  kv_cache_used_cells : Nat
deriving DecidableEq, Repr

/-- The default member initialisers of `server_metrics` followed by `init()`. -/
def server_metrics.init (now : Int) : server_metrics :=
  { t_start := now
    n_prompt_tokens_processed_total := 0
    t_prompt_processing_total := 0
    n_tokens_predicted_total := 0
    t_tokens_generation_total := 0
    n_prompt_tokens_processed := 0
    t_prompt_processing := 0
    n_tokens_predicted := 0
    t_tokens_generation := 0
    n_decode_total := 0
    n_busy_slots_total := 0
    n_requests_total := 0
    n_requests_failed := 0
    kv_cache_tokens_count := 0
    kv_cache_used_cells := 0 }

/-- The method `server_metrics::on_prompt_eval`. -/
def server_metrics.on_prompt_eval (m : server_metrics) (slot : server_slot) : server_metrics :=
  if slot.n_prompt_tokens_processed > 0 ∧ slot.t_prompt_processing > 0 then
    { m with
      n_prompt_tokens_processed := to_u64 slot.n_prompt_tokens_processed
      t_prompt_processing := to_u64 (ms_of_us slot.t_prompt_processing)
      n_prompt_tokens_processed_total :=
        to_u64 (m.n_prompt_tokens_processed_total + slot.n_prompt_tokens_processed)
      t_prompt_processing_total :=
        to_u64 (m.t_prompt_processing_total + ms_of_us slot.t_prompt_processing) }
  else m

/-- The method `server_metrics::on_prediction`. -/
def server_metrics.on_prediction (m : server_metrics) (slot : server_slot) : server_metrics :=
  { m with
    n_tokens_predicted := to_u64 (m.n_tokens_predicted + slot.n_decoded)
    t_tokens_generation := to_u64 (m.t_tokens_generation + ms_of_us slot.t_token_generation)
    n_tokens_predicted_total := to_u64 (m.n_tokens_predicted_total + slot.n_decoded)
    t_tokens_generation_total :=
      to_u64 (m.t_tokens_generation_total + ms_of_us slot.t_token_generation) }

/-- The method `server_metrics::on_decoded`. -/
def server_metrics.on_decoded (m : server_metrics) (slots : List server_slot) : server_metrics :=
  slots.foldl
    (fun acc slot =>
      if slot.is_processing then
        { acc with n_busy_slots_total := (acc.n_busy_slots_total + 1) % 2 ^ 64 }
      else acc)
    { m with n_decode_total := (m.n_decode_total + 1) % 2 ^ 64 }

/-- The method `server_metrics::on_request`. -/
def server_metrics.on_request (m : server_metrics) : server_metrics :=
  { m with n_requests_total := (m.n_requests_total + 1) % 2 ^ 64 }

/-- The method `server_metrics::on_request_failed`. -/
def server_metrics.on_request_failed (m : server_metrics) : server_metrics :=
  { m with n_requests_failed := (m.n_requests_failed + 1) % 2 ^ 64 }

/-! ## The llama runtime, as a parameter -/

/-- The runtime functions the server calls.  `σ` is the state of the
`llama_context` and of the sampler chain.

* `chat_template_len msgs add_ass` is the value returned by
  `llama_chat_apply_template`, a function of the turns and of the
  generation-prompt flag; `chat_template_buf msgs add_ass buf` is the content
  the call leaves in the caller's buffer `buf`.
* `llama_tokenize text n_tokens_max add_special parse_special` gives the value
  returned and the tokens written at the front of the caller's buffer.
* `llama_token_to_piece tok` gives the value returned and the content of `buf`.
-/
structure llama_api (σ : Type) where
  chat_template_len : List llama_chat_message → Bool → Int
  chat_template_buf : List llama_chat_message → Bool → List Char → List Char
  llama_tokenize : String → Nat → Bool → Bool → Int × List llama_token
  llama_n_ctx : σ → Int
  llama_get_kv_cache_used_cells : σ → Int
  llama_get_kv_cache_token_count : σ → Int
  llama_decode : σ → List llama_token → Int × σ
  llama_sampler_sample : σ → llama_token × σ
  llama_token_is_eog : llama_token → Bool
  llama_token_to_piece : llama_token → Int × List Char

/-- A buffer of fixed size `n` after a callee wrote `l` into it: the callee
cannot change the size, missing positions read as `pad`. -/
def fit {α : Type} (pad : α) (n : Nat) (l : List α) : List α :=
  (l ++ List.replicate (n - l.length) pad).take n

/-- The call `llama_chat_apply_template(model, nullptr, msgs, n, add_ass, buf, size)`:
the returned length and the buffer afterwards. -/
def llama_chat_apply_template {σ : Type} (L : llama_api σ) (msgs : List llama_chat_message)
    (add_ass : Bool) (buf : List Char) : Int × List Char :=
  (L.chat_template_len msgs add_ass, fit (Char.ofNat 0) buf.length (L.chat_template_buf msgs add_ass buf))

/-- The range constructor `std::string(buf.begin() + lo, buf.begin() + hi)`.
It is defined in C++ for `0 ≤ lo ≤ hi ≤ buf.size()` only. -/
def substr (buf : List Char) (lo hi : Int) : String :=
  String.mk ((buf.drop lo.toNat).take (hi - lo).toNat)

/-- The call `std::vector<char>::resize(n)`. -/
def resize (buf : List Char) (n : Nat) : List Char :=
  fit (Char.ofNat 0) n buf

/-! ## Ghost records of the outside world -/

/-- What the server writes to the client socket of a streaming request. -/
inductive sse_event where
  | headers
  | message (data : String)
  | error (err : String)
  | done
deriving DecidableEq, Repr

/-- A call into the runtime: the tokenizer with its text, buffer size and
`add_special` flag; decode with the context it was given and the batch; the
sampler with the token it returned. -/
inductive api_call (σ : Type) where
  | tokenize (text : String) (n_tokens_max : Nat) (add_special : Bool)
  | decode (ctx : σ) (batch : List llama_token)
  | sample (tok : llama_token)
deriving DecidableEq, Repr

/-- The class `LLaMAServer`.  `ctx` stands for `ctx` and `smpl` together;
`sent` and `calls` are ghost. -/
structure LLaMAServer (σ : Type) where
  ctx : σ
  messages : List llama_chat_message
  formatted : List Char
  prev_len : Int
  client_socket : Int
  metrics : server_metrics
  slot : server_slot
  sent : List sse_event
  calls : List (api_call σ)

/-- The server after `initialize`: context `ctx`, the template buffer sized to
the context length, no messages, no socket. -/
def LLaMAServer.initialized {σ : Type} (L : llama_api σ) (ctx : σ) (now : Int) : LLaMAServer σ :=
  { ctx := ctx
    messages := []
    formatted := resize [] (L.llama_n_ctx ctx).toNat
    prev_len := 0
    client_socket := -1
    metrics := server_metrics.init now
    slot :=
      { id := 0, n_prompt_tokens_processed := 0, n_decoded := 0, t_prompt_processing := 0,
        t_token_generation := 0, state := slot_state.SLOT_STATE_IDLE }
    sent := []
    calls := [] }

/-- The function `send_sse_headers`. -/
def send_sse_headers {σ : Type} (s : LLaMAServer σ) : LLaMAServer σ :=
  { s with sent := s.sent ++ [sse_event.headers] }

/-- The function `send_sse_message`. -/
def send_sse_message {σ : Type} (s : LLaMAServer σ) (data : String) : LLaMAServer σ :=
  { s with sent := s.sent ++ [sse_event.message data] }

/-- The function `send_sse_error`. -/
def send_sse_error {σ : Type} (s : LLaMAServer σ) (err : String) : LLaMAServer σ :=
  { s with sent := s.sent ++ [sse_event.error err] }

/-- The function `send_sse_done`. -/
def send_sse_done {σ : Type} (s : LLaMAServer σ) : LLaMAServer σ :=
  { s with sent := s.sent ++ [sse_event.done] }

/-- The method `LLaMAServer::set_client_socket`. -/
def LLaMAServer.set_client_socket {σ : Type} (s : LLaMAServer σ) (socket : Int) : LLaMAServer σ :=
  { s with client_socket := socket }

/-! ## `LLaMAServer::generate` -/

/-- The way a run of `generate` left the function (ghost). -/
inductive gen_exit where
  | tokenize_failed
  | context_exceeded
  | decode_failed
  | piece_failed
  | eog
deriving DecidableEq, Repr

/-- The text of a token: `std::string piece(buf, n)` after
`n = llama_token_to_piece(model, tok, buf, sizeof(buf), 0, true)`. -/
def piece_of {σ : Type} (L : llama_api σ) (tok : llama_token) : String :=
  String.mk ((L.llama_token_to_piece tok).2.take (L.llama_token_to_piece tok).1.toNat)

/-- The outcome of one pass through the body of the `while (true)` loop. -/
inductive loop_step (σ : Type) where
  | ret (e : gen_exit) (response : String) (s : LLaMAServer σ)
  | next (s : LLaMAServer σ) (batch : List llama_token) (response : String)

/-- One pass through the body of the `while (true)` loop of `generate`
(steps 3.1 to the end of the body); leaving the loop by `break` includes the
code after the loop. -/
def generate_body {σ : Type} (L : llama_api σ) (s : LLaMAServer σ) (batch : List llama_token)
    (response : String) : loop_step σ :=
  let n_ctx := L.llama_n_ctx s.ctx
  let n_ctx_used := L.llama_get_kv_cache_used_cells s.ctx
  if n_ctx_used + (batch.length : Int) > n_ctx then
    loop_step.ret gen_exit.context_exceeded (response ++ "\nContext size exceeded")
      (if s.client_socket ≠ -1 then send_sse_error s "Context size exceeded" else s)
  else
    let d := L.llama_decode s.ctx batch
    let s1 := { s with ctx := d.2, calls := s.calls ++ [api_call.decode s.ctx batch] }
    if d.1 ≠ 0 then
      let s2 := { s1 with slot := s1.slot.set_state slot_state.SLOT_STATE_ERROR }
      loop_step.ret gen_exit.decode_failed (response ++ "\nFailed to decode")
        (if s2.client_socket ≠ -1 then send_sse_error s2 "Failed to decode" else s2)
    else
      let smp := L.llama_sampler_sample s1.ctx
      let new_token_id := smp.1
      let s3 := { s1 with ctx := smp.2, calls := s1.calls ++ [api_call.sample new_token_id] }
      if L.llama_token_is_eog new_token_id then
        loop_step.ret gen_exit.eog response
          (if s3.client_socket ≠ -1 then send_sse_done s3 else s3)
      else
        let n := (L.llama_token_to_piece new_token_id).1
        if n < 0 then
          loop_step.ret gen_exit.piece_failed (response ++ "\nFailed to convert token to text")
            (if s3.client_socket ≠ -1 then send_sse_error s3 "Failed to convert token to text"
             else s3)
        else
          let piece := piece_of L new_token_id
          let response1 := response ++ piece
          let s4 := if s3.client_socket ≠ -1 then send_sse_message s3 piece else s3
          let s5 := { s4 with slot := { s4.slot with n_decoded := s4.slot.n_decoded + 1 } }
          let s6 := { s5 with metrics := s5.metrics.on_decoded [s5.slot] }
          loop_step.next s6 [new_token_id] response1

/-- The result of running `generate` on fuel: `exit = none` when the loop was
still running when the fuel ran out, with the state reached. -/
structure gen_result (σ : Type) where
  exit : Option gen_exit
  response : String
  server : LLaMAServer σ

/-- The `while (true)` loop of `generate`, at most `fuel` passes. -/
def generate_loop {σ : Type} (L : llama_api σ) :
    Nat → LLaMAServer σ → List llama_token → String → gen_result σ
  | 0, s, _, response => { exit := none, response := response, server := s }
  | fuel + 1, s, batch, response =>
    match generate_body L s batch response with
    | loop_step.ret e r s1 => { exit := some e, response := r, server := s1 }
    | loop_step.next s1 batch1 response1 => generate_loop L fuel s1 batch1 response1

/-- The method `LLaMAServer::generate`.  The vector `prompt_tokens` has
`n_prompt_tokens` zero-initialised elements and the fill call writes at its
front; the batch is the whole vector.  (A negative `n_prompt_tokens` would make
the vector constructor throw; the model sizes the vector 0 there.) -/
def generate {σ : Type} (L : llama_api σ) (fuel : Nat) (s : LLaMAServer σ) (prompt : String) :
    gen_result σ :=
  let s0 := { s with slot := { s.slot with n_decoded := 0 } }
  let n_prompt_tokens : Int := -(L.llama_tokenize prompt 0 true true).1
  let s1 := { s0 with calls := s0.calls ++ [api_call.tokenize prompt 0 true] }
  let add_special : Bool := decide (L.llama_get_kv_cache_used_cells s1.ctx = 0)
  let t := L.llama_tokenize prompt n_prompt_tokens.toNat add_special true
  let s2 :=
    { s1 with calls := s1.calls ++ [api_call.tokenize prompt n_prompt_tokens.toNat add_special] }
  if t.1 < 0 then
    let s3 := { s2 with slot := s2.slot.set_state slot_state.SLOT_STATE_ERROR }
    { exit := some gen_exit.tokenize_failed
      response := "Error: Failed to tokenize prompt"
      server := if s3.client_socket ≠ -1 then send_sse_error s3 "Failed to tokenize prompt" else s3 }
  else
    let prompt_tokens : List llama_token := fit 0 n_prompt_tokens.toNat t.2
    generate_loop L fuel s2 prompt_tokens ""

/-! ## `LLaMAServer::generate_response` -/

/-- The way a request ended (ghost): the template failed, or generation ran
and left by `gen_exit`. -/
inductive request_outcome where
  | template_failed
  | generated (e : gen_exit)
deriving DecidableEq, Repr

/-- The result of running `generate_response` on fuel: `outcome = none` when
the loop of `generate` was still running when the fuel ran out, with the state
reached. -/
structure response_result (σ : Type) where
  outcome : Option request_outcome
  response : String
  server : LLaMAServer σ

/-- The method `server_metrics::update_kv_cache_metrics` (the context is never
null once the server is initialised). -/
def server_metrics.update_kv_cache_metrics {σ : Type} (L : llama_api σ) (m : server_metrics)
    (ctx : σ) : server_metrics :=
  { m with
    kv_cache_tokens_count := to_u64 (L.llama_get_kv_cache_token_count ctx)
    kv_cache_used_cells := to_u64 (L.llama_get_kv_cache_used_cells ctx) }

/-- The C function `strdup` on the bytes of a `std::string`: the copy ends at
the first NUL character. -/
def strdup (str : String) : String :=
  String.mk (str.data.takeWhile (fun c => c != Char.ofNat 0))

/-- The first part of `generate_response`, up to the check of the template
length: the slot enters processing, the user turn is appended and the template
is applied (a second time when the buffer was too small).  The result is the
server and `new_len`. -/
def apply_user_template {σ : Type} (L : llama_api σ) (s : LLaMAServer σ) (user_input : String) :
    LLaMAServer σ × Int :=
  let s1 := { s with slot := s.slot.set_state slot_state.SLOT_STATE_PROCESSING }
  let s2 := { s1 with messages := s1.messages ++ [llama_chat_message.mk "user" (strdup user_input)] }
  let r1 := llama_chat_apply_template L s2.messages true s2.formatted
  let s3 := { s2 with formatted := r1.2 }
  if r1.1 > (s3.formatted.length : Int) then
    let r2 := llama_chat_apply_template L s3.messages true (resize s3.formatted r1.1.toNat)
    ({ s3 with formatted := r2.2 }, r2.1)
  else (s3, r1.1)

/-- The last part of `generate_response`, after `generate` returned `response`:
the metrics hooks, the assistant turn, the new boundary and the idle state. -/
def finish_response {σ : Type} (L : llama_api σ) (generation_time : Int) (s : LLaMAServer σ)
    (response : String) : LLaMAServer σ :=
  let s6 := { s with slot := { s.slot with t_token_generation := generation_time } }
  let m1 := s6.metrics.on_prompt_eval s6.slot
  let m2 := m1.on_prediction s6.slot
  let m3 := m2.update_kv_cache_metrics L s6.ctx
  let m4 := m3.on_request
  let s7 := { s6 with metrics := m4 }
  let s8 := { s7 with messages := s7.messages ++ [llama_chat_message.mk "assistant" (strdup response)] }
  let s9 := { s8 with prev_len := L.chat_template_len s8.messages false }
  { s9 with slot := s9.slot.set_state slot_state.SLOT_STATE_IDLE }

/-- The method `LLaMAServer::generate_response`.  `prompt_time` and
`generation_time` are the two clock differences it measures, in microseconds. -/
def generate_response {σ : Type} (L : llama_api σ) (fuel : Nat) (prompt_time generation_time : Int)
    (s : LLaMAServer σ) (user_input : String) : response_result σ :=
  let a := apply_user_template L s user_input
  let s4 := a.1
  let new_len := a.2
  if new_len < 0 then
    { outcome := some request_outcome.template_failed
      response := "Error: Failed to apply chat template"
      server := { s4 with slot := s4.slot.set_state slot_state.SLOT_STATE_ERROR } }
  else
    let prompt := substr s4.formatted s4.prev_len new_len
    let s5 :=
      { s4 with
        slot :=
          { s4.slot with
            t_prompt_processing := prompt_time
            n_prompt_tokens_processed := new_len - s4.prev_len } }
    let g := generate L fuel s5 prompt
    match g.exit with
    | none => { outcome := none, response := g.response, server := g.server }
    | some e =>
      { outcome := some (request_outcome.generated e)
        response := g.response
        server := finish_response L generation_time g.server g.response }

/-- The streaming branch of `handle_http_request` (`use_stream` true): the SSE
headers, then `generate_response` with the client socket set, then the socket
reset. -/
def handle_http_request_stream {σ : Type} (L : llama_api σ) (fuel : Nat)
    (prompt_time generation_time : Int) (client_socket : Int) (s : LLaMAServer σ)
    (prompt : String) : response_result σ :=
  let s1 := send_sse_headers s
  let s2 := s1.set_client_socket client_socket
  let r := generate_response L fuel prompt_time generation_time s2 prompt
  match r.outcome with
  | none => r
  | some _ => { r with server := r.server.set_client_socket (-1) }

/-! ## `server_metrics::get_metrics` -/

/-- Division of two `double` values, with the quotient taken exactly (the
rounding of `double` is not modelled).  The result is `none` when the divisor
is zero: the `double` result is then infinite or not a number, which the JSON
library writes as `null`. -/
def fdiv (a b : ℚ) : Option ℚ :=
  if b = 0 then none else some (a / b)

/-- The JSON object returned by `get_metrics`, field by field. -/
structure metrics_snapshot where
  uptime_seconds : Option ℚ
  tokens_per_second : Option ℚ
  avg_prompt_latency_ms : Option ℚ
  avg_generation_latency_ms : Option ℚ
  busy_slots_ratio : Option ℚ
  total_requests : Nat
  failed_requests : Nat
  success_rate : Option ℚ
  kv_cache_tokens : Nat
  kv_cache_used_cells : Nat
  total_prompt_tokens : Nat
  total_generated_tokens : Nat
  total_decode_calls : Nat
deriving DecidableEq

/-- The method `server_metrics::get_metrics`; `now` is the value of
`ggml_time_us()` at the call.  The method is not `const`: the result carries
the metrics record after the call. -/
def server_metrics.get_metrics (m : server_metrics) (now : Int) :
    metrics_snapshot × server_metrics :=
  ({ uptime_seconds := fdiv ((now - m.t_start : Int) : ℚ) 1000000
     tokens_per_second :=
       if m.t_tokens_generation > 0 then
         fdiv ((m.n_tokens_predicted : ℚ) * 1000) (m.t_tokens_generation : ℚ)
       else some 0
     avg_prompt_latency_ms :=
       if m.n_prompt_tokens_processed > 0 then
         fdiv (m.t_prompt_processing : ℚ) (m.n_prompt_tokens_processed : ℚ)
       else some 0
     avg_generation_latency_ms :=
       if m.n_tokens_predicted > 0 then
         fdiv (m.t_tokens_generation : ℚ) (m.n_tokens_predicted : ℚ)
       else some 0
     busy_slots_ratio :=
       if m.n_decode_total ≠ 0 then fdiv (m.n_busy_slots_total : ℚ) (m.n_decode_total : ℚ)
       else some 0
     total_requests := m.n_requests_total
     failed_requests := m.n_requests_failed
     success_rate :=
       if m.n_requests_total ≠ 0 then
         fdiv (((m.n_requests_total + 2 ^ 64 - m.n_requests_failed) % 2 ^ 64 : Nat) : ℚ)
           (m.n_requests_total : ℚ)
       else some 0
     kv_cache_tokens := m.kv_cache_tokens_count
     kv_cache_used_cells := m.kv_cache_used_cells
     total_prompt_tokens := m.n_prompt_tokens_processed_total
     total_generated_tokens := m.n_tokens_predicted_total
     total_decode_calls := m.n_decode_total }, m)

/-- The method `LLaMAServer::get_metrics`. -/
def LLaMAServer.get_metrics {σ : Type} (s : LLaMAServer σ) (now : Int) :
    metrics_snapshot × LLaMAServer σ :=
  ((s.metrics.get_metrics now).1, { s with metrics := (s.metrics.get_metrics now).2 })

/-! ## `format_success_response` -/

/-- The constant `BUFFER_SIZE`. -/
def BUFFER_SIZE : Nat := 4096

/-- The constant `MIMETYPE_JSON`. -/
def MIMETYPE_JSON : String := "application/json; charset=utf-8"

/-- The function `format_success_response`: `snprintf` writes at most
`BUFFER_SIZE - 1` characters of the formatted text into `response`; `%zu`
prints `data.length()` in decimal and `%s` prints `data.c_str()`, the
characters of `data` before its first NUL. -/
def format_success_response (data : String) : String :=
  String.mk
    (("HTTP/1.1 200 OK\r\n" ++ "Content-Type: " ++ MIMETYPE_JSON ++ "\r\n" ++
        "Content-Length: " ++ toString data.length ++ "\r\n" ++ "\r\n" ++
        strdup data).data.take (BUFFER_SIZE - 1))

/-- The part of an HTTP response after the first blank line (CR LF CR LF). -/
def http_body : List Char → List Char
  | [] => []
  | c :: cs =>
    if (c :: cs).take 4 = ['\r', '\n', '\r', '\n'] then cs.drop 3 else http_body cs

/-! ## A sequence of requests -/

/-- One request to the server: the client socket (`-1` when the request is not
a streaming one), the two clock differences and the prompt. -/
structure request where
  client_socket : Int
  prompt_time : Int
  generation_time : Int
  prompt : String

/-- Successive `generate_response` calls on one server, as the accept loop of
`main` makes them, each with its client socket set beforehand.  The result is
`none` when a call does not return within `fuel` passes of its loop. -/
def generate_responses {σ : Type} (L : llama_api σ) (fuel : Nat) :
    List request → LLaMAServer σ → Option (LLaMAServer σ)
  | [], s => some s
  | q :: qs, s =>
    match
      (generate_response L fuel q.prompt_time q.generation_time
        (s.set_client_socket q.client_socket) q.prompt).outcome with
    | none => none
    | some _ =>
      generate_responses L fuel qs
        (generate_response L fuel q.prompt_time q.generation_time
          (s.set_client_socket q.client_socket) q.prompt).server

/-! ## A small concrete runtime

Used to run the server on concrete requests.  The session state is the number
of used cells; decode adds the batch size; the sampler answers `97 + used`
while fewer than `stop` cells are used and the end-of-generation token `2`
from then on; the tokenizer gives one token per character, after a
beginning-of-sequence token `1` when asked for it; a piece is the token's
character; the template writes each turn as its content followed by `;`, and
`>` as the generation prompt. -/

/-- The rendering of the small template. -/
def toy_render (msgs : List llama_chat_message) (add_ass : Bool) : List Char :=
  (msgs.map (fun m => m.content.data ++ [';'])).flatten ++ (if add_ass then ['>'] else [])

/-- The tokens of the small tokenizer. -/
def toy_tokens (text : String) (add_special : Bool) : List llama_token :=
  (if add_special then [1] else []) ++ text.data.map (fun c => (c.toNat : Int))

/-- The small runtime with context size `n_ctx` and sampler threshold `stop`. -/
def toy_api (n_ctx : Int) (stop : Int) : llama_api Int :=
  { chat_template_len := fun msgs add_ass => (toy_render msgs add_ass).length
    chat_template_buf := fun msgs add_ass buf =>
      (toy_render msgs add_ass).take buf.length ++ buf.drop (toy_render msgs add_ass).length
    llama_tokenize := fun text n_tokens_max add_special _ =>
      if (toy_tokens text add_special).length ≤ n_tokens_max then
        (((toy_tokens text add_special).length : Int), toy_tokens text add_special)
      else (-((toy_tokens text add_special).length : Int), [])
    llama_n_ctx := fun _ => n_ctx
    llama_get_kv_cache_used_cells := fun used => used
    llama_get_kv_cache_token_count := fun used => used
    llama_decode := fun used batch => (0, used + batch.length)
    llama_sampler_sample := fun used => (if used < stop then 97 + used else 2, used)
    llama_token_is_eog := fun tok => decide (tok = 2)
    llama_token_to_piece := fun tok => (1, [Char.ofNat tok.toNat]) }

/-- The tokens of a small tokenizer whose beginning-of-sequence token is
`0`. -/
def toy_tokens_marker_zero (text : String) (add_special : Bool) : List llama_token :=
  (if add_special then [0] else []) ++ text.data.map (fun c => (c.toNat : Int))

/-- The small runtime with the tokenizer whose beginning-of-sequence token is
`0`. -/
def toy_marker_zero (n_ctx : Int) (stop : Int) : llama_api Int :=
  { toy_api n_ctx stop with
    llama_tokenize := fun text n_tokens_max add_special _ =>
      if (toy_tokens_marker_zero text add_special).length ≤ n_tokens_max then
        (((toy_tokens_marker_zero text add_special).length : Int),
          toy_tokens_marker_zero text add_special)
      else (-((toy_tokens_marker_zero text add_special).length : Int), []) }

/-- The small runtime with a chat template that fails on every call. -/
def toy_template_fails (n_ctx : Int) (stop : Int) : llama_api Int :=
  { toy_api n_ctx stop with chat_template_len := fun _ _ => -1 }

/-- The small runtime with a chat template that renders with a generation
prompt and fails without one. -/
def toy_boundary_fails (n_ctx : Int) (stop : Int) : llama_api Int :=
  { toy_api n_ctx stop with
    chat_template_len := fun msgs add_ass =>
      if add_ass then ((toy_render msgs add_ass).length : Int) else -1 }

/-- The small runtime with a decode operation that fails on every call. -/
def toy_decode_fails (n_ctx : Int) (stop : Int) : llama_api Int :=
  { toy_api n_ctx stop with llama_decode := fun used _ => (1, used) }

/-! ## Vocabulary of the statements -/

/-- The tokens returned by the sampler in a list of runtime calls, in order. -/
def sampled_tokens {σ : Type} : List (api_call σ) → List llama_token
  | [] => []
  | api_call.sample tok :: cs => tok :: sampled_tokens cs
  | api_call.tokenize _ _ _ :: cs => sampled_tokens cs
  | api_call.decode _ _ :: cs => sampled_tokens cs

/-- Whether a runtime call is a call of the tokenizer. -/
def api_call.is_tokenize {σ : Type} : api_call σ → Bool
  | api_call.tokenize _ _ _ => true
  | _ => false

/-- A decode call was made with room for its batch: the used cells of the
context it was given plus the batch size do not exceed the context size. -/
def decode_in_capacity {σ : Type} (L : llama_api σ) : api_call σ → Prop
  | api_call.decode ctx batch =>
    L.llama_get_kv_cache_used_cells ctx + (batch.length : Int) ≤ L.llama_n_ctx ctx
  | _ => True

/-- The concatenation of the pieces of a list of tokens, in order. -/
def pieces_text {σ : Type} (L : llama_api σ) : List llama_token → String
  | [] => ""
  | t :: ts => piece_of L t ++ pieces_text L ts

/-- The events `generate` writes to a socket for a generation that produced
`toks` in streaming mode and ended at an end-of-generation token. -/
def stream_of {σ : Type} (L : llama_api σ) (toks : List llama_token) : List sse_event :=
  toks.map (fun t => sse_event.message (piece_of L t)) ++ [sse_event.done]

/-- The value returned by the second (fill) call of the tokenizer in `generate`. -/
def fill_return {σ : Type} (L : llama_api σ) (s : LLaMAServer σ) (prompt : String) : Int :=
  (L.llama_tokenize prompt (-(L.llama_tokenize prompt 0 true true).1).toNat
    (decide (L.llama_get_kv_cache_used_cells s.ctx = 0)) true).1

/-- The batch `generate` enters its loop with: the vector `prompt_tokens`. -/
def prompt_batch {σ : Type} (L : llama_api σ) (s : LLaMAServer σ) (prompt : String) :
    List llama_token :=
  fit 0 (-(L.llama_tokenize prompt 0 true true).1).toNat
    (L.llama_tokenize prompt (-(L.llama_tokenize prompt 0 true true).1).toNat
      (decide (L.llama_get_kv_cache_used_cells s.ctx = 0)) true).2

/-- The server when `generate` enters its loop. -/
def loop_entry {σ : Type} (L : llama_api σ) (s : LLaMAServer σ) (prompt : String) :
    LLaMAServer σ :=
  { s with
    slot := { s.slot with n_decoded := 0 }
    calls := (s.calls ++ [api_call.tokenize prompt 0 true]) ++
      [api_call.tokenize prompt (-(L.llama_tokenize prompt 0 true true).1).toNat
        (decide (L.llama_get_kv_cache_used_cells s.ctx = 0))] }

/-- The text fragments among the events written to a socket, in order. -/
def fragments : List sse_event → List String
  | [] => []
  | sse_event.message data :: es => data :: fragments es
  | sse_event.headers :: es => fragments es
  | sse_event.error _ :: es => fragments es
  | sse_event.done :: es => fragments es

/-- The prompt `generate_response` hands to `generate`. -/
def prompt_text {σ : Type} (L : llama_api σ) (s : LLaMAServer σ) (user_input : String) : String :=
  substr (apply_user_template L s user_input).1.formatted
    (apply_user_template L s user_input).1.prev_len (apply_user_template L s user_input).2

/-- The server `generate_response` hands to `generate`. -/
def generation_entry {σ : Type} (L : llama_api σ) (prompt_time : Int) (s : LLaMAServer σ)
    (user_input : String) : LLaMAServer σ :=
  { (apply_user_template L s user_input).1 with
    slot :=
      { (apply_user_template L s user_input).1.slot with
        t_prompt_processing := prompt_time
        n_prompt_tokens_processed :=
          (apply_user_template L s user_input).2 -
            (apply_user_template L s user_input).1.prev_len } }

/-- The last event `generate` writes to a socket when it leaves by `e`. -/
def terminal_event : gen_exit → sse_event
  | gen_exit.tokenize_failed => sse_event.error "Failed to tokenize prompt"
  | gen_exit.context_exceeded => sse_event.error "Context size exceeded"
  | gen_exit.decode_failed => sse_event.error "Failed to decode"
  | gen_exit.piece_failed => sse_event.error "Failed to convert token to text"
  | gen_exit.eog => sse_event.done

/-! ## `ring_buffer` (`src/llyy.cpp/common/sampling.cpp`)

The fields are `size_t` in the source; they stay below the capacity of a
`std::vector`, so no wraparound is modelled.  A capacity of 0 makes the
source divide by zero; the statements below take a positive capacity.  An
exception thrown by a member function is the `Except.error` result with the
message of the `std::runtime_error`; it is thrown before any field is
written. -/

/-- The struct `ring_buffer<T>`. -/
structure ring_buffer (T : Type) where
  capacity : Nat
  sz : Nat
  first : Nat
  pos : Nat
  data : List T

/-- The constructor `ring_buffer(size_t cap)`: `data(cap)` holds `cap`
value-initialised elements. -/
def ring_buffer.new {T : Type} [Inhabited T] (cap : Nat) : ring_buffer T :=
  { capacity := cap, sz := 0, first := 0, pos := 0, data := List.replicate cap default }

/-- The member `front`. -/
def ring_buffer.front {T : Type} [Inhabited T] (rb : ring_buffer T) : Except String T :=
  if rb.sz = 0 then Except.error "ring buffer is empty"
  else Except.ok (rb.data.getD rb.first default)

/-- The member `back`. -/
def ring_buffer.back {T : Type} [Inhabited T] (rb : ring_buffer T) : Except String T :=
  if rb.sz = 0 then Except.error "ring buffer is empty"
  else Except.ok (rb.data.getD rb.pos default)

/-- The member `push_back`. -/
def ring_buffer.push_back {T : Type} (rb : ring_buffer T) (value : T) : ring_buffer T :=
  let rb1 :=
    if rb.sz = rb.capacity then { rb with first := (rb.first + 1) % rb.capacity }
    else { rb with sz := rb.sz + 1 }
  { rb1 with data := rb1.data.set rb1.pos value, pos := (rb1.pos + 1) % rb1.capacity }

/-- The member `pop_front`: the value and the buffer afterwards. -/
def ring_buffer.pop_front {T : Type} [Inhabited T] (rb : ring_buffer T) :
    Except String (T × ring_buffer T) :=
  if rb.sz = 0 then Except.error "ring buffer is empty"
  else
    Except.ok
      (rb.data.getD rb.first default,
        { rb with first := (rb.first + 1) % rb.capacity, sz := rb.sz - 1 })

/-- The member `rat`. -/
def ring_buffer.rat {T : Type} [Inhabited T] (rb : ring_buffer T) (i : Nat) : Except String T :=
  if i ≥ rb.sz then Except.error "ring buffer: index out of bounds"
  else Except.ok (rb.data.getD ((rb.first + rb.sz - i - 1) % rb.capacity) default)

/-- The member `to_vector`. -/
def ring_buffer.to_vector {T : Type} [Inhabited T] (rb : ring_buffer T) : List T :=
  (List.range rb.sz).map (fun i => rb.data.getD ((rb.first + i) % rb.capacity) default)

/-- The member `clear`. -/
def ring_buffer.clear {T : Type} (rb : ring_buffer T) : ring_buffer T :=
  { rb with sz := 0, first := 0, pos := 0 }

/-- The member `empty`. -/
def ring_buffer.empty {T : Type} (rb : ring_buffer T) : Bool :=
  rb.sz == 0

/-- The member `size`. -/
def ring_buffer.size {T : Type} (rb : ring_buffer T) : Nat :=
  rb.sz

/-- A state-changing operation on a ring buffer. -/
inductive ring_op (T : Type) where
  | push_back (value : T)
  | pop_front
  | clear

/-- The buffer after one operation.  A `pop_front` that throws leaves the
buffer as it was. -/
def ring_buffer.apply {T : Type} [Inhabited T] (rb : ring_buffer T) : ring_op T → ring_buffer T
  | ring_op.push_back value => rb.push_back value
  | ring_op.pop_front =>
    match rb.pop_front with
    | Except.ok r => r.2
    | Except.error _ => rb
  | ring_op.clear => rb.clear

/-- The buffer after a sequence of operations, first to last. -/
def ring_buffer.run {T : Type} [Inhabited T] (rb : ring_buffer T) (ops : List (ring_op T)) :
    ring_buffer T :=
  ops.foldl ring_buffer.apply rb

/-- The bounded FIFO list of capacity `c`, written from the description: a
push appends the value at the end, dropping the oldest element first when the
list already holds `c` elements; a `pop_front` removes the first element; a
`clear` empties the list. -/
def fifo_step {T : Type} (c : Nat) (l : List T) : ring_op T → List T
  | ring_op.push_back value => (if l.length = c then l.drop 1 else l) ++ [value]
  | ring_op.pop_front => l.drop 1
  | ring_op.clear => []

/-- The bounded FIFO list after a sequence of operations, from the empty list. -/
def fifo_run {T : Type} (c : Nat) (ops : List (ring_op T)) : List T :=
  ops.foldl (fifo_step c) []

/-- What ties the fields of a ring buffer together in every state reached from
an empty buffer of positive capacity. -/
def ring_buffer.wf {T : Type} (rb : ring_buffer T) : Prop :=
  0 < rb.capacity ∧ rb.data.length = rb.capacity ∧ rb.sz ≤ rb.capacity ∧
    rb.first < rb.capacity ∧ rb.pos = (rb.first + rb.sz) % rb.capacity

/-! ## `common_sampler` (`src/llyy.cpp/common/sampling.cpp`)

The samplers behind `llama_sampler *` and the logits of the context belong to
the llama runtime; they are a parameter, a record `sampler_api σ F` over the
state `σ` of a `llama_sampler` and the type `F` of `float` values.  An
`Option` result is `none` when a `GGML_ASSERT` aborts the process or an index
leaves its array. -/

/-- The struct `llama_token_data`. -/
structure llama_token_data (F : Type) where
  id : llama_token
  logit : F
  p : F

/-- The struct `llama_token_data_array`; `size` is the length of `data`. -/
structure llama_token_data_array (F : Type) where
  data : List (llama_token_data F)
  selected : Int
  sorted : Bool

/-- The runtime functions the sampler calls: the logits of the context at an
output index (one per vocabulary token), `llama_sampler_apply` and
`llama_sampler_accept` on one sampler, and the `float` constants `0.0f`, `1.0f`
and `-INFINITY`. -/
structure sampler_api (σ F : Type) where
  llama_get_logits_ith : Int → List F
  llama_sampler_apply : σ → llama_token_data_array F → llama_token_data_array F × σ
  llama_sampler_accept : σ → llama_token → σ
  zero : F
  one : F
  neg_infinity : F

/-- What a sampler did, in order (ghost): a token sampled at an output index,
a token accepted. -/
inductive sampler_event where
  | sampled (idx : Int) (id : llama_token)
  | accepted (token : llama_token) (accept_grammar : Bool)
deriving DecidableEq, Repr

/-- The struct `common_sampler`.  The vector `cur` is the storage behind
`cur_p.data`; `params` plays no part after `common_sampler_init`; `log` is
ghost. -/
structure common_sampler (σ F : Type) where
  grmr : σ
  chain : σ
  prev : ring_buffer llama_token
  cur_p : llama_token_data_array F
  log : List sampler_event

/-- The member `common_sampler::set_logits`. -/
def common_sampler.set_logits {σ F : Type} (A : sampler_api σ F) (gsmpl : common_sampler σ F)
    (idx : Int) : common_sampler σ F :=
  { gsmpl with
    cur_p :=
      { data :=
          (A.llama_get_logits_ith idx).mapIdx
            (fun token_id logit => { id := (token_id : Int), logit := logit, p := A.zero })
        selected := -1
        sorted := false } }

/-- The token `cur_p.data[cur_p.selected].id` after the assertion
`cur_p.selected != -1`. -/
def selected_id {F : Type} (cur_p : llama_token_data_array F) : Option llama_token :=
  if cur_p.selected < 0 then none
  else (cur_p.data[cur_p.selected.toNat]?).map (fun d => d.id)

/-- The function `common_sampler_accept`. -/
def common_sampler_accept {σ F : Type} (A : sampler_api σ F) (gsmpl : common_sampler σ F)
    (token : llama_token) (accept_grammar : Bool) : common_sampler σ F :=
  { gsmpl with
    grmr := if accept_grammar then A.llama_sampler_accept gsmpl.grmr token else gsmpl.grmr
    chain := A.llama_sampler_accept gsmpl.chain token
    prev := gsmpl.prev.push_back token
    log := gsmpl.log ++ [sampler_event.accepted token accept_grammar] }

/-- The function `common_sampler_last`. -/
def common_sampler_last {σ F : Type} (gsmpl : common_sampler σ F) : Except String llama_token :=
  gsmpl.prev.rat 0

/-- The function `common_sampler_sample`. -/
def common_sampler_sample {σ F : Type} [DecidableEq F] (A : sampler_api σ F)
    (gsmpl : common_sampler σ F) (idx : Int) (grammar_first : Bool) :
    Option (llama_token × common_sampler σ F) :=
  let g1 := gsmpl.set_logits A idx
  let a1 :=
    if grammar_first then A.llama_sampler_apply g1.grmr g1.cur_p else (g1.cur_p, g1.grmr)
  let a2 := A.llama_sampler_apply g1.chain a1.1
  let g2 := { g1 with grmr := a1.2, chain := a2.2, cur_p := a2.1 }
  match selected_id g2.cur_p with
  | none => none
  | some id =>
    if grammar_first then
      some (id, { g2 with log := g2.log ++ [sampler_event.sampled idx id] })
    else
      let single : llama_token_data_array F :=
        { data := [{ id := id, logit := A.one, p := A.zero }], selected := -1, sorted := false }
      let a3 := A.llama_sampler_apply g2.grmr single
      let g3 := { g2 with grmr := a3.2 }
      match a3.1.data.head? with
      | none => none
      | some d =>
        if d.logit ≠ A.neg_infinity then
          some (id, { g3 with log := g3.log ++ [sampler_event.sampled idx id] })
        else
          let g4 := g3.set_logits A idx
          let a4 := A.llama_sampler_apply g4.grmr g4.cur_p
          let a5 := A.llama_sampler_apply g4.chain a4.1
          let g5 := { g4 with grmr := a4.2, chain := a5.2, cur_p := a5.1 }
          match selected_id g5.cur_p with
          | none => none
          | some id2 =>
            some (id2, { g5 with log := g5.log ++ [sampler_event.sampled idx id2] })

/-- The `for` loop of `common_sampler_sample_and_accept_n`, entered with the
index `i`, the part of `draft` from `i` on, and the tokens pushed so far.  It
returns the final `i` (not advanced by a `break`), the result and the sampler. -/
def sample_and_accept_loop {σ F : Type} [DecidableEq F] (A : sampler_api σ F)
    (idxs : List Int) (grammar_first : Bool) :
    Nat → List llama_token → List llama_token → common_sampler σ F →
      Option (Nat × List llama_token × common_sampler σ F)
  | i, [], result, gsmpl => some (i, result, gsmpl)
  | i, d :: ds, result, gsmpl =>
    match common_sampler_sample A gsmpl (idxs.getD i 0) grammar_first with
    | none => none
    | some r =>
      let g2 := common_sampler_accept A r.2 r.1 true
      if d ≠ r.1 then some (i, result ++ [r.1], g2)
      else sample_and_accept_loop A idxs grammar_first (i + 1) ds (result ++ [r.1]) g2

/-- The function `common_sampler_sample_and_accept_n` with `idxs`. -/
def common_sampler_sample_and_accept_n {σ F : Type} [DecidableEq F] (A : sampler_api σ F)
    (gsmpl : common_sampler σ F) (idxs : List Int) (draft : List llama_token)
    (grammar_first : Bool) : Option (List llama_token × common_sampler σ F) :=
  if idxs.length ≠ draft.length + 1 then none
  else
    match sample_and_accept_loop A idxs grammar_first 0 draft [] gsmpl with
    | none => none
    | some l =>
      if l.1 = draft.length then
        match common_sampler_sample A l.2.2 (idxs.getD l.1 0) grammar_first with
        | none => none
        | some r => some (l.2.1 ++ [r.1], common_sampler_accept A r.2 r.1 true)
      else some (l.2.1, l.2.2)

/-- The overload of `common_sampler_sample_and_accept_n` without `idxs`: the
indices are `0, 1, …, draft.size()`. -/
def common_sampler_sample_and_accept_n_draft {σ F : Type} [DecidableEq F] (A : sampler_api σ F)
    (gsmpl : common_sampler σ F) (draft : List llama_token) (grammar_first : Bool) :
    Option (List llama_token × common_sampler σ F) :=
  common_sampler_sample_and_accept_n A gsmpl
    ((List.range (draft.length + 1)).map (fun i => (i : Int))) draft grammar_first

/-- The events of sampling each token of `r` at the index of `idxs` at its
position and accepting it, one token after the other. -/
def sample_accept_events : List Int → List llama_token → List sampler_event
  | idx :: idxs, id :: r =>
    sampler_event.sampled idx id :: sampler_event.accepted id true :: sample_accept_events idxs r
  | _, _ => []

/-- A small sampler runtime, to run the sampler on concrete inputs: a
vocabulary of 8 tokens; the logits at output index `idx` are 1 for the token
`idx` and 0 for the others; a sampler whose state is `true` (the chain)
selects the first candidate of logit 1, a sampler whose state is `false` (the
grammar) leaves the candidates as they are. -/
def toy_sampler_api : sampler_api Bool Int :=
  { llama_get_logits_ith := fun idx =>
      (List.range 8).map (fun k => if (k : Int) = idx then 1 else 0)
    llama_sampler_apply := fun st cur_p =>
      if st then
        ({ cur_p with selected := (cur_p.data.findIdx (fun d => d.logit == 1) : Nat) }, st)
      else (cur_p, st)
    llama_sampler_accept := fun st _ => st
    zero := 0
    one := 1
    neg_infinity := -1000000 }

/-- A sampler over the small runtime with an empty history of capacity 32. -/
def toy_sampler : common_sampler Bool Int :=
  { grmr := false
    chain := true
    prev := ring_buffer.new 32
    cur_p := { data := [], selected := -1, sorted := false }
    log := [] }

/-- A sampler runtime whose samplers all select the first candidate: a
vocabulary of 8 tokens, every sampling succeeds and yields the token 0. -/
def first_sampler_api : sampler_api Unit Int :=
  { llama_get_logits_ith := fun idx =>
      (List.range 8).map (fun k => if (k : Int) = idx then 1 else 0)
    llama_sampler_apply := fun st cur_p => ({ cur_p with selected := 0 }, st)
    llama_sampler_accept := fun st _ => st
    zero := 0
    one := 1
    neg_infinity := -1000000 }

/-- A sampler over `first_sampler_api` with an empty history of capacity 32. -/
def first_sampler : common_sampler Unit Int :=
  { grmr := ()
    chain := ()
    prev := ring_buffer.new 32
    cur_p := { data := [], selected := -1, sorted := false }
    log := [] }

/-! ## Sampler type names (`src/llyy.cpp/common/sampling.cpp`) -/

/-- Modelled from the spec: the enum `common_sampler_type` is declared in
`common.h`, which is not among the sources.  The nine enumerators are the ones
named in the `switch` statements of `sampling.cpp`;
`COMMON_SAMPLER_TYPE_NONE` stands for every other value of the enum (the
`default` branches). -/
inductive common_sampler_type where
  | COMMON_SAMPLER_TYPE_NONE
  | COMMON_SAMPLER_TYPE_DRY
  | COMMON_SAMPLER_TYPE_TOP_K
  | COMMON_SAMPLER_TYPE_TOP_P
  | COMMON_SAMPLER_TYPE_MIN_P
  | COMMON_SAMPLER_TYPE_TYPICAL_P
  | COMMON_SAMPLER_TYPE_TEMPERATURE
  | COMMON_SAMPLER_TYPE_XTC
  | COMMON_SAMPLER_TYPE_INFILL
  | COMMON_SAMPLER_TYPE_PENALTIES
deriving DecidableEq, Repr

open common_sampler_type in
/-- The function `common_sampler_type_to_chr`. -/
def common_sampler_type_to_chr : common_sampler_type → Char
  | COMMON_SAMPLER_TYPE_DRY => 'd'
  | COMMON_SAMPLER_TYPE_TOP_K => 'k'
  | COMMON_SAMPLER_TYPE_TYPICAL_P => 'y'
  | COMMON_SAMPLER_TYPE_TOP_P => 'p'
  | COMMON_SAMPLER_TYPE_MIN_P => 'm'
  | COMMON_SAMPLER_TYPE_TEMPERATURE => 't'
  | COMMON_SAMPLER_TYPE_XTC => 'x'
  | COMMON_SAMPLER_TYPE_INFILL => 'i'
  | COMMON_SAMPLER_TYPE_PENALTIES => 'e'
  | COMMON_SAMPLER_TYPE_NONE => '?'

open common_sampler_type in
/-- The function `common_sampler_type_to_str`. -/
def common_sampler_type_to_str : common_sampler_type → String
  | COMMON_SAMPLER_TYPE_DRY => "dry"
  | COMMON_SAMPLER_TYPE_TOP_K => "top_k"
  | COMMON_SAMPLER_TYPE_TYPICAL_P => "typ_p"
  | COMMON_SAMPLER_TYPE_TOP_P => "top_p"
  | COMMON_SAMPLER_TYPE_MIN_P => "min_p"
  | COMMON_SAMPLER_TYPE_TEMPERATURE => "temperature"
  | COMMON_SAMPLER_TYPE_XTC => "xtc"
  | COMMON_SAMPLER_TYPE_INFILL => "infill"
  | COMMON_SAMPLER_TYPE_PENALTIES => "penalties"
  | COMMON_SAMPLER_TYPE_NONE => ""

open common_sampler_type in
/-- The map `sampler_canonical_name_map` of `common_sampler_types_from_names`,
as the list of its initialisers; `find` is the lookup of the first entry with
the key. -/
def sampler_canonical_name_map : List (String × common_sampler_type) :=
  [("dry", COMMON_SAMPLER_TYPE_DRY), ("top_k", COMMON_SAMPLER_TYPE_TOP_K),
    ("top_p", COMMON_SAMPLER_TYPE_TOP_P), ("typ_p", COMMON_SAMPLER_TYPE_TYPICAL_P),
    ("min_p", COMMON_SAMPLER_TYPE_MIN_P), ("temperature", COMMON_SAMPLER_TYPE_TEMPERATURE),
    ("xtc", COMMON_SAMPLER_TYPE_XTC), ("infill", COMMON_SAMPLER_TYPE_INFILL),
    ("penalties", COMMON_SAMPLER_TYPE_PENALTIES)]

open common_sampler_type in
/-- The map `sampler_alt_name_map` of `common_sampler_types_from_names`. -/
def sampler_alt_name_map : List (String × common_sampler_type) :=
  [("top-k", COMMON_SAMPLER_TYPE_TOP_K), ("top-p", COMMON_SAMPLER_TYPE_TOP_P),
    ("nucleus", COMMON_SAMPLER_TYPE_TOP_P), ("typical-p", COMMON_SAMPLER_TYPE_TYPICAL_P),
    ("typical", COMMON_SAMPLER_TYPE_TYPICAL_P), ("typ-p", COMMON_SAMPLER_TYPE_TYPICAL_P),
    ("typ", COMMON_SAMPLER_TYPE_TYPICAL_P), ("min-p", COMMON_SAMPLER_TYPE_MIN_P),
    ("temp", COMMON_SAMPLER_TYPE_TEMPERATURE)]

/-- The function `common_sampler_types_from_names`. -/
def common_sampler_types_from_names (names : List String) (allow_alt_names : Bool) :
    List common_sampler_type :=
  names.filterMap (fun name =>
    match sampler_canonical_name_map.lookup name with
    | some sampler => some sampler
    | none => if allow_alt_names then sampler_alt_name_map.lookup name else none)

open common_sampler_type in
/-- The map `sampler_name_map` of `common_sampler_types_from_chars`. -/
def sampler_name_map : List (Char × common_sampler_type) :=
  [COMMON_SAMPLER_TYPE_DRY, COMMON_SAMPLER_TYPE_TOP_K, COMMON_SAMPLER_TYPE_TYPICAL_P,
    COMMON_SAMPLER_TYPE_TOP_P, COMMON_SAMPLER_TYPE_MIN_P, COMMON_SAMPLER_TYPE_TEMPERATURE,
    COMMON_SAMPLER_TYPE_XTC, COMMON_SAMPLER_TYPE_INFILL, COMMON_SAMPLER_TYPE_PENALTIES].map
    (fun t => (common_sampler_type_to_chr t, t))

/-- The function `common_sampler_types_from_chars`. -/
def common_sampler_types_from_chars (chars : String) : List common_sampler_type :=
  chars.data.filterMap (fun c => sampler_name_map.lookup c)

/-! ## `handle_http_request`

The JSON library (cJSON) is not among the sources; it is a parameter, a record
`cjson_api J` over the type `J` of a parsed item.  `request_body` is a C
string: the characters before the terminating NUL. -/

/-- The cJSON functions `handle_http_request` calls.  `cJSON_GetObjectItem`
gives `none` for the null pointer; `cJSON_Print_response text` is the text
`cJSON_Print` gives for the object whose only member is `"response"` with the
string `text`. -/
structure cjson_api (J : Type) where
  cJSON_Parse : String → Option J
  cJSON_GetObjectItem : J → String → Option J
  cJSON_IsString : J → Bool
  cJSON_IsTrue : J → Bool
  valuestring : J → String
  cJSON_Print_response : String → String

/-- The test `strstr(haystack, needle) != nullptr`. -/
def strstr : List Char → List Char → Bool
  | [], needle => needle.isEmpty
  | c :: cs, needle => needle.isPrefixOf (c :: cs) || strstr cs needle

/-- What `handle_http_request` writes to the socket with `send`, apart from the
SSE events of a streaming request: the metrics reply, the reply to an OPTIONS
request, an error reply with its message and type, or a text. -/
inductive http_reply where
  | metrics (snapshot : metrics_snapshot)
  | cors
  | error (message : String) (type : Nat)
  | text (response : String)
deriving DecidableEq

/-- The outcome of `handle_http_request`: the server, the replies sent, the
number of `generate_response` calls made (ghost), and whether the function
returned within the fuel of the generation loop. -/
structure http_result (σ : Type) where
  server : LLaMAServer σ
  replies : List http_reply
  generate_response_calls : Nat
  returned : Bool

/-- The enumerator `ERROR_TYPE_INVALID_REQUEST`. -/
def ERROR_TYPE_INVALID_REQUEST : Nat := 400

/-- The function `handle_http_request`.  `now` is the clock value a metrics
request reads; `prompt_time` and `generation_time` are the clock differences
`generate_response` measures. -/
def handle_http_request {σ J : Type} (L : llama_api σ) (C : cjson_api J) (fuel : Nat)
    (now prompt_time generation_time : Int) (client_socket : Int) (request_body : String)
    (llama : LLaMAServer σ) : http_result σ :=
  if strstr request_body.data "GET /metrics".data then
    { server := (llama.get_metrics now).2
      replies := [http_reply.metrics (llama.get_metrics now).1]
      generate_response_calls := 0
      returned := true }
  else if strstr request_body.data "OPTIONS".data then
    { server := llama, replies := [http_reply.cors], generate_response_calls := 0,
      returned := true }
  else
    match C.cJSON_Parse request_body with
    | none =>
      { server := llama
        replies := [http_reply.error "Invalid JSON" ERROR_TYPE_INVALID_REQUEST]
        generate_response_calls := 0
        returned := true }
    | some request =>
      match (C.cJSON_GetObjectItem request "prompt").filter C.cJSON_IsString with
      | none =>
        { server := llama
          replies := [http_reply.error "Missing prompt field" ERROR_TYPE_INVALID_REQUEST]
          generate_response_calls := 0
          returned := true }
      | some prompt_item =>
        let use_stream :=
          match C.cJSON_GetObjectItem request "stream" with
          | none => false
          | some stream_item => C.cJSON_IsTrue stream_item
        if use_stream then
          let r :=
            handle_http_request_stream L fuel prompt_time generation_time client_socket llama
              (C.valuestring prompt_item)
          { server := r.server, replies := [], generate_response_calls := 1,
            returned := r.outcome.isSome }
        else
          let r :=
            generate_response L fuel prompt_time generation_time llama
              (C.valuestring prompt_item)
          match r.outcome with
          | none =>
            { server := r.server, replies := [], generate_response_calls := 1,
              returned := false }
          | some _ =>
            { server := r.server
              replies :=
                [http_reply.text (format_success_response (C.cJSON_Print_response r.response))]
              generate_response_calls := 1
              returned := true }

/-- A small JSON reader, to run `handle_http_request` on concrete bodies: it
reads the bodies made of one member `"prompt"` with a string without escapes,
written without blanks, and gives the string as the item. -/
def toy_cjson : cjson_api String :=
  { cJSON_Parse := fun body =>
      if "\x7b\"prompt\":\"".data.isPrefixOf body.data ∧ "\"\x7d".data.isSuffixOf body.data ∧
          13 ≤ body.data.length then
        some (String.mk ((body.data.drop 11).take (body.data.length - 13)))
      else none
    cJSON_GetObjectItem := fun item name => if name = "prompt" then some item else none
    cJSON_IsString := fun _ => true
    cJSON_IsTrue := fun _ => false
    valuestring := fun item => item
    cJSON_Print_response := fun text => "\x7b\"response\":\"" ++ text ++ "\"\x7d" }

/-! ## One pass through the loop body -/

theorem sampled_tokens_append {σ : Type} (a b : List (api_call σ)) :
    sampled_tokens (a ++ b) = sampled_tokens a ++ sampled_tokens b := by
  induction a with
  | nil => rfl
  | cons c cs ih => cases c <;> simp [sampled_tokens, ih]

theorem generate_body_next {σ : Type} (L : llama_api σ) (s s1 : LLaMAServer σ)
    (batch batch1 : List llama_token) (response response1 : String)
    (h : generate_body L s batch response = loop_step.next s1 batch1 response1) :
    ∃ tok, s1.calls = s.calls ++ [api_call.decode s.ctx batch, api_call.sample tok] ∧
      L.llama_token_is_eog tok = false ∧ batch1 = [tok] ∧
      response1 = response ++ piece_of L tok ∧
      s1.slot.n_decoded = s.slot.n_decoded + 1 ∧
      s1.sent = s.sent ++ (if s.client_socket ≠ -1 then [sse_event.message (piece_of L tok)] else []) ∧
      s1.client_socket = s.client_socket ∧ s1.formatted = s.formatted ∧
      s1.messages = s.messages ∧ s1.prev_len = s.prev_len ∧
      L.llama_get_kv_cache_used_cells s.ctx + (batch.length : Int) ≤ L.llama_n_ctx s.ctx := by
  simp only [generate_body] at h
  split_ifs at h with h1 h2 h3 h4 h5
  all_goals
    simp only [loop_step.next.injEq] at h
    obtain ⟨rfl, rfl, rfl⟩ := h
    refine ⟨(L.llama_sampler_sample (L.llama_decode s.ctx batch).2).1, ?_⟩
    simp_all [send_sse_message]

theorem generate_body_ret {σ : Type} (L : llama_api σ) (s s1 : LLaMAServer σ)
    (batch : List llama_token) (response r : String) (e : gen_exit)
    (h : generate_body L s batch response = loop_step.ret e r s1) :
    (∃ new, s1.calls = s.calls ++ new ∧
      ∀ c ∈ new, decode_in_capacity L c ∧ c.is_tokenize = false) ∧
    s1.client_socket = s.client_socket ∧ s1.formatted = s.formatted ∧
    s1.messages = s.messages ∧ s1.prev_len = s.prev_len := by
  simp only [generate_body] at h
  split_ifs at h with h1 h2 h3 h4 h5 h6 h7 h8
  all_goals
    simp only [loop_step.ret.injEq] at h
    obtain ⟨rfl, rfl, rfl⟩ := h
    simp_all [send_sse_error, send_sse_done, decode_in_capacity, api_call.is_tokenize]

theorem generate_body_eog {σ : Type} (L : llama_api σ) (s s1 : LLaMAServer σ)
    (batch : List llama_token) (response r : String)
    (h : generate_body L s batch response = loop_step.ret gen_exit.eog r s1) :
    ∃ last, s1.calls = s.calls ++ [api_call.decode s.ctx batch, api_call.sample last] ∧
      L.llama_token_is_eog last = true ∧ r = response ∧
      s1.slot.n_decoded = s.slot.n_decoded ∧
      s1.sent = s.sent ++ (if s.client_socket ≠ -1 then [sse_event.done] else []) := by
  simp only [generate_body] at h
  split_ifs at h with h1 h2 h3 h4 h5 h6 h7 h8
  all_goals
    simp only [loop_step.ret.injEq] at h
    obtain ⟨h0, rfl, rfl⟩ := h
    first
      | exact absurd h0 (by decide)
      | (refine ⟨(L.llama_sampler_sample (L.llama_decode s.ctx batch).2).1, ?_⟩
         simp_all [send_sse_done])

/-! ## The loop -/

theorem generate_loop_calls {σ : Type} (L : llama_api σ) (fuel : Nat) :
    ∀ (s : LLaMAServer σ) (batch : List llama_token) (response : String),
      ∃ new, (generate_loop L fuel s batch response).server.calls = s.calls ++ new ∧
        ∀ c ∈ new, decode_in_capacity L c ∧ c.is_tokenize = false := by
  induction fuel with
  | zero => intro s batch response; exact ⟨[], by simp [generate_loop]⟩
  | succ n ih =>
    intro s batch response
    simp only [generate_loop]
    cases hb : generate_body L s batch response with
    | ret e r s1 => exact (generate_body_ret L s s1 batch response r e hb).1
    | next s1 batch1 response1 =>
      obtain ⟨tok, hc, -, -, -, -, -, -, -, -, -, hcap⟩ :=
        generate_body_next L s s1 batch batch1 response response1 hb
      obtain ⟨new, hnew, hall⟩ := ih s1 batch1 response1
      refine ⟨[api_call.decode s.ctx batch, api_call.sample tok] ++ new, ?_, ?_⟩
      · simp only [hnew, hc, List.append_assoc]
      · intro c hcmem
        rcases List.mem_append.mp hcmem with hc1 | hc2
        · simp only [List.mem_cons, List.mem_singleton, List.not_mem_nil, or_false] at hc1
          rcases hc1 with rfl | rfl
          · exact ⟨hcap, rfl⟩
          · exact ⟨trivial, rfl⟩
        · exact hall c hc2

theorem generate_loop_frame {σ : Type} (L : llama_api σ) (fuel : Nat) :
    ∀ (s : LLaMAServer σ) (batch : List llama_token) (response : String),
      (generate_loop L fuel s batch response).server.client_socket = s.client_socket ∧
      (generate_loop L fuel s batch response).server.formatted = s.formatted ∧
      (generate_loop L fuel s batch response).server.messages = s.messages ∧
      (generate_loop L fuel s batch response).server.prev_len = s.prev_len := by
  induction fuel with
  | zero => intro s batch response; simp [generate_loop]
  | succ n ih =>
    intro s batch response
    simp only [generate_loop]
    cases hb : generate_body L s batch response with
    | ret e r s1 => exact (generate_body_ret L s s1 batch response r e hb).2
    | next s1 batch1 response1 =>
      obtain ⟨tok, -, -, -, -, -, -, h1, h2, h3, h4, -⟩ :=
        generate_body_next L s s1 batch batch1 response response1 hb
      obtain ⟨i1, i2, i3, i4⟩ := ih s1 batch1 response1
      exact ⟨i1.trans h1, i2.trans h2, i3.trans h3, i4.trans h4⟩

theorem generate_loop_eog {σ : Type} (L : llama_api σ) (fuel : Nat) :
    ∀ (s : LLaMAServer σ) (batch : List llama_token) (response : String),
      (generate_loop L fuel s batch response).exit = some gen_exit.eog →
      ∃ toks last,
        sampled_tokens (generate_loop L fuel s batch response).server.calls =
          sampled_tokens s.calls ++ (toks ++ [last]) ∧
        (∀ t ∈ toks, L.llama_token_is_eog t = false) ∧
        L.llama_token_is_eog last = true ∧
        (generate_loop L fuel s batch response).response = response ++ pieces_text L toks ∧
        (generate_loop L fuel s batch response).server.slot.n_decoded =
          s.slot.n_decoded + (toks.length : Int) ∧
        (generate_loop L fuel s batch response).server.sent =
          s.sent ++ (if s.client_socket ≠ -1 then stream_of L toks else []) := by
  induction fuel with
  | zero => intro s batch response h; simp [generate_loop] at h
  | succ n ih =>
    intro s batch response
    simp only [generate_loop]
    cases hb : generate_body L s batch response with
    | ret e r s1 =>
      intro he
      simp only [Option.some.injEq] at he
      subst he
      obtain ⟨last, hc, hl, hr, hn, hs⟩ := generate_body_eog L s s1 batch response r hb
      refine ⟨[], last, ?_, ?_, hl, ?_, ?_, ?_⟩
      · simp [hc, sampled_tokens_append, sampled_tokens]
      · intro t ht; simp at ht
      · simp [hr, pieces_text]
      · simp [hn]
      · simp only [hs, stream_of, List.map_nil, List.nil_append]
    | next s1 batch1 response1 =>
      intro he
      obtain ⟨tok, hc, hne, -, hr, hn, hs, hsock, -, -, -, -⟩ :=
        generate_body_next L s s1 batch batch1 response response1 hb
      obtain ⟨toks, last, i1, i2, i3, i4, i5, i6⟩ := ih s1 batch1 response1 he
      refine ⟨tok :: toks, last, ?_, ?_, i3, ?_, ?_, ?_⟩
      · simp [i1, hc, sampled_tokens_append, sampled_tokens]
      · intro t ht
        rcases List.mem_cons.mp ht with rfl | ht
        · exact hne
        · exact i2 t ht
      · rw [i4, hr, String.append_assoc]; rfl
      · simp only [i5, hn, List.length_cons]; push_cast; ring
      · rw [i6, hs, hsock]
        by_cases hk : s.client_socket ≠ -1
        · simp [hk, stream_of]
        · simp [hk]

/-- Once the loop has left within `fuel` passes, more fuel changes nothing. -/
theorem generate_loop_fuel_mono {σ : Type} (L : llama_api σ) (fuel : Nat) :
    ∀ (s : LLaMAServer σ) (batch : List llama_token) (response : String) (e : gen_exit)
      (more : Nat),
      (generate_loop L fuel s batch response).exit = some e →
      generate_loop L (fuel + more) s batch response = generate_loop L fuel s batch response := by
  induction fuel with
  | zero => intro s batch response e more h; simp [generate_loop] at h
  | succ n ih =>
    intro s batch response e more h
    rw [show n + 1 + more = (n + more) + 1 by omega]
    simp only [generate_loop] at h ⊢
    cases hb : generate_body L s batch response with
    | ret e1 r s1 => rfl
    | next s1 batch1 response1 =>
      rw [hb] at h
      exact ih s1 batch1 response1 e more h

/-! ## Tokenization and the loop together -/

theorem fit_length {α : Type} (pad : α) (n : Nat) (l : List α) : (fit pad n l).length = n := by
  simp only [fit, List.length_take, List.length_append, List.length_replicate]
  omega

theorem generate_of_fill_ok {σ : Type} (L : llama_api σ) (fuel : Nat) (s : LLaMAServer σ)
    (prompt : String) (h : ¬ fill_return L s prompt < 0) :
    generate L fuel s prompt =
      generate_loop L fuel (loop_entry L s prompt) (prompt_batch L s prompt) "" := by
  simp only [fill_return] at h
  simp only [generate, loop_entry, prompt_batch, if_neg h]

theorem generate_of_fill_failed {σ : Type} (L : llama_api σ) (fuel : Nat) (s : LLaMAServer σ)
    (prompt : String) (h : fill_return L s prompt < 0) :
    generate L fuel s prompt =
      { exit := some gen_exit.tokenize_failed
        response := "Error: Failed to tokenize prompt"
        server :=
          if s.client_socket ≠ -1 then
            send_sse_error
              { loop_entry L s prompt with
                slot := (loop_entry L s prompt).slot.set_state slot_state.SLOT_STATE_ERROR }
              "Failed to tokenize prompt"
          else
            { loop_entry L s prompt with
              slot := (loop_entry L s prompt).slot.set_state slot_state.SLOT_STATE_ERROR } } := by
  simp only [fill_return] at h
  simp only [generate, loop_entry, if_pos h]

theorem generate_calls {σ : Type} (L : llama_api σ) (fuel : Nat) (s : LLaMAServer σ)
    (prompt : String) :
    ∃ n add rest,
      (generate L fuel s prompt).server.calls =
        s.calls ++ api_call.tokenize prompt 0 true :: api_call.tokenize prompt n add :: rest ∧
      ∀ c ∈ rest, decode_in_capacity L c ∧ c.is_tokenize = false := by
  refine ⟨(-(L.llama_tokenize prompt 0 true true).1).toNat,
    decide (L.llama_get_kv_cache_used_cells s.ctx = 0), ?_⟩
  by_cases ht : fill_return L s prompt < 0
  · rw [generate_of_fill_failed L fuel s prompt ht]
    refine ⟨[], ?_, by simp⟩
    split_ifs <;> simp [send_sse_error, loop_entry]
  · rw [generate_of_fill_ok L fuel s prompt ht]
    obtain ⟨new, hnew, hall⟩ :=
      generate_loop_calls L fuel (loop_entry L s prompt) (prompt_batch L s prompt) ""
    refine ⟨new, ?_, hall⟩
    rw [hnew]
    simp [loop_entry]

theorem generate_frame {σ : Type} (L : llama_api σ) (fuel : Nat) (s : LLaMAServer σ)
    (prompt : String) :
    (generate L fuel s prompt).server.client_socket = s.client_socket ∧
    (generate L fuel s prompt).server.formatted = s.formatted ∧
    (generate L fuel s prompt).server.messages = s.messages ∧
    (generate L fuel s prompt).server.prev_len = s.prev_len := by
  by_cases ht : fill_return L s prompt < 0
  · rw [generate_of_fill_failed L fuel s prompt ht]
    split_ifs <;> simp [send_sse_error, loop_entry]
  · rw [generate_of_fill_ok L fuel s prompt ht]
    exact generate_loop_frame L fuel _ _ _

theorem generate_eog {σ : Type} (L : llama_api σ) (fuel : Nat) (s : LLaMAServer σ)
    (prompt : String) (h : (generate L fuel s prompt).exit = some gen_exit.eog) :
    ∃ toks last,
      sampled_tokens (generate L fuel s prompt).server.calls =
        sampled_tokens s.calls ++ (toks ++ [last]) ∧
      (∀ t ∈ toks, L.llama_token_is_eog t = false) ∧
      L.llama_token_is_eog last = true ∧
      (generate L fuel s prompt).response = pieces_text L toks ∧
      (generate L fuel s prompt).server.slot.n_decoded = (toks.length : Int) ∧
      (generate L fuel s prompt).server.sent =
        s.sent ++ (if s.client_socket ≠ -1 then stream_of L toks else []) := by
  by_cases ht : fill_return L s prompt < 0
  · rw [generate_of_fill_failed L fuel s prompt ht] at h
    simp at h
  · rw [generate_of_fill_ok L fuel s prompt ht] at h ⊢
    obtain ⟨toks, last, i1, i2, i3, i4, i5, i6⟩ := generate_loop_eog L fuel _ _ _ h
    refine ⟨toks, last, ?_, i2, i3, ?_, ?_, ?_⟩
    · rw [i1]; simp [loop_entry, sampled_tokens_append, sampled_tokens]
    · rw [i4]; simp
    · rw [i5]; simp [loop_entry]
    · rw [i6]; simp [loop_entry]

/-! ## The context check (C1) -/

/-- C1: in `generate`, a pass through the loop that finds
`used_cells + batch.n_tokens > n_ctx` ends the request as context-exceeded
(the text `"\nContext size exceeded"` is appended to the response, and in
streaming mode one error event is sent) without calling decode, so the context
and its used cells are unchanged; this holds for the prompt batch of a whole
`generate` run as well; and every decode call ever made by `generate` was given
a context and a batch with `used_cells + batch.n_tokens ≤ n_ctx`. -/
theorem generate_context_check {σ : Type} (L : llama_api σ) (s : LLaMAServer σ) :
    (∀ (fuel : Nat) (batch : List llama_token) (response : String),
      L.llama_get_kv_cache_used_cells s.ctx + (batch.length : Int) > L.llama_n_ctx s.ctx →
      (generate_loop L (fuel + 1) s batch response).exit = some gen_exit.context_exceeded ∧
      (generate_loop L (fuel + 1) s batch response).response =
        response ++ "\nContext size exceeded" ∧
      (generate_loop L (fuel + 1) s batch response).server.ctx = s.ctx ∧
      (generate_loop L (fuel + 1) s batch response).server.calls = s.calls ∧
      (generate_loop L (fuel + 1) s batch response).server.sent =
        s.sent ++
          (if s.client_socket ≠ -1 then [sse_event.error "Context size exceeded"] else [])) ∧
    (∀ (fuel : Nat) (prompt : String),
      ¬ fill_return L s prompt < 0 →
      L.llama_get_kv_cache_used_cells s.ctx + ((prompt_batch L s prompt).length : Int) >
        L.llama_n_ctx s.ctx →
      (generate L (fuel + 1) s prompt).exit = some gen_exit.context_exceeded ∧
      (generate L (fuel + 1) s prompt).server.ctx = s.ctx ∧
      L.llama_get_kv_cache_used_cells (generate L (fuel + 1) s prompt).server.ctx =
        L.llama_get_kv_cache_used_cells s.ctx) ∧
    (∀ (fuel : Nat) (prompt : String),
      ∃ new, (generate L fuel s prompt).server.calls = s.calls ++ new ∧
        ∀ ctx batch, api_call.decode ctx batch ∈ new →
          L.llama_get_kv_cache_used_cells ctx + (batch.length : Int) ≤ L.llama_n_ctx ctx) := by
  have key : ∀ (s : LLaMAServer σ) (fuel : Nat) (batch : List llama_token) (response : String),
      L.llama_get_kv_cache_used_cells s.ctx + (batch.length : Int) > L.llama_n_ctx s.ctx →
      (generate_loop L (fuel + 1) s batch response).exit = some gen_exit.context_exceeded ∧
      (generate_loop L (fuel + 1) s batch response).response =
        response ++ "\nContext size exceeded" ∧
      (generate_loop L (fuel + 1) s batch response).server.ctx = s.ctx ∧
      (generate_loop L (fuel + 1) s batch response).server.calls = s.calls ∧
      (generate_loop L (fuel + 1) s batch response).server.sent =
        s.sent ++
          (if s.client_socket ≠ -1 then [sse_event.error "Context size exceeded"] else []) := by
    intro s fuel batch response h
    simp only [generate_loop, generate_body, if_pos h]
    split_ifs <;> simp [send_sse_error]
  refine ⟨key s, ?_, ?_⟩
  · intro fuel prompt hfill hover
    rw [generate_of_fill_ok L (fuel + 1) s prompt hfill]
    obtain ⟨h1, -, h3, -, -⟩ :=
      key (loop_entry L s prompt) fuel (prompt_batch L s prompt) "" hover
    refine ⟨h1, h3, ?_⟩
    rw [h3]
    rfl
  · intro fuel prompt
    obtain ⟨n, add, rest, hcalls, hall⟩ := generate_calls L fuel s prompt
    refine ⟨api_call.tokenize prompt 0 true :: api_call.tokenize prompt n add :: rest, hcalls, ?_⟩
    intro ctx batch hmem
    simp only [List.mem_cons, reduceCtorEq, false_or] at hmem
    exact (hall _ hmem).1

/-- C1 at a concrete state: a fresh server over the small runtime with a
context of 4 cells, given a batch of 5 tokens, and given the prompt `"Hello;>"`
of 8 tokens. -/
theorem generate_context_check_witness :
    (toy_api 4 6).llama_get_kv_cache_used_cells (LLaMAServer.initialized (toy_api 4 6) 0 0).ctx +
        (([1, 72, 101, 108, 108] : List llama_token).length : Int) >
      (toy_api 4 6).llama_n_ctx (LLaMAServer.initialized (toy_api 4 6) 0 0).ctx ∧
    (generate_loop (toy_api 4 6) 1 (LLaMAServer.initialized (toy_api 4 6) 0 0)
        [1, 72, 101, 108, 108] "").exit = some gen_exit.context_exceeded ∧
    (generate_loop (toy_api 4 6) 1 (LLaMAServer.initialized (toy_api 4 6) 0 0)
        [1, 72, 101, 108, 108] "").server.ctx = 0 ∧
    (generate (toy_api 4 6) 1 (LLaMAServer.initialized (toy_api 4 6) 0 0) "Hello;>").exit =
      some gen_exit.context_exceeded ∧
    (generate (toy_api 4 6) 1 (LLaMAServer.initialized (toy_api 4 6) 0 0)
        "Hello;>").server.ctx = 0 :=
  ⟨by decide,
    ((generate_context_check (toy_api 4 6) (LLaMAServer.initialized (toy_api 4 6) 0 0)).1 0
      [1, 72, 101, 108, 108] "" (by decide)).1,
    ((generate_context_check (toy_api 4 6) (LLaMAServer.initialized (toy_api 4 6) 0 0)).1 0
      [1, 72, 101, 108, 108] "" (by decide)).2.2.1,
    ((generate_context_check (toy_api 4 6) (LLaMAServer.initialized (toy_api 4 6) 0 0)).2.1 0
      "Hello;>" (by decide) (by decide)).1,
    ((generate_context_check (toy_api 4 6) (LLaMAServer.initialized (toy_api 4 6) 0 0)).2.1 0
      "Hello;>" (by decide) (by decide)).2.1⟩

/-! ## Generation that ends at an end-of-generation token (C5, C6) -/

theorem fragments_append (a b : List sse_event) :
    fragments (a ++ b) = fragments a ++ fragments b := by
  induction a with
  | nil => rfl
  | cons e es ih => cases e <;> simp [fragments, ih]

theorem fragments_stream_of {σ : Type} (L : llama_api σ) (toks : List llama_token) :
    fragments (stream_of L toks) = toks.map (piece_of L) := by
  induction toks with
  | nil => rfl
  | cons t ts ih =>
    simp only [stream_of, List.map_cons, List.cons_append, fragments, List.cons.injEq, true_and]
    exact ih

/-- C5: when `generate` ends by sampling an end-of-generation token, the
sampler returned, in order, tokens `toks` none of which is end-of-generation
and then the end-of-generation token `last`; the response is exactly the
concatenation of the pieces of `toks` in that order, `slot.n_decoded` is the
number of `toks`, and the fragments written to the socket in streaming mode are
exactly the pieces of `toks`: `last` adds no text and no fragment.  Without a
socket nothing is written. -/
theorem generate_eog_response {σ : Type} (L : llama_api σ) (fuel : Nat) (s : LLaMAServer σ)
    (prompt : String) (h : (generate L fuel s prompt).exit = some gen_exit.eog) :
    ∃ toks last,
      sampled_tokens (generate L fuel s prompt).server.calls =
        sampled_tokens s.calls ++ (toks ++ [last]) ∧
      (∀ t ∈ toks, L.llama_token_is_eog t = false) ∧
      L.llama_token_is_eog last = true ∧
      (generate L fuel s prompt).response = pieces_text L toks ∧
      (generate L fuel s prompt).server.slot.n_decoded = (toks.length : Int) ∧
      fragments (generate L fuel s prompt).server.sent =
        fragments s.sent ++ (if s.client_socket ≠ -1 then toks.map (piece_of L) else []) ∧
      (s.client_socket = -1 → (generate L fuel s prompt).server.sent = s.sent) := by
  obtain ⟨toks, last, i1, i2, i3, i4, i5, i6⟩ := generate_eog L fuel s prompt h
  refine ⟨toks, last, i1, i2, i3, i4, i5, ?_, ?_⟩
  · rw [i6, fragments_append]
    split_ifs
    · rw [fragments_stream_of]
    · rfl
  · intro hk
    rw [i6]
    simp [hk]

/-- C5 on the small runtime: the prompt `"Hi;>"` on a fresh server with 16
cells and sampler threshold 7 yields the tokens `f`, `g` and then the
end-of-generation token. -/
theorem generate_eog_response_witness :
    (generate (toy_api 16 7) 20 (LLaMAServer.initialized (toy_api 16 7) 0 0) "Hi;>").exit =
        some gen_exit.eog ∧
    ∃ toks last,
      sampled_tokens
          (generate (toy_api 16 7) 20 (LLaMAServer.initialized (toy_api 16 7) 0 0)
            "Hi;>").server.calls =
        sampled_tokens (LLaMAServer.initialized (toy_api 16 7) 0 0).calls ++ (toks ++ [last]) ∧
      (∀ t ∈ toks, (toy_api 16 7).llama_token_is_eog t = false) ∧
      (toy_api 16 7).llama_token_is_eog last = true ∧
      (generate (toy_api 16 7) 20 (LLaMAServer.initialized (toy_api 16 7) 0 0) "Hi;>").response =
        pieces_text (toy_api 16 7) toks ∧
      (generate (toy_api 16 7) 20 (LLaMAServer.initialized (toy_api 16 7) 0 0)
          "Hi;>").server.slot.n_decoded = (toks.length : Int) ∧
      fragments
          (generate (toy_api 16 7) 20 (LLaMAServer.initialized (toy_api 16 7) 0 0)
            "Hi;>").server.sent =
        fragments (LLaMAServer.initialized (toy_api 16 7) 0 0).sent ++
          (if (LLaMAServer.initialized (toy_api 16 7) 0 0).client_socket ≠ -1 then
            toks.map (piece_of (toy_api 16 7))
          else []) ∧
      ((LLaMAServer.initialized (toy_api 16 7) 0 0).client_socket = -1 →
        (generate (toy_api 16 7) 20 (LLaMAServer.initialized (toy_api 16 7) 0 0)
          "Hi;>").server.sent = (LLaMAServer.initialized (toy_api 16 7) 0 0).sent) :=
  ⟨by decide,
    generate_eog_response (toy_api 16 7) 20 (LLaMAServer.initialized (toy_api 16 7) 0 0) "Hi;>"
      (by decide)⟩

/-- C6: in streaming mode (`client_socket ≠ -1`), when `generate` ends at an
end-of-generation token the events it writes are exactly one message per
generated token, carrying that token's piece, in generation order, followed by
one done event; there are as many messages as `slot.n_decoded`, the done event
occurs once and no error event occurs. -/
theorem generate_stream_events {σ : Type} (L : llama_api σ) (fuel : Nat) (s : LLaMAServer σ)
    (prompt : String) (hs : s.client_socket ≠ -1)
    (h : (generate L fuel s prompt).exit = some gen_exit.eog) :
    ∃ toks last new,
      sampled_tokens (generate L fuel s prompt).server.calls =
        sampled_tokens s.calls ++ (toks ++ [last]) ∧
      (generate L fuel s prompt).server.sent = s.sent ++ new ∧
      new = toks.map (fun t => sse_event.message (piece_of L t)) ++ [sse_event.done] ∧
      (generate L fuel s prompt).server.slot.n_decoded = (toks.length : Int) ∧
      new.count sse_event.done = 1 ∧
      ∀ err, sse_event.error err ∉ new := by
  obtain ⟨toks, last, i1, -, -, -, i5, i6⟩ := generate_eog L fuel s prompt h
  refine ⟨toks, last, stream_of L toks, i1, ?_, rfl, i5, ?_, ?_⟩
  · rw [i6, if_pos hs]
  · simp only [stream_of, List.count_append, List.count_singleton_self]
    rw [List.count_eq_zero_of_not_mem]
    simp
  · intro err
    simp [stream_of]

/-- C6 on the small runtime: a streaming generation on socket 5. -/
theorem generate_stream_events_witness :
    ((LLaMAServer.initialized (toy_api 16 7) 0 0).set_client_socket 5).client_socket ≠ -1 ∧
    (generate (toy_api 16 7) 20 ((LLaMAServer.initialized (toy_api 16 7) 0 0).set_client_socket 5)
        "Hi;>").exit = some gen_exit.eog ∧
    (generate (toy_api 16 7) 20 ((LLaMAServer.initialized (toy_api 16 7) 0 0).set_client_socket 5)
        "Hi;>").server.sent =
      [sse_event.message "f", sse_event.message "g", sse_event.done] ∧
    ∃ toks last new,
      sampled_tokens
          (generate (toy_api 16 7) 20
            ((LLaMAServer.initialized (toy_api 16 7) 0 0).set_client_socket 5) "Hi;>").server.calls =
        sampled_tokens ((LLaMAServer.initialized (toy_api 16 7) 0 0).set_client_socket 5).calls ++
          (toks ++ [last]) ∧
      (generate (toy_api 16 7) 20 ((LLaMAServer.initialized (toy_api 16 7) 0 0).set_client_socket 5)
          "Hi;>").server.sent =
        ((LLaMAServer.initialized (toy_api 16 7) 0 0).set_client_socket 5).sent ++ new ∧
      new = toks.map (fun t => sse_event.message (piece_of (toy_api 16 7) t)) ++
        [sse_event.done] ∧
      (generate (toy_api 16 7) 20 ((LLaMAServer.initialized (toy_api 16 7) 0 0).set_client_socket 5)
          "Hi;>").server.slot.n_decoded = (toks.length : Int) ∧
      new.count sse_event.done = 1 ∧
      ∀ err, sse_event.error err ∉ new :=
  ⟨by decide, by decide, by decide,
    generate_stream_events (toy_api 16 7) 20
      ((LLaMAServer.initialized (toy_api 16 7) 0 0).set_client_socket 5) "Hi;>" (by decide)
      (by decide)⟩

/-! ## `generate_response` -/

theorem apply_user_template_facts {σ : Type} (L : llama_api σ) (s : LLaMAServer σ)
    (user_input : String) :
    (apply_user_template L s user_input).2 =
      L.chat_template_len (s.messages ++ [llama_chat_message.mk "user" (strdup user_input)]) true ∧
    (apply_user_template L s user_input).1.prev_len = s.prev_len ∧
    (apply_user_template L s user_input).1.calls = s.calls ∧
    (apply_user_template L s user_input).1.sent = s.sent ∧
    (apply_user_template L s user_input).1.ctx = s.ctx ∧
    (apply_user_template L s user_input).1.client_socket = s.client_socket ∧
    (apply_user_template L s user_input).1.metrics = s.metrics ∧
    (apply_user_template L s user_input).1.messages =
      s.messages ++ [llama_chat_message.mk "user" (strdup user_input)] := by
  simp only [apply_user_template, llama_chat_apply_template]
  split_ifs <;> simp

theorem apply_user_template_size {σ : Type} (L : llama_api σ) (s : LLaMAServer σ)
    (user_input : String) (h : 0 ≤ (apply_user_template L s user_input).2) :
    (apply_user_template L s user_input).2 ≤
      ((apply_user_template L s user_input).1.formatted.length : Int) := by
  simp only [apply_user_template, llama_chat_apply_template] at h ⊢
  split_ifs at h ⊢ with hgt
  · simp only [fit_length, resize]
    omega
  · simp only [fit_length] at hgt ⊢
    omega

theorem finish_response_frame {σ : Type} (L : llama_api σ) (generation_time : Int)
    (s : LLaMAServer σ) (response : String) :
    (finish_response L generation_time s response).calls = s.calls ∧
    (finish_response L generation_time s response).formatted = s.formatted ∧
    (finish_response L generation_time s response).sent = s.sent ∧
    (finish_response L generation_time s response).ctx = s.ctx := by
  simp [finish_response]

theorem generate_response_of_template_ok {σ : Type} (L : llama_api σ) (fuel : Nat)
    (prompt_time generation_time : Int) (s : LLaMAServer σ) (user_input : String)
    (h : ¬ (apply_user_template L s user_input).2 < 0) :
    (generate_response L fuel prompt_time generation_time s user_input).server.calls =
      (generate L fuel (generation_entry L prompt_time s user_input)
        (prompt_text L s user_input)).server.calls ∧
    (generate_response L fuel prompt_time generation_time s user_input).server.formatted =
      (apply_user_template L s user_input).1.formatted ∧
    (generate_response L fuel prompt_time generation_time s user_input).server.sent =
      (generate L fuel (generation_entry L prompt_time s user_input)
        (prompt_text L s user_input)).server.sent := by
  have hf := (generate_frame L fuel (generation_entry L prompt_time s user_input)
    (prompt_text L s user_input)).2.1
  simp only [generate_response, if_neg h]
  simp only [generation_entry, prompt_text] at hf ⊢
  split
  · exact ⟨rfl, hf, rfl⟩
  · simp only [finish_response_frame, true_and, and_true]
    exact hf

theorem generate_response_of_exit {σ : Type} (L : llama_api σ) (fuel : Nat)
    (prompt_time generation_time : Int) (s : LLaMAServer σ) (user_input : String) (e : gen_exit)
    (h : ¬ (apply_user_template L s user_input).2 < 0)
    (hex : (generate L fuel (generation_entry L prompt_time s user_input)
      (prompt_text L s user_input)).exit = some e) :
    generate_response L fuel prompt_time generation_time s user_input =
      { outcome := some (request_outcome.generated e)
        response := (generate L fuel (generation_entry L prompt_time s user_input)
          (prompt_text L s user_input)).response
        server := finish_response L generation_time
          (generate L fuel (generation_entry L prompt_time s user_input)
            (prompt_text L s user_input)).server
          (generate L fuel (generation_entry L prompt_time s user_input)
            (prompt_text L s user_input)).response } := by
  simp only [generation_entry, prompt_text] at hex ⊢
  simp only [generate_response, if_neg h, hex]

theorem generate_response_of_running {σ : Type} (L : llama_api σ) (fuel : Nat)
    (prompt_time generation_time : Int) (s : LLaMAServer σ) (user_input : String)
    (h : ¬ (apply_user_template L s user_input).2 < 0)
    (hex : (generate L fuel (generation_entry L prompt_time s user_input)
      (prompt_text L s user_input)).exit = none) :
    generate_response L fuel prompt_time generation_time s user_input =
      { outcome := none
        response := (generate L fuel (generation_entry L prompt_time s user_input)
          (prompt_text L s user_input)).response
        server := (generate L fuel (generation_entry L prompt_time s user_input)
          (prompt_text L s user_input)).server } := by
  simp only [generation_entry, prompt_text] at hex ⊢
  simp only [generate_response, if_neg h, hex]

theorem generate_response_of_template_failed {σ : Type} (L : llama_api σ) (fuel : Nat)
    (prompt_time generation_time : Int) (s : LLaMAServer σ) (user_input : String)
    (h : (apply_user_template L s user_input).2 < 0) :
    generate_response L fuel prompt_time generation_time s user_input =
      { outcome := some request_outcome.template_failed
        response := "Error: Failed to apply chat template"
        server :=
          { (apply_user_template L s user_input).1 with
            slot := (apply_user_template L s user_input).1.slot.set_state
              slot_state.SLOT_STATE_ERROR } } := by
  simp only [generate_response, if_pos h]

/-- The exit of `generate` behind an outcome of `generate_response`. -/
theorem generate_response_outcome {σ : Type} (L : llama_api σ) (fuel : Nat)
    (prompt_time generation_time : Int) (s : LLaMAServer σ) (user_input : String) (e : gen_exit)
    (h : (generate_response L fuel prompt_time generation_time s user_input).outcome =
      some (request_outcome.generated e)) :
    ¬ (apply_user_template L s user_input).2 < 0 ∧
    (generate L fuel (generation_entry L prompt_time s user_input)
      (prompt_text L s user_input)).exit = some e := by
  by_cases hneg : (apply_user_template L s user_input).2 < 0
  · rw [generate_response_of_template_failed L fuel prompt_time generation_time s user_input hneg]
      at h
    simp at h
  · refine ⟨hneg, ?_⟩
    cases hex : (generate L fuel (generation_entry L prompt_time s user_input)
        (prompt_text L s user_input)).exit with
    | none =>
      rw [generate_response_of_running L fuel prompt_time generation_time s user_input hneg hex]
        at h
      simp at h
    | some e1 =>
      rw [generate_response_of_exit L fuel prompt_time generation_time s user_input e1 hneg hex]
        at h
      simp only [Option.some.injEq, request_outcome.generated.injEq] at h
      rw [h]

theorem substr_spec (buf : List Char) (lo hi : Int) (h0 : 0 ≤ lo) (h1 : lo ≤ hi)
    (h2 : hi ≤ (buf.length : Int)) :
    ((substr buf lo hi).length : Int) = hi - lo ∧
    ∀ i : Nat, i < (substr buf lo hi).length →
      (substr buf lo hi).data[i]? = buf[lo.toNat + i]? := by
  have hlen : (substr buf lo hi).length = (hi - lo).toNat := by
    simp only [substr, String.length, List.length_take, List.length_drop]
    omega
  refine ⟨by rw [hlen]; omega, ?_⟩
  intro i hi'
  rw [hlen] at hi'
  simp only [substr]
  rw [List.getElem?_take_of_lt hi', List.getElem?_drop]

/-! ## The prompt delta (C8) -/

/-- C8: when the template of the user turn renders to a length `new_len` with
`0 ≤ prev_len ≤ new_len`, the two tokenizer calls of the request are the only
ones, and both are given the same text, which has `new_len - prev_len`
characters and whose `i`-th character is the character at position
`prev_len + i` of the template buffer: the text starts at the submitted
boundary and ends at the rendered length. -/
theorem generate_response_prompt_delta {σ : Type} (L : llama_api σ) (fuel : Nat)
    (prompt_time generation_time : Int) (s : LLaMAServer σ) (user_input : String)
    (h0 : 0 ≤ s.prev_len)
    (h1 : s.prev_len ≤
      L.chat_template_len (s.messages ++ [llama_chat_message.mk "user" (strdup user_input)]) true) :
    ∃ text n add rest,
      (generate_response L fuel prompt_time generation_time s user_input).server.calls =
        s.calls ++ api_call.tokenize text 0 true :: api_call.tokenize text n add :: rest ∧
      (∀ c ∈ rest, c.is_tokenize = false) ∧
      (text.length : Int) =
        L.chat_template_len (s.messages ++ [llama_chat_message.mk "user" (strdup user_input)]) true -
          s.prev_len ∧
      ∀ i : Nat, i < text.length →
        text.data[i]? =
          (generate_response L fuel prompt_time generation_time s
            user_input).server.formatted[s.prev_len.toNat + i]? := by
  obtain ⟨e1, e2, e3, -, -, -, -, -⟩ := apply_user_template_facts L s user_input
  have hnn : ¬ (apply_user_template L s user_input).2 < 0 := by rw [e1]; omega
  have hsz := apply_user_template_size L s user_input (by omega)
  obtain ⟨c1, c2, -⟩ :=
    generate_response_of_template_ok L fuel prompt_time generation_time s user_input hnn
  obtain ⟨n, add, rest, hcalls, hall⟩ :=
    generate_calls L fuel (generation_entry L prompt_time s user_input) (prompt_text L s user_input)
  have hsub := substr_spec (apply_user_template L s user_input).1.formatted
    (apply_user_template L s user_input).1.prev_len (apply_user_template L s user_input).2
    (by rw [e2]; exact h0) (by rw [e1, e2]; exact h1) hsz
  refine ⟨prompt_text L s user_input, n, add, rest, ?_, fun c hc => (hall c hc).2, ?_, ?_⟩
  · rw [c1, hcalls]
    simp [generation_entry, e3]
  · have := hsub.1
    simp only [prompt_text]
    rw [e1, e2] at this ⊢
    exact this
  · intro i hi
    rw [c2]
    have := hsub.2 i hi
    simp only [prompt_text]
    rw [e2] at this ⊢
    exact this

/-- C8 on the small runtime: the second turn of a conversation.  After the
first request the boundary is 5; the second user turn `"Yo"` renders to length
9 and the tokenizer is given the four characters `Yo;>` at positions 5 to 8. -/
theorem generate_response_prompt_delta_witness :
    (generate_response (toy_api 16 6) 20 5 7
        (generate_response (toy_api 16 6) 20 5 7 (LLaMAServer.initialized (toy_api 16 6) 0 0)
          "Hi").server "Yo").server.calls.drop 6 =
      [api_call.tokenize "Yo;>" 0 true, api_call.tokenize "Yo;>" 5 false,
        api_call.decode 6 [89, 111, 59, 62, 0], api_call.sample 2] ∧
    ∃ text n add rest,
      (generate_response (toy_api 16 6) 20 5 7
          (generate_response (toy_api 16 6) 20 5 7 (LLaMAServer.initialized (toy_api 16 6) 0 0)
            "Hi").server "Yo").server.calls =
        (generate_response (toy_api 16 6) 20 5 7 (LLaMAServer.initialized (toy_api 16 6) 0 0)
            "Hi").server.calls ++
          api_call.tokenize text 0 true :: api_call.tokenize text n add :: rest ∧
      (∀ c ∈ rest, c.is_tokenize = false) ∧
      (text.length : Int) =
        (toy_api 16 6).chat_template_len
            ((generate_response (toy_api 16 6) 20 5 7
                (LLaMAServer.initialized (toy_api 16 6) 0 0) "Hi").server.messages ++
              [llama_chat_message.mk "user" (strdup "Yo")]) true -
          (generate_response (toy_api 16 6) 20 5 7 (LLaMAServer.initialized (toy_api 16 6) 0 0)
            "Hi").server.prev_len ∧
      ∀ i : Nat, i < text.length →
        text.data[i]? =
          (generate_response (toy_api 16 6) 20 5 7
            (generate_response (toy_api 16 6) 20 5 7 (LLaMAServer.initialized (toy_api 16 6) 0 0)
              "Hi").server "Yo").server.formatted[
            (generate_response (toy_api 16 6) 20 5 7 (LLaMAServer.initialized (toy_api 16 6) 0 0)
              "Hi").server.prev_len.toNat + i]? :=
  ⟨by decide,
    generate_response_prompt_delta (toy_api 16 6) 20 5 7
      (generate_response (toy_api 16 6) 20 5 7 (LLaMAServer.initialized (toy_api 16 6) 0 0)
        "Hi").server "Yo" (by decide) (by decide)⟩

/-! ## Template failure (C10) -/

/-- C10: when the template of the user turn returns a negative length,
`generate_response` ends the request with the error text
`"Error: Failed to apply chat template"` and the slot in the error state,
leaves `prev_len` as it was, and makes no runtime call (no tokenization, no
decode, no sampling), so the context is unchanged. -/
theorem generate_response_template_failure {σ : Type} (L : llama_api σ) (fuel : Nat)
    (prompt_time generation_time : Int) (s : LLaMAServer σ) (user_input : String)
    (h : L.chat_template_len (s.messages ++ [llama_chat_message.mk "user" (strdup user_input)]) true < 0) :
    (generate_response L fuel prompt_time generation_time s user_input).outcome =
      some request_outcome.template_failed ∧
    (generate_response L fuel prompt_time generation_time s user_input).response =
      "Error: Failed to apply chat template" ∧
    (generate_response L fuel prompt_time generation_time s user_input).server.slot.state =
      slot_state.SLOT_STATE_ERROR ∧
    (generate_response L fuel prompt_time generation_time s user_input).server.prev_len =
      s.prev_len ∧
    (generate_response L fuel prompt_time generation_time s user_input).server.calls = s.calls ∧
    (generate_response L fuel prompt_time generation_time s user_input).server.ctx = s.ctx := by
  obtain ⟨e1, e2, e3, -, e5, -, -, -⟩ := apply_user_template_facts L s user_input
  have hneg : (apply_user_template L s user_input).2 < 0 := by rw [e1]; exact h
  simp only [generate_response, if_pos hneg, server_slot.set_state, true_and]
  exact ⟨e2, e3, e5⟩

/-- C10 on the small runtime with a failing template. -/
theorem generate_response_template_failure_witness :
    (toy_template_fails 16 6).chat_template_len
        ((LLaMAServer.initialized (toy_template_fails 16 6) 0 0).messages ++
          [llama_chat_message.mk "user" (strdup "Hi")]) true < 0 ∧
    (generate_response (toy_template_fails 16 6) 20 5 7
        (LLaMAServer.initialized (toy_template_fails 16 6) 0 0) "Hi").outcome =
      some request_outcome.template_failed ∧
    (generate_response (toy_template_fails 16 6) 20 5 7
        (LLaMAServer.initialized (toy_template_fails 16 6) 0 0) "Hi").server.prev_len = 0 ∧
    (generate_response (toy_template_fails 16 6) 20 5 7
        (LLaMAServer.initialized (toy_template_fails 16 6) 0 0) "Hi").server.calls = [] :=
  ⟨by decide,
    (generate_response_template_failure (toy_template_fails 16 6) 20 5 7
      (LLaMAServer.initialized (toy_template_fails 16 6) 0 0) "Hi" (by decide)).1,
    (generate_response_template_failure (toy_template_fails 16 6) 20 5 7
      (LLaMAServer.initialized (toy_template_fails 16 6) 0 0) "Hi" (by decide)).2.2.2.1,
    (generate_response_template_failure (toy_template_fails 16 6) 20 5 7
      (LLaMAServer.initialized (toy_template_fails 16 6) 0 0) "Hi" (by decide)).2.2.2.2.1⟩

/-! ## Every request that reaches generation -/

theorem generate_body_sent {σ : Type} (L : llama_api σ) (s s1 : LLaMAServer σ)
    (batch : List llama_token) (response r : String) (e : gen_exit)
    (h : generate_body L s batch response = loop_step.ret e r s1) :
    s1.sent = s.sent ++ (if s.client_socket ≠ -1 then [terminal_event e] else []) ∧
    s1.metrics = s.metrics := by
  simp only [generate_body] at h
  split_ifs at h with h1 h2 h3 h4 h5 h6 h7 h8
  all_goals
    simp only [loop_step.ret.injEq] at h
    obtain ⟨rfl, rfl, rfl⟩ := h
    simp_all [send_sse_error, send_sse_done, terminal_event]

theorem generate_body_counters {σ : Type} (L : llama_api σ) (s s1 : LLaMAServer σ)
    (batch batch1 : List llama_token) (response response1 : String)
    (h : generate_body L s batch response = loop_step.next s1 batch1 response1) :
    s1.metrics.n_requests_failed = s.metrics.n_requests_failed ∧
    s1.metrics.n_requests_total = s.metrics.n_requests_total := by
  simp only [generate_body] at h
  split_ifs at h with h1 h2 h3 h4 h5
  all_goals
    simp only [loop_step.next.injEq] at h
    obtain ⟨rfl, rfl, rfl⟩ := h
    simp only [server_metrics.on_decoded, List.foldl_cons, List.foldl_nil, send_sse_message]
    split_ifs <;> exact ⟨rfl, rfl⟩

theorem generate_loop_sent {σ : Type} (L : llama_api σ) (fuel : Nat) :
    ∀ (s : LLaMAServer σ) (batch : List llama_token) (response : String) (e : gen_exit),
      (generate_loop L fuel s batch response).exit = some e →
      ∃ toks : List llama_token,
        (generate_loop L fuel s batch response).server.sent =
          s.sent ++
            (if s.client_socket ≠ -1 then
              toks.map (fun t => sse_event.message (piece_of L t)) ++ [terminal_event e]
            else []) := by
  induction fuel with
  | zero => intro s batch response e h; simp [generate_loop] at h
  | succ n ih =>
    intro s batch response e
    simp only [generate_loop]
    cases hb : generate_body L s batch response with
    | ret e1 r s1 =>
      intro he
      simp only [Option.some.injEq] at he
      subst he
      exact ⟨[], by simp [(generate_body_sent L s s1 batch response r e1 hb).1]⟩
    | next s1 batch1 response1 =>
      intro he
      obtain ⟨tok, -, -, -, -, -, hs, hsock, -, -, -, -⟩ :=
        generate_body_next L s s1 batch batch1 response response1 hb
      obtain ⟨toks, i1⟩ := ih s1 batch1 response1 e he
      refine ⟨tok :: toks, ?_⟩
      rw [i1, hs, hsock]
      by_cases hk : s.client_socket ≠ -1
      · simp [hk]
      · simp [hk]

theorem generate_loop_counters {σ : Type} (L : llama_api σ) (fuel : Nat) :
    ∀ (s : LLaMAServer σ) (batch : List llama_token) (response : String),
      (generate_loop L fuel s batch response).server.metrics.n_requests_failed =
        s.metrics.n_requests_failed ∧
      (generate_loop L fuel s batch response).server.metrics.n_requests_total =
        s.metrics.n_requests_total := by
  induction fuel with
  | zero => intro s batch response; simp [generate_loop]
  | succ n ih =>
    intro s batch response
    simp only [generate_loop]
    cases hb : generate_body L s batch response with
    | ret e r s1 =>
      simp only [(generate_body_sent L s s1 batch response r e hb).2, and_self]
    | next s1 batch1 response1 =>
      obtain ⟨h1, h2⟩ := generate_body_counters L s s1 batch batch1 response response1 hb
      obtain ⟨i1, i2⟩ := ih s1 batch1 response1
      exact ⟨i1.trans h1, i2.trans h2⟩

/-- Whatever way `generate` leaves, in streaming mode it has written the
fragments of the generated tokens and then one terminal event; and it leaves
the request counters alone. -/
theorem generate_sent {σ : Type} (L : llama_api σ) (fuel : Nat) (s : LLaMAServer σ)
    (prompt : String) (e : gen_exit) (h : (generate L fuel s prompt).exit = some e) :
    (∃ toks : List llama_token,
      (generate L fuel s prompt).server.sent =
        s.sent ++
          (if s.client_socket ≠ -1 then
            toks.map (fun t => sse_event.message (piece_of L t)) ++ [terminal_event e]
          else [])) ∧
    (generate L fuel s prompt).server.metrics.n_requests_failed = s.metrics.n_requests_failed ∧
    (generate L fuel s prompt).server.metrics.n_requests_total = s.metrics.n_requests_total := by
  by_cases ht : fill_return L s prompt < 0
  · rw [generate_of_fill_failed L fuel s prompt ht] at h ⊢
    simp only [Option.some.injEq] at h
    subst h
    refine ⟨⟨[], ?_⟩, ?_⟩
    · split_ifs <;> simp [send_sse_error, loop_entry, terminal_event]
    · split_ifs <;> simp [send_sse_error, loop_entry]
  · rw [generate_of_fill_ok L fuel s prompt ht] at h ⊢
    obtain ⟨toks, i1⟩ := generate_loop_sent L fuel _ _ _ e h
    exact ⟨⟨toks, by rw [i1]; simp [loop_entry]⟩,
      generate_loop_counters L fuel (loop_entry L s prompt) (prompt_batch L s prompt) ""⟩

/-- What `generate_response` does after `generate` returned, whatever the way
`generate` left (a failure included): the slot is idle, one assistant turn
holding the returned text is appended after the user turn, `prev_len` is the
template length recomputed without generation prompt, the request is counted
in `n_requests_total` and `n_requests_failed` is unchanged. -/
theorem generate_response_generated {σ : Type} (L : llama_api σ) (fuel : Nat)
    (prompt_time generation_time : Int) (s : LLaMAServer σ) (user_input : String) (e : gen_exit)
    (h : (generate_response L fuel prompt_time generation_time s user_input).outcome =
      some (request_outcome.generated e)) :
    (generate_response L fuel prompt_time generation_time s user_input).server.slot.state =
      slot_state.SLOT_STATE_IDLE ∧
    (generate_response L fuel prompt_time generation_time s user_input).server.messages =
      s.messages ++ [llama_chat_message.mk "user" (strdup user_input),
        llama_chat_message.mk "assistant"
          (strdup (generate_response L fuel prompt_time generation_time s user_input).response)] ∧
    (generate_response L fuel prompt_time generation_time s user_input).server.prev_len =
      L.chat_template_len
        (generate_response L fuel prompt_time generation_time s user_input).server.messages
        false ∧
    (generate_response L fuel prompt_time generation_time s user_input).server.metrics.n_requests_failed =
      s.metrics.n_requests_failed ∧
    (generate_response L fuel prompt_time generation_time s user_input).server.metrics.n_requests_total =
      (s.metrics.n_requests_total + 1) % 2 ^ 64 := by
  obtain ⟨-, -, -, -, -, -, e7, e8⟩ := apply_user_template_facts L s user_input
  obtain ⟨hneg, hex⟩ :=
    generate_response_outcome L fuel prompt_time generation_time s user_input e h
  have hfr := (generate_frame L fuel (generation_entry L prompt_time s user_input)
    (prompt_text L s user_input)).2.2.1
  have hc := (generate_sent L fuel (generation_entry L prompt_time s user_input)
    (prompt_text L s user_input) e hex).2
  rw [generate_response_of_exit L fuel prompt_time generation_time s user_input e hneg hex]
  have hm : (generation_entry L prompt_time s user_input).messages =
      s.messages ++ [llama_chat_message.mk "user" (strdup user_input)] := by
    rw [← e8]; rfl
  have hmet : (generation_entry L prompt_time s user_input).metrics = s.metrics := by
    rw [← e7]; rfl
  rw [hm] at hfr
  rw [hmet] at hc
  simp only [finish_response, server_slot.set_state, server_metrics.on_request,
    server_metrics.update_kv_cache_metrics, server_metrics.on_prediction,
    server_metrics.on_prompt_eval, hfr, List.append_assoc, List.singleton_append, true_and]
  refine ⟨?_, ?_⟩
  · split_ifs <;> simp [hc.1]
  · split_ifs <;> simp [hc.2]

theorem handle_http_request_stream_facts {σ : Type} (L : llama_api σ) (fuel : Nat)
    (prompt_time generation_time : Int) (client_socket : Int) (s : LLaMAServer σ)
    (prompt : String) :
    (handle_http_request_stream L fuel prompt_time generation_time client_socket s
      prompt).outcome =
      (generate_response L fuel prompt_time generation_time
        ((send_sse_headers s).set_client_socket client_socket) prompt).outcome ∧
    (handle_http_request_stream L fuel prompt_time generation_time client_socket s
      prompt).server.sent =
      (generate_response L fuel prompt_time generation_time
        ((send_sse_headers s).set_client_socket client_socket) prompt).server.sent := by
  simp only [handle_http_request_stream]
  split
  · exact ⟨rfl, rfl⟩
  · exact ⟨rfl, rfl⟩

/-- A streaming request that reaches generation: after the SSE headers the
socket receives the fragments of the generated tokens and then exactly one
terminal event, done or error. -/
theorem handle_http_request_stream_generated {σ : Type} (L : llama_api σ) (fuel : Nat)
    (prompt_time generation_time : Int) (client_socket : Int) (s : LLaMAServer σ)
    (prompt : String) (e : gen_exit) (hsock : client_socket ≠ -1)
    (h : (handle_http_request_stream L fuel prompt_time generation_time client_socket s
      prompt).outcome = some (request_outcome.generated e)) :
    ∃ toks : List llama_token,
      (handle_http_request_stream L fuel prompt_time generation_time client_socket s
        prompt).server.sent =
        s.sent ++ [sse_event.headers] ++
          toks.map (fun t => sse_event.message (piece_of L t)) ++ [terminal_event e] := by
  obtain ⟨f1, f2⟩ :=
    handle_http_request_stream_facts L fuel prompt_time generation_time client_socket s prompt
  rw [f1] at h
  obtain ⟨hneg, hex⟩ := generate_response_outcome L fuel prompt_time generation_time
    ((send_sse_headers s).set_client_socket client_socket) prompt e h
  obtain ⟨-, -, -, e4, -, e6, -, -⟩ :=
    apply_user_template_facts L ((send_sse_headers s).set_client_socket client_socket) prompt
  obtain ⟨-, -, c3⟩ := generate_response_of_template_ok L fuel prompt_time generation_time
    ((send_sse_headers s).set_client_socket client_socket) prompt hneg
  obtain ⟨⟨toks, hs⟩, -⟩ := generate_sent L fuel
    (generation_entry L prompt_time ((send_sse_headers s).set_client_socket client_socket) prompt)
    (prompt_text L ((send_sse_headers s).set_client_socket client_socket) prompt) e hex
  have hsent : (generation_entry L prompt_time
      ((send_sse_headers s).set_client_socket client_socket) prompt).sent =
      s.sent ++ [sse_event.headers] := e4
  have hcs : (generation_entry L prompt_time
      ((send_sse_headers s).set_client_socket client_socket) prompt).client_socket =
      client_socket := e6
  refine ⟨toks, ?_⟩
  rw [f2, c3, hs, hsent, hcs, if_pos hsock]
  simp only [List.append_assoc]

/-! ## Failed requests as the code runs them (C2, C3, C4, C7, C9) -/

/-- C2 (code): a fresh server with a context of 4 cells is given the prompt
`"Hello"`, which renders to 7 characters and 8 tokens.  The request ends as
context-exceeded, it is counted in `n_requests_total`, and
`n_requests_failed` is still 0. -/
theorem context_exceeded_not_counted_failed :
    (generate_response (toy_api 4 6) 20 5 7 (LLaMAServer.initialized (toy_api 4 6) 0 0)
        "Hello").outcome = some (request_outcome.generated gen_exit.context_exceeded) ∧
    (generate_response (toy_api 4 6) 20 5 7 (LLaMAServer.initialized (toy_api 4 6) 0 0)
        "Hello").server.metrics.n_requests_total = 1 ∧
    (generate_response (toy_api 4 6) 20 5 7 (LLaMAServer.initialized (toy_api 4 6) 0 0)
        "Hello").server.metrics.n_requests_failed = 0 := by
  decide

/-- C3 (code): the same context-exceeded request on a server with 3 cells.
The text returned by the failed generation is appended to the conversation as
an assistant turn and `prev_len` moves from 0 to 29. -/
theorem context_exceeded_turn_appended :
    (generate_response (toy_api 3 6) 20 5 7 (LLaMAServer.initialized (toy_api 3 6) 0 0)
        "Hello").outcome = some (request_outcome.generated gen_exit.context_exceeded) ∧
    (generate_response (toy_api 3 6) 20 5 7 (LLaMAServer.initialized (toy_api 3 6) 0 0)
        "Hello").server.messages =
      [llama_chat_message.mk "user" "Hello",
        llama_chat_message.mk "assistant" "\nContext size exceeded"] ∧
    (LLaMAServer.initialized (toy_api 3 6) 0 0).prev_len = 0 ∧
    (generate_response (toy_api 3 6) 20 5 7 (LLaMAServer.initialized (toy_api 3 6) 0 0)
        "Hello").server.prev_len = 29 := by
  decide

/-- C4 (code): two failed requests after which the slot is idle.  On a server
with 2 cells the request `"Hello"` ends as context-exceeded; `generate` never
writes the error state on that path and `generate_response` returns with the
slot idle.  On a runtime whose decode fails, `generate` leaves the slot in the
error state and `generate_response` then returns with the slot idle. -/
theorem failed_request_slot_idle :
    (generate_response (toy_api 2 6) 20 5 7 (LLaMAServer.initialized (toy_api 2 6) 0 0)
        "Hello").outcome = some (request_outcome.generated gen_exit.context_exceeded) ∧
    (generate_response (toy_api 2 6) 20 5 7 (LLaMAServer.initialized (toy_api 2 6) 0 0)
        "Hello").server.slot.state = slot_state.SLOT_STATE_IDLE ∧
    (generate_response (toy_decode_fails 16 6) 20 5 7
        (LLaMAServer.initialized (toy_decode_fails 16 6) 0 0) "Hi").outcome =
      some (request_outcome.generated gen_exit.decode_failed) ∧
    (generate (toy_decode_fails 16 6) 20
        (generation_entry (toy_decode_fails 16 6) 5
          (LLaMAServer.initialized (toy_decode_fails 16 6) 0 0) "Hi")
        (prompt_text (toy_decode_fails 16 6)
          (LLaMAServer.initialized (toy_decode_fails 16 6) 0 0) "Hi")).server.slot.state =
      slot_state.SLOT_STATE_ERROR ∧
    (generate_response (toy_decode_fails 16 6) 20 5 7
        (LLaMAServer.initialized (toy_decode_fails 16 6) 0 0) "Hi").server.slot.state =
      slot_state.SLOT_STATE_IDLE := by
  decide

/-- C7 (code): a streaming request on socket 5 whose template fails.  The
request ends as a template failure and the socket has received the SSE headers
only: no fragment, no error event and no done event. -/
theorem stream_template_failure_no_terminal :
    (handle_http_request_stream (toy_template_fails 16 6) 20 5 7 5
        (LLaMAServer.initialized (toy_template_fails 16 6) 0 0) "Hi").outcome =
      some request_outcome.template_failed ∧
    (handle_http_request_stream (toy_template_fails 16 6) 20 5 7 5
        (LLaMAServer.initialized (toy_template_fails 16 6) 0 0) "Hi").server.sent =
      [sse_event.headers] := by
  decide

/-- C9 (code): a request on a runtime whose template renders the user turn and
fails when the boundary is recomputed after the assistant turn.  The request
ends at an end-of-generation token and `prev_len` is -1 afterwards. -/
theorem boundary_negative_after_failed_render :
    (generate_response (toy_boundary_fails 16 6) 20 5 7
        (LLaMAServer.initialized (toy_boundary_fails 16 6) 0 0) "Hi").outcome =
      some (request_outcome.generated gen_exit.eog) ∧
    (generate_response (toy_boundary_fails 16 6) 20 5 7
        (LLaMAServer.initialized (toy_boundary_fails 16 6) 0 0) "Hi").server.prev_len = -1 := by
  decide

/-! ## The counters through a request (C11, C12) -/

theorem to_u64_add_nat (y k : Nat) : to_u64 ((y : Int) + (k : Int)) = (y + k) % 2 ^ 64 := by
  simp only [to_u64]
  omega

theorem generate_body_next_metrics {σ : Type} (L : llama_api σ) (s s1 : LLaMAServer σ)
    (batch batch1 : List llama_token) (response response1 : String)
    (h : generate_body L s batch response = loop_step.next s1 batch1 response1) :
    s1.metrics.n_decode_total = (s.metrics.n_decode_total + 1) % 2 ^ 64 ∧
    s1.metrics.n_tokens_predicted_total = s.metrics.n_tokens_predicted_total ∧
    s1.metrics.n_prompt_tokens_processed_total = s.metrics.n_prompt_tokens_processed_total ∧
    s1.metrics.n_tokens_predicted = s.metrics.n_tokens_predicted ∧
    s1.metrics.n_prompt_tokens_processed = s.metrics.n_prompt_tokens_processed ∧
    s1.slot.n_prompt_tokens_processed = s.slot.n_prompt_tokens_processed ∧
    s1.slot.t_prompt_processing = s.slot.t_prompt_processing := by
  simp only [generate_body] at h
  split_ifs at h with h1 h2 h3 h4 h5
  all_goals
    simp only [loop_step.next.injEq] at h
    obtain ⟨rfl, rfl, rfl⟩ := h
    simp only [server_metrics.on_decoded, List.foldl_cons, List.foldl_nil, send_sse_message]
    split_ifs <;> simp

theorem generate_body_ret_slot {σ : Type} (L : llama_api σ) (s s1 : LLaMAServer σ)
    (batch : List llama_token) (response r : String) (e : gen_exit)
    (h : generate_body L s batch response = loop_step.ret e r s1) :
    s1.slot.n_decoded = s.slot.n_decoded ∧
    s1.slot.n_prompt_tokens_processed = s.slot.n_prompt_tokens_processed ∧
    s1.slot.t_prompt_processing = s.slot.t_prompt_processing := by
  simp only [generate_body] at h
  split_ifs at h with h1 h2 h3 h4 h5 h6 h7 h8
  all_goals
    simp only [loop_step.ret.injEq] at h
    obtain ⟨rfl, rfl, rfl⟩ := h
    simp [send_sse_error, send_sse_done, server_slot.set_state]

theorem generate_loop_metrics {σ : Type} (L : llama_api σ) (fuel : Nat) :
    ∀ (s : LLaMAServer σ) (batch : List llama_token) (response : String),
      ∃ k : Nat,
        (generate_loop L fuel s batch response).server.slot.n_decoded =
          s.slot.n_decoded + (k : Int) ∧
        (generate_loop L fuel s batch response).server.metrics.n_decode_total =
          (if k = 0 then s.metrics.n_decode_total
           else (s.metrics.n_decode_total + k) % 2 ^ 64) ∧
        (generate_loop L fuel s batch response).server.metrics.n_tokens_predicted_total =
          s.metrics.n_tokens_predicted_total ∧
        (generate_loop L fuel s batch response).server.metrics.n_prompt_tokens_processed_total =
          s.metrics.n_prompt_tokens_processed_total ∧
        (generate_loop L fuel s batch response).server.metrics.n_tokens_predicted =
          s.metrics.n_tokens_predicted ∧
        (generate_loop L fuel s batch response).server.metrics.n_prompt_tokens_processed =
          s.metrics.n_prompt_tokens_processed ∧
        (generate_loop L fuel s batch response).server.slot.n_prompt_tokens_processed =
          s.slot.n_prompt_tokens_processed ∧
        (generate_loop L fuel s batch response).server.slot.t_prompt_processing =
          s.slot.t_prompt_processing := by
  induction fuel with
  | zero =>
    intro s batch response
    exact ⟨0, by simp [generate_loop]⟩
  | succ n ih =>
    intro s batch response
    simp only [generate_loop]
    cases hb : generate_body L s batch response with
    | ret e r s1 =>
      obtain ⟨a1, a2, a3⟩ := generate_body_ret_slot L s s1 batch response r e hb
      have hm := (generate_body_sent L s s1 batch response r e hb).2
      exact ⟨0, by simp [a1, a2, a3, hm]⟩
    | next s1 batch1 response1 =>
      obtain ⟨m1, m2, m3, m4, m5, m6, m7⟩ :=
        generate_body_next_metrics L s s1 batch batch1 response response1 hb
      obtain ⟨tok, -, -, -, -, hn, -, -, -, -, -, -⟩ :=
        generate_body_next L s s1 batch batch1 response response1 hb
      obtain ⟨k, i1, i2, i3, i4, i5, i6, i7, i8⟩ := ih s1 batch1 response1
      refine ⟨k + 1, ?_, ?_, i3.trans m2, i4.trans m3, i5.trans m4, i6.trans m5, i7.trans m6,
        i8.trans m7⟩
      · rw [i1, hn]; push_cast; ring
      · rw [i2, m1, if_neg (Nat.succ_ne_zero k)]
        split_ifs with hk
        · subst hk; rfl
        · omega

theorem generate_metrics {σ : Type} (L : llama_api σ) (fuel : Nat) (s : LLaMAServer σ)
    (prompt : String) :
    ∃ k : Nat,
      (generate L fuel s prompt).server.slot.n_decoded = (k : Int) ∧
      (generate L fuel s prompt).server.metrics.n_decode_total =
        (if k = 0 then s.metrics.n_decode_total else (s.metrics.n_decode_total + k) % 2 ^ 64) ∧
      (generate L fuel s prompt).server.metrics.n_tokens_predicted_total =
        s.metrics.n_tokens_predicted_total ∧
      (generate L fuel s prompt).server.metrics.n_prompt_tokens_processed_total =
        s.metrics.n_prompt_tokens_processed_total ∧
      (generate L fuel s prompt).server.metrics.n_tokens_predicted =
        s.metrics.n_tokens_predicted ∧
      (generate L fuel s prompt).server.metrics.n_prompt_tokens_processed =
        s.metrics.n_prompt_tokens_processed ∧
      (generate L fuel s prompt).server.slot.n_prompt_tokens_processed =
        s.slot.n_prompt_tokens_processed ∧
      (generate L fuel s prompt).server.slot.t_prompt_processing =
        s.slot.t_prompt_processing := by
  by_cases ht : fill_return L s prompt < 0
  · rw [generate_of_fill_failed L fuel s prompt ht]
    refine ⟨0, ?_⟩
    rw [if_pos rfl]
    split_ifs <;> simp [send_sse_error, loop_entry, server_slot.set_state]
  · rw [generate_of_fill_ok L fuel s prompt ht]
    obtain ⟨k, i1, i2, i3, i4, i5, i6, i7, i8⟩ :=
      generate_loop_metrics L fuel (loop_entry L s prompt) (prompt_batch L s prompt) ""
    refine ⟨k, ?_, i2, i3, i4, i5, i6, i7, i8⟩
    rw [i1]
    simp [loop_entry]

theorem finish_response_metrics {σ : Type} (L : llama_api σ) (generation_time : Int)
    (s : LLaMAServer σ) (response : String) :
    (finish_response L generation_time s response).metrics.n_decode_total =
      s.metrics.n_decode_total ∧
    (finish_response L generation_time s response).metrics.n_tokens_predicted_total =
      to_u64 (s.metrics.n_tokens_predicted_total + s.slot.n_decoded) ∧
    (finish_response L generation_time s response).metrics.n_prompt_tokens_processed_total =
      (if s.slot.n_prompt_tokens_processed > 0 ∧ s.slot.t_prompt_processing > 0 then
        to_u64 (s.metrics.n_prompt_tokens_processed_total + s.slot.n_prompt_tokens_processed)
       else s.metrics.n_prompt_tokens_processed_total) ∧
    (finish_response L generation_time s response).metrics.n_requests_total =
      (s.metrics.n_requests_total + 1) % 2 ^ 64 ∧
    (finish_response L generation_time s response).metrics.n_requests_failed =
      s.metrics.n_requests_failed ∧
    (finish_response L generation_time s response).slot.n_decoded = s.slot.n_decoded ∧
    (finish_response L generation_time s response).slot.n_prompt_tokens_processed =
      s.slot.n_prompt_tokens_processed ∧
    (finish_response L generation_time s response).slot.t_prompt_processing =
      s.slot.t_prompt_processing := by
  simp only [finish_response, server_slot.set_state, server_metrics.on_request,
    server_metrics.update_kv_cache_metrics, server_metrics.on_prediction,
    server_metrics.on_prompt_eval]
  split_ifs <;> simp

theorem generation_entry_facts {σ : Type} (L : llama_api σ) (prompt_time : Int)
    (s : LLaMAServer σ) (user_input : String) :
    (generation_entry L prompt_time s user_input).metrics = s.metrics ∧
    (generation_entry L prompt_time s user_input).slot.t_prompt_processing = prompt_time ∧
    (generation_entry L prompt_time s user_input).slot.n_prompt_tokens_processed =
      L.chat_template_len (s.messages ++ [llama_chat_message.mk "user" (strdup user_input)]) true -
        s.prev_len := by
  obtain ⟨e1, e2, -, -, -, -, e7, -⟩ := apply_user_template_facts L s user_input
  refine ⟨e7, rfl, ?_⟩
  rw [← e1, ← e2]
  rfl

theorem generate_response_coupling {σ : Type} (L : llama_api σ) (fuel : Nat)
    (prompt_time generation_time : Int) (s : LLaMAServer σ) (user_input : String)
    (hout : (generate_response L fuel prompt_time generation_time s user_input).outcome ≠ none)
    (hlt : s.metrics.n_decode_total < 2 ^ 64)
    (heq : s.metrics.n_decode_total = s.metrics.n_tokens_predicted_total) :
    (generate_response L fuel prompt_time generation_time s user_input).server.metrics.n_decode_total =
      (generate_response L fuel prompt_time generation_time s
        user_input).server.metrics.n_tokens_predicted_total ∧
    (generate_response L fuel prompt_time generation_time s
      user_input).server.metrics.n_decode_total < 2 ^ 64 := by
  by_cases hneg : (apply_user_template L s user_input).2 < 0
  · rw [generate_response_of_template_failed L fuel prompt_time generation_time s user_input hneg]
    have e7 := (apply_user_template_facts L s user_input).2.2.2.2.2.2.1
    simp only [e7]
    exact ⟨heq, hlt⟩
  · cases hex : (generate L fuel (generation_entry L prompt_time s user_input)
        (prompt_text L s user_input)).exit with
    | none =>
      rw [generate_response_of_running L fuel prompt_time generation_time s user_input hneg hex]
        at hout
      exact absurd rfl hout
    | some e =>
      rw [generate_response_of_exit L fuel prompt_time generation_time s user_input e hneg hex]
      obtain ⟨f1, f2, -, -, -, -, -, -⟩ := finish_response_metrics L generation_time
        (generate L fuel (generation_entry L prompt_time s user_input)
          (prompt_text L s user_input)).server
        (generate L fuel (generation_entry L prompt_time s user_input)
          (prompt_text L s user_input)).response
      obtain ⟨k, g1, g2, g3, -, -, -, -, -⟩ := generate_metrics L fuel
        (generation_entry L prompt_time s user_input) (prompt_text L s user_input)
      have hm := (generation_entry_facts L prompt_time s user_input).1
      simp only [f1, f2, g1, g2, g3, hm, to_u64_add_nat, ← heq]
      split_ifs with hk
      · subst hk
        exact ⟨by omega, hlt⟩
      · exact ⟨rfl, Nat.mod_lt _ (by norm_num)⟩

/-- C11: after every `generate_response` call that returns, successful or
failed, `n_decode_total = n_tokens_predicted_total`: a call that starts with
the two counters equal (and within the range of `uint64_t`) ends with them
equal, and so they are equal after any sequence of calls on a freshly
initialised server. -/
theorem decode_total_eq_predicted_total {σ : Type} (L : llama_api σ) (fuel : Nat) :
    (∀ (prompt_time generation_time : Int) (s : LLaMAServer σ) (user_input : String),
      (generate_response L fuel prompt_time generation_time s user_input).outcome ≠ none →
      s.metrics.n_decode_total < 2 ^ 64 →
      s.metrics.n_decode_total = s.metrics.n_tokens_predicted_total →
      (generate_response L fuel prompt_time generation_time s
          user_input).server.metrics.n_decode_total =
        (generate_response L fuel prompt_time generation_time s
          user_input).server.metrics.n_tokens_predicted_total) ∧
    (∀ (ctx : σ) (now : Int) (reqs : List request) (s1 : LLaMAServer σ),
      generate_responses L fuel reqs (LLaMAServer.initialized L ctx now) = some s1 →
      s1.metrics.n_decode_total = s1.metrics.n_tokens_predicted_total) := by
  refine ⟨fun pt gt s input hout hlt heq =>
    (generate_response_coupling L fuel pt gt s input hout hlt heq).1, ?_⟩
  have key : ∀ (reqs : List request) (s s1 : LLaMAServer σ),
      s.metrics.n_decode_total = s.metrics.n_tokens_predicted_total →
      s.metrics.n_decode_total < 2 ^ 64 →
      generate_responses L fuel reqs s = some s1 →
      s1.metrics.n_decode_total = s1.metrics.n_tokens_predicted_total := by
    intro reqs
    induction reqs with
    | nil =>
      intro s s1 heq _ h
      simp only [generate_responses, Option.some.injEq] at h
      rw [← h]
      exact heq
    | cons q qs ih =>
      intro s s1 heq hlt h
      simp only [generate_responses] at h
      split at h
      · simp at h
      · rename_i o ho
        have hout : (generate_response L fuel q.prompt_time q.generation_time
            (s.set_client_socket q.client_socket) q.prompt).outcome ≠ none := by
          rw [ho]; simp
        obtain ⟨c1, c2⟩ := generate_response_coupling L fuel q.prompt_time q.generation_time
          (s.set_client_socket q.client_socket) q.prompt hout hlt heq
        exact ih _ s1 c1 c2 h
  intro ctx now reqs s1 h
  exact key reqs (LLaMAServer.initialized L ctx now) s1 rfl
    (by show (0 : Nat) < 2 ^ 64; norm_num) h

/-- C11 on the small runtime: two requests on a fresh server, the second one
streaming; both return and the two counters are equal afterwards. -/
theorem decode_total_eq_predicted_total_witness :
    ∃ s1 : LLaMAServer Int,
      generate_responses (toy_api 16 6) 20
          [request.mk (-1) 5000 7000 "Hi", request.mk 5 5000 7000 "Yo"]
          (LLaMAServer.initialized (toy_api 16 6) 0 0) = some s1 ∧
      s1.metrics.n_decode_total = s1.metrics.n_tokens_predicted_total :=
  match h : generate_responses (toy_api 16 6) 20
      [request.mk (-1) 5000 7000 "Hi", request.mk 5 5000 7000 "Yo"]
      (LLaMAServer.initialized (toy_api 16 6) 0 0) with
  | some s1 =>
    ⟨s1, rfl,
      (decode_total_eq_predicted_total (toy_api 16 6) 20).2 0 0
        [request.mk (-1) 5000 7000 "Hi", request.mk 5 5000 7000 "Yo"] s1 h⟩
  | none =>
    absurd h
      (by
        have : (generate_responses (toy_api 16 6) 20
            [request.mk (-1) 5000 7000 "Hi", request.mk 5 5000 7000 "Yo"]
            (LLaMAServer.initialized (toy_api 16 6) 0 0)).isSome = true := by decide
        intro hn
        rw [hn] at this
        exact absurd this (by decide))

theorem generate_counters {σ : Type} (L : llama_api σ) (fuel : Nat) (s : LLaMAServer σ)
    (prompt : String) :
    (generate L fuel s prompt).server.metrics.n_requests_failed = s.metrics.n_requests_failed ∧
    (generate L fuel s prompt).server.metrics.n_requests_total = s.metrics.n_requests_total := by
  by_cases ht : fill_return L s prompt < 0
  · rw [generate_of_fill_failed L fuel s prompt ht]
    split_ifs <;> simp [send_sse_error, loop_entry]
  · rw [generate_of_fill_ok L fuel s prompt ht]
    exact generate_loop_counters L fuel (loop_entry L s prompt) (prompt_batch L s prompt) ""

/-- C12: a request never decreases a cumulative counter, absent 64-bit
wraparound.  For every `generate_response` call, whatever its outcome, if
adding the request's prompt-token count, its decoded-token count and one
request to the counters stays below `2 ^ 64`, then each of
`n_prompt_tokens_processed_total`, `n_tokens_predicted_total`,
`n_decode_total`, `n_requests_total` and `n_requests_failed` is, after the
call, at least its value before the call. -/
theorem cumulative_counters_monotone {σ : Type} (L : llama_api σ) (fuel : Nat)
    (prompt_time generation_time : Int) (s : LLaMAServer σ) (user_input : String)
    (h1 : (s.metrics.n_prompt_tokens_processed_total : Int) +
      (generate_response L fuel prompt_time generation_time s
        user_input).server.slot.n_prompt_tokens_processed < 2 ^ 64)
    (h2 : (s.metrics.n_tokens_predicted_total : Int) +
      (generate_response L fuel prompt_time generation_time s
        user_input).server.slot.n_decoded < 2 ^ 64)
    (h3 : (s.metrics.n_decode_total : Int) +
      (generate_response L fuel prompt_time generation_time s
        user_input).server.slot.n_decoded < 2 ^ 64)
    (h4 : s.metrics.n_requests_total + 1 < 2 ^ 64) :
    s.metrics.n_prompt_tokens_processed_total ≤
      (generate_response L fuel prompt_time generation_time s
        user_input).server.metrics.n_prompt_tokens_processed_total ∧
    s.metrics.n_tokens_predicted_total ≤
      (generate_response L fuel prompt_time generation_time s
        user_input).server.metrics.n_tokens_predicted_total ∧
    s.metrics.n_decode_total ≤
      (generate_response L fuel prompt_time generation_time s
        user_input).server.metrics.n_decode_total ∧
    s.metrics.n_requests_total ≤
      (generate_response L fuel prompt_time generation_time s
        user_input).server.metrics.n_requests_total ∧
    s.metrics.n_requests_failed ≤
      (generate_response L fuel prompt_time generation_time s
        user_input).server.metrics.n_requests_failed := by
  by_cases hneg : (apply_user_template L s user_input).2 < 0
  · rw [generate_response_of_template_failed L fuel prompt_time generation_time s user_input hneg]
    have e7 := (apply_user_template_facts L s user_input).2.2.2.2.2.2.1
    simp only [e7]
    exact ⟨le_refl _, le_refl _, le_refl _, le_refl _, le_refl _⟩
  · obtain ⟨k, g1, g2, g3, g4, -, -, -, -⟩ := generate_metrics L fuel
      (generation_entry L prompt_time s user_input) (prompt_text L s user_input)
    obtain ⟨c1, c2⟩ := generate_counters L fuel
      (generation_entry L prompt_time s user_input) (prompt_text L s user_input)
    have hm := (generation_entry_facts L prompt_time s user_input).1
    rw [hm] at g2 g3 g4 c1 c2
    cases hex : (generate L fuel (generation_entry L prompt_time s user_input)
        (prompt_text L s user_input)).exit with
    | none =>
      rw [generate_response_of_running L fuel prompt_time generation_time s user_input hneg hex]
        at h1 h2 h3 ⊢
      simp only [g1] at h3
      simp only [g2, g3, g4, c1, c2]
      refine ⟨le_refl _, le_refl _, ?_, le_refl _, le_refl _⟩
      split_ifs <;> omega
    | some e =>
      rw [generate_response_of_exit L fuel prompt_time generation_time s user_input e hneg hex]
        at h1 h2 h3 ⊢
      obtain ⟨f1, f2, f3, f4, f5, f6, f7, -⟩ := finish_response_metrics L generation_time
        (generate L fuel (generation_entry L prompt_time s user_input)
          (prompt_text L s user_input)).server
        (generate L fuel (generation_entry L prompt_time s user_input)
          (prompt_text L s user_input)).response
      simp only [f6, f7, g1] at h1 h2 h3
      simp only [f1, f2, f3, f4, f5, g1, g2, g3, g4, c1, c2, to_u64]
      refine ⟨?_, ?_, ?_, ?_, le_refl _⟩
      · split_ifs <;> omega
      · omega
      · split_ifs <;> omega
      · omega

/-- C12 on the small runtime: the first request on a fresh server. -/
theorem cumulative_counters_monotone_witness :
    (LLaMAServer.initialized (toy_api 16 6) 0 0).metrics.n_tokens_predicted_total ≤
      (generate_response (toy_api 16 6) 20 5000 7000 (LLaMAServer.initialized (toy_api 16 6) 0 0)
        "Hi").server.metrics.n_tokens_predicted_total ∧
    (generate_response (toy_api 16 6) 20 5000 7000 (LLaMAServer.initialized (toy_api 16 6) 0 0)
        "Hi").server.metrics.n_tokens_predicted_total = 1 ∧
    (generate_response (toy_api 16 6) 20 5000 7000 (LLaMAServer.initialized (toy_api 16 6) 0 0)
        "Hi").server.metrics.n_prompt_tokens_processed_total = 4 :=
  ⟨(cumulative_counters_monotone (toy_api 16 6) 20 5000 7000
      (LLaMAServer.initialized (toy_api 16 6) 0 0) "Hi" (by decide) (by decide) (by decide)
      (by decide)).2.1,
    by decide, by decide⟩

/-! ## The metrics hooks (C13, C14) -/

/-- C13 (code): a metrics record whose bucket counter `n_tokens_predicted`
is 5 and whose cumulative counter is 9 receives a slot with 3 decoded tokens.
`on_prediction` leaves 8 in the bucket counter, not 3, and 12 in the cumulative
counter.  The sibling `on_prompt_eval` on a record whose bucket counter
`n_prompt_tokens_processed` is 5 and a slot with 3 prompt tokens leaves 3 in
its bucket counter. -/
theorem on_prediction_bucket_not_overwritten :
    ((server_metrics.on_prediction
        { server_metrics.init 0 with n_tokens_predicted := 5, n_tokens_predicted_total := 9 }
        { id := 0, n_prompt_tokens_processed := 0, n_decoded := 3, t_prompt_processing := 0,
          t_token_generation := 0, state := slot_state.SLOT_STATE_PROCESSING }).n_tokens_predicted :
        Int) ≠ 3 ∧
    (server_metrics.on_prediction
        { server_metrics.init 0 with n_tokens_predicted := 5, n_tokens_predicted_total := 9 }
        { id := 0, n_prompt_tokens_processed := 0, n_decoded := 3, t_prompt_processing := 0,
          t_token_generation := 0, state := slot_state.SLOT_STATE_PROCESSING }).n_tokens_predicted =
      8 ∧
    (server_metrics.on_prediction
        { server_metrics.init 0 with n_tokens_predicted := 5, n_tokens_predicted_total := 9 }
        { id := 0, n_prompt_tokens_processed := 0, n_decoded := 3, t_prompt_processing := 0,
          t_token_generation := 0,
          state := slot_state.SLOT_STATE_PROCESSING }).n_tokens_predicted_total = 12 ∧
    (server_metrics.on_prompt_eval
        { server_metrics.init 0 with
          n_prompt_tokens_processed := 5, n_prompt_tokens_processed_total := 9 }
        { id := 0, n_prompt_tokens_processed := 3, n_decoded := 0, t_prompt_processing := 2000,
          t_token_generation := 0,
          state := slot_state.SLOT_STATE_PROCESSING }).n_prompt_tokens_processed = 3 := by
  decide

/-- What `on_prediction` does to the counters of generated tokens: it adds to
the bucket counter as it does to the cumulative one.  The bucket counter `n_tokens_predicted` and the
cumulative counter `n_tokens_predicted_total` both become their previous value
plus `slot.n_decoded`, modulo `2 ^ 64`; without wraparound and with
`slot.n_decoded ≥ 0` they are the plain sums, and the bucket counter then
equals `slot.n_decoded` exactly when it was 0 before. -/
theorem on_prediction_accumulates (m : server_metrics) (slot : server_slot) :
    (m.on_prediction slot).n_tokens_predicted = to_u64 (m.n_tokens_predicted + slot.n_decoded) ∧
    (m.on_prediction slot).n_tokens_predicted_total =
      to_u64 (m.n_tokens_predicted_total + slot.n_decoded) ∧
    (0 ≤ slot.n_decoded → (m.n_tokens_predicted : Int) + slot.n_decoded < 2 ^ 64 →
      (m.n_tokens_predicted_total : Int) + slot.n_decoded < 2 ^ 64 →
      (m.on_prediction slot).n_tokens_predicted = m.n_tokens_predicted + slot.n_decoded.toNat ∧
      (m.on_prediction slot).n_tokens_predicted_total =
        m.n_tokens_predicted_total + slot.n_decoded.toNat ∧
      (((m.on_prediction slot).n_tokens_predicted : Int) = slot.n_decoded ↔
        m.n_tokens_predicted = 0)) := by
  refine ⟨rfl, rfl, ?_⟩
  intro h0 h1 h2
  simp only [server_metrics.on_prediction, to_u64]
  refine ⟨by omega, by omega, ?_⟩
  constructor <;> intro h <;> omega

/-- The sums of `on_prediction` at a concrete record: bucket 5, total 9, three
decoded tokens. -/
theorem on_prediction_accumulates_witness :
    (server_metrics.on_prediction
        { server_metrics.init 0 with n_tokens_predicted := 5, n_tokens_predicted_total := 9 }
        { id := 0, n_prompt_tokens_processed := 0, n_decoded := 3, t_prompt_processing := 0,
          t_token_generation := 0, state := slot_state.SLOT_STATE_PROCESSING }).n_tokens_predicted =
      5 + (3 : Int).toNat ∧
    (server_metrics.on_prediction
        { server_metrics.init 0 with n_tokens_predicted := 5, n_tokens_predicted_total := 9 }
        { id := 0, n_prompt_tokens_processed := 0, n_decoded := 3, t_prompt_processing := 0,
          t_token_generation := 0,
          state := slot_state.SLOT_STATE_PROCESSING }).n_tokens_predicted_total =
      9 + (3 : Int).toNat :=
  ⟨((on_prediction_accumulates
      { server_metrics.init 0 with n_tokens_predicted := 5, n_tokens_predicted_total := 9 }
      { id := 0, n_prompt_tokens_processed := 0, n_decoded := 3, t_prompt_processing := 0,
        t_token_generation := 0, state := slot_state.SLOT_STATE_PROCESSING }).2.2
      (by decide) (by decide) (by decide)).1,
    ((on_prediction_accumulates
      { server_metrics.init 0 with n_tokens_predicted := 5, n_tokens_predicted_total := 9 }
      { id := 0, n_prompt_tokens_processed := 0, n_decoded := 3, t_prompt_processing := 0,
        t_token_generation := 0, state := slot_state.SLOT_STATE_PROCESSING }).2.2
      (by decide) (by decide) (by decide)).2.1⟩

/-- C14: `on_prompt_eval(slot)` changes the metrics record if and only if
`slot.n_prompt_tokens_processed > 0` and `slot.t_prompt_processing > 0` (for a
prompt-token count in the range of `int`).  When either is not strictly
positive the record is returned unchanged, every field included.  When both
are, the bucket counter `n_prompt_tokens_processed` is set to
`slot.n_prompt_tokens_processed` and the cumulative counter
`n_prompt_tokens_processed_total` becomes its previous value plus that amount
modulo `2 ^ 64`, the plain sum when there is no wraparound. -/
theorem on_prompt_eval_guard (m : server_metrics) (slot : server_slot)
    (hr : slot.n_prompt_tokens_processed < 2 ^ 31) :
    (m.on_prompt_eval slot ≠ m ↔
      (slot.n_prompt_tokens_processed > 0 ∧ slot.t_prompt_processing > 0)) ∧
    (¬ (slot.n_prompt_tokens_processed > 0 ∧ slot.t_prompt_processing > 0) →
      m.on_prompt_eval slot = m) ∧
    (slot.n_prompt_tokens_processed > 0 → slot.t_prompt_processing > 0 →
      ((m.on_prompt_eval slot).n_prompt_tokens_processed : Int) =
        slot.n_prompt_tokens_processed ∧
      (m.on_prompt_eval slot).n_prompt_tokens_processed_total =
        (m.n_prompt_tokens_processed_total + slot.n_prompt_tokens_processed.toNat) % 2 ^ 64 ∧
      (m.n_prompt_tokens_processed_total + slot.n_prompt_tokens_processed.toNat < 2 ^ 64 →
        (m.on_prompt_eval slot).n_prompt_tokens_processed_total =
          m.n_prompt_tokens_processed_total + slot.n_prompt_tokens_processed.toNat)) := by
  have hneg : ¬ (slot.n_prompt_tokens_processed > 0 ∧ slot.t_prompt_processing > 0) →
      m.on_prompt_eval slot = m := by
    intro h
    simp only [server_metrics.on_prompt_eval, if_neg h]
  have hpos : slot.n_prompt_tokens_processed > 0 → slot.t_prompt_processing > 0 →
      (m.on_prompt_eval slot).n_prompt_tokens_processed_total =
        (m.n_prompt_tokens_processed_total + slot.n_prompt_tokens_processed.toNat) % 2 ^ 64 := by
    intro hn ht
    simp only [server_metrics.on_prompt_eval, if_pos (And.intro hn ht), to_u64]
    omega
  refine ⟨⟨?_, ?_⟩, hneg, ?_⟩
  · intro hne
    by_contra hg
    exact hne (hneg hg)
  · rintro ⟨hn, ht⟩ heq
    have h1 := hpos hn ht
    rw [heq] at h1
    omega
  · intro hn ht
    refine ⟨?_, hpos hn ht, ?_⟩
    · simp only [server_metrics.on_prompt_eval, if_pos (And.intro hn ht), to_u64]
      omega
    · intro hw
      rw [hpos hn ht]
      exact Nat.mod_eq_of_lt hw

/-- C14 at two concrete slots: one with 4 prompt tokens and 5 ms, recorded; one
with 4 prompt tokens and no elapsed time, not recorded. -/
theorem on_prompt_eval_guard_witness :
    ((server_metrics.init 0).on_prompt_eval
        { id := 0, n_prompt_tokens_processed := 4, n_decoded := 0, t_prompt_processing := 5000,
          t_token_generation := 0,
          state := slot_state.SLOT_STATE_PROCESSING }).n_prompt_tokens_processed_total =
      0 + (4 : Int).toNat ∧
    (server_metrics.init 0).on_prompt_eval
        { id := 0, n_prompt_tokens_processed := 4, n_decoded := 0, t_prompt_processing := 0,
          t_token_generation := 0, state := slot_state.SLOT_STATE_PROCESSING } =
      server_metrics.init 0 :=
  ⟨((on_prompt_eval_guard (server_metrics.init 0)
      { id := 0, n_prompt_tokens_processed := 4, n_decoded := 0, t_prompt_processing := 5000,
        t_token_generation := 0, state := slot_state.SLOT_STATE_PROCESSING }
      (by decide)).2.2 (by decide) (by decide)).2.2 (by decide),
    (on_prompt_eval_guard (server_metrics.init 0)
      { id := 0, n_prompt_tokens_processed := 4, n_decoded := 0, t_prompt_processing := 0,
        t_token_generation := 0, state := slot_state.SLOT_STATE_PROCESSING }
      (by decide)).2.1 (by decide)⟩

/-! ## The metrics snapshot (C15, C16) -/

/-- C15 (as stated): two `get_metrics` calls on a fresh record started at time
0, the first when the clock reads 1 s and the second when it reads 2 s, with no
request in between, return different values in the field `uptime_seconds`. -/
theorem get_metrics_uptime_counterexample :
    ((server_metrics.init 0).get_metrics 1000000).1.uptime_seconds = some 1 ∧
    (((server_metrics.init 0).get_metrics 1000000).2.get_metrics 2000000).1.uptime_seconds =
      some 2 ∧
    ((server_metrics.init 0).get_metrics 1000000).1 ≠
      (((server_metrics.init 0).get_metrics 1000000).2.get_metrics 2000000).1 := by
  have h1 : ((server_metrics.init 0).get_metrics 1000000).1.uptime_seconds = some 1 := by
    simp only [server_metrics.get_metrics, server_metrics.init, fdiv]
    norm_num
  have h2 : (((server_metrics.init 0).get_metrics 1000000).2.get_metrics
      2000000).1.uptime_seconds = some 2 := by
    simp only [server_metrics.get_metrics, server_metrics.init, fdiv]
    norm_num
  refine ⟨h1, h2, ?_⟩
  intro h
  have h3 := congrArg metrics_snapshot.uptime_seconds h
  rw [h1, h2] at h3
  simp only [Option.some.injEq] at h3
  norm_num at h3

/-- C15 (amended): `get_metrics` leaves the metrics record unchanged, every
counter included, and two calls with no request in between return identical
values in every field other than `uptime_seconds`, which follows the clock: the
second call returns what a call on the original record returns at the second
clock value. -/
theorem get_metrics_idempotent (m : server_metrics) (t1 t2 : Int) :
    (m.get_metrics t1).2 = m ∧
    ((m.get_metrics t1).2.get_metrics t2).2 = m ∧
    ((m.get_metrics t1).2.get_metrics t2).1 = (m.get_metrics t2).1 ∧
    { ((m.get_metrics t1).2.get_metrics t2).1 with uptime_seconds := none } =
      { (m.get_metrics t1).1 with uptime_seconds := none } ∧
    ((m.get_metrics t1).2.get_metrics t1).1 = (m.get_metrics t1).1 := by
  refine ⟨rfl, rfl, rfl, rfl, rfl⟩

/-- C16: in the snapshot of `get_metrics` every derived rate is 0 when its
denominator is 0, and no division by zero is evaluated for any counter values:
every rate of the snapshot is a number. -/
theorem get_metrics_rates (m : server_metrics) (now : Int) :
    (m.t_tokens_generation = 0 → (m.get_metrics now).1.tokens_per_second = some 0) ∧
    (m.n_prompt_tokens_processed = 0 →
      (m.get_metrics now).1.avg_prompt_latency_ms = some 0) ∧
    (m.n_tokens_predicted = 0 → (m.get_metrics now).1.avg_generation_latency_ms = some 0) ∧
    (m.n_decode_total = 0 → (m.get_metrics now).1.busy_slots_ratio = some 0) ∧
    (m.n_requests_total = 0 → (m.get_metrics now).1.success_rate = some 0) ∧
    (m.get_metrics now).1.uptime_seconds ≠ none ∧
    (m.get_metrics now).1.tokens_per_second ≠ none ∧
    (m.get_metrics now).1.avg_prompt_latency_ms ≠ none ∧
    (m.get_metrics now).1.avg_generation_latency_ms ≠ none ∧
    (m.get_metrics now).1.busy_slots_ratio ≠ none ∧
    (m.get_metrics now).1.success_rate ≠ none := by
  have hd : ∀ (a : ℚ) (n : Nat), n ≠ 0 → fdiv a (n : ℚ) ≠ none := by
    intro a n hn
    have : (n : ℚ) ≠ 0 := Nat.cast_ne_zero.mpr hn
    simp [fdiv, this]
  refine ⟨?_, ?_, ?_, ?_, ?_, ?_, ?_, ?_, ?_, ?_, ?_⟩
  · intro h; simp [server_metrics.get_metrics, h]
  · intro h; simp [server_metrics.get_metrics, h]
  · intro h; simp [server_metrics.get_metrics, h]
  · intro h; simp [server_metrics.get_metrics, h]
  · intro h; simp [server_metrics.get_metrics, h]
  · simp [server_metrics.get_metrics, fdiv]
  · simp only [server_metrics.get_metrics]
    split_ifs with h
    · exact hd _ _ (by omega)
    · simp
  · simp only [server_metrics.get_metrics]
    split_ifs with h
    · exact hd _ _ (by omega)
    · simp
  · simp only [server_metrics.get_metrics]
    split_ifs with h
    · exact hd _ _ (by omega)
    · simp
  · simp only [server_metrics.get_metrics]
    split_ifs with h
    · exact hd _ _ h
    · simp
  · simp only [server_metrics.get_metrics]
    split_ifs with h
    · exact hd _ _ h
    · simp

/-- C16 on a fresh record: every counter is 0 and every rate is 0. -/
theorem get_metrics_rates_witness :
    ((server_metrics.init 0).get_metrics 1000000).1.tokens_per_second = some 0 ∧
    ((server_metrics.init 0).get_metrics 1000000).1.avg_prompt_latency_ms = some 0 ∧
    ((server_metrics.init 0).get_metrics 1000000).1.avg_generation_latency_ms = some 0 ∧
    ((server_metrics.init 0).get_metrics 1000000).1.busy_slots_ratio = some 0 ∧
    ((server_metrics.init 0).get_metrics 1000000).1.success_rate = some 0 :=
  ⟨(get_metrics_rates (server_metrics.init 0) 1000000).1 rfl,
    (get_metrics_rates (server_metrics.init 0) 1000000).2.1 rfl,
    (get_metrics_rates (server_metrics.init 0) 1000000).2.2.1 rfl,
    (get_metrics_rates (server_metrics.init 0) 1000000).2.2.2.1 rfl,
    (get_metrics_rates (server_metrics.init 0) 1000000).2.2.2.2.1 rfl⟩

/-! ## The recorded prompt-token count (C17) -/

/-- What `generate_response` records as the prompt-token count of a request
that reaches generation: the number of characters of the prompt delta,
`new_len - prev_len`. -/
theorem generate_response_prompt_count {σ : Type} (L : llama_api σ) (fuel : Nat)
    (prompt_time generation_time : Int) (s : LLaMAServer σ) (user_input : String) (e : gen_exit)
    (h : (generate_response L fuel prompt_time generation_time s user_input).outcome =
      some (request_outcome.generated e)) :
    (generate_response L fuel prompt_time generation_time s
        user_input).server.slot.n_prompt_tokens_processed =
      L.chat_template_len (s.messages ++ [llama_chat_message.mk "user" (strdup user_input)]) true -
        s.prev_len := by
  obtain ⟨hneg, hex⟩ :=
    generate_response_outcome L fuel prompt_time generation_time s user_input e h
  rw [generate_response_of_exit L fuel prompt_time generation_time s user_input e hneg hex]
  obtain ⟨-, -, -, -, -, -, f7, -⟩ := finish_response_metrics L generation_time
    (generate L fuel (generation_entry L prompt_time s user_input)
      (prompt_text L s user_input)).server
    (generate L fuel (generation_entry L prompt_time s user_input)
      (prompt_text L s user_input)).response
  obtain ⟨k, -, -, -, -, -, -, g7, -⟩ := generate_metrics L fuel
    (generation_entry L prompt_time s user_input) (prompt_text L s user_input)
  simp only [f7, g7]
  exact (generation_entry_facts L prompt_time s user_input).2.2

/-- C17 (code): the first request `"Hi"` on a fresh server.  The prompt delta
`Hi;>` has 4 characters; the tokenizer returns 5 tokens for it and the 5 tokens
are submitted in the first decode call; the slot records 4 and the cumulative
prompt-token counter becomes 4. -/
theorem prompt_count_is_characters :
    (generate_response (toy_api 16 6) 20 5000 7000 (LLaMAServer.initialized (toy_api 16 6) 0 0)
        "Hi").outcome = some (request_outcome.generated gen_exit.eog) ∧
    (generate_response (toy_api 16 6) 20 5000 7000 (LLaMAServer.initialized (toy_api 16 6) 0 0)
        "Hi").server.calls.take 3 =
      [api_call.tokenize "Hi;>" 0 true, api_call.tokenize "Hi;>" 5 true,
        api_call.decode 0 [1, 72, 105, 59, 62]] ∧
    (toy_api 16 6).llama_tokenize "Hi;>" 5 true true = (5, [1, 72, 105, 59, 62]) ∧
    (generate_response (toy_api 16 6) 20 5000 7000 (LLaMAServer.initialized (toy_api 16 6) 0 0)
        "Hi").server.slot.n_prompt_tokens_processed = 4 ∧
    (generate_response (toy_api 16 6) 20 5000 7000 (LLaMAServer.initialized (toy_api 16 6) 0 0)
        "Hi").server.metrics.n_prompt_tokens_processed_total = 4 := by
  decide

/-! ## The first decode batch and the fill call (C19, C20) -/

/-- C19 (code): the second turn `"Yo"` of a conversation, when 6 cells are
used.  The sizing call, made with the beginning-of-sequence marker, returns
-5, so the vector has 5 elements; the fill call, made without the marker,
returns 4 and writes 4 tokens; the batch given to the first decode call has 5
tokens, the 4 written ones and the zero the vector was initialised with. -/
theorem first_batch_longer_than_fill :
    (toy_api 16 6).llama_tokenize "Yo;>" 0 true true = (-5, []) ∧
    (toy_api 16 6).llama_tokenize "Yo;>" 5 false true = (4, [89, 111, 59, 62]) ∧
    (generate_response (toy_api 16 6) 20 5000 7000
        (generate_response (toy_api 16 6) 20 5000 7000
          (LLaMAServer.initialized (toy_api 16 6) 0 0) "Hi").server "Yo").server.calls.drop 6 =
      [api_call.tokenize "Yo;>" 0 true, api_call.tokenize "Yo;>" 5 false,
        api_call.decode 6 [89, 111, 59, 62, 0], api_call.sample 2] := by
  decide

theorem generate_body_first_call {σ : Type} (L : llama_api σ) (s s1 : LLaMAServer σ)
    (batch : List llama_token) (response r : String) (e : gen_exit)
    (h : generate_body L s batch response = loop_step.ret e r s1) :
    s1.calls = s.calls ∨ ∃ tail, s1.calls = s.calls ++ api_call.decode s.ctx batch :: tail := by
  simp only [generate_body] at h
  split_ifs at h with h1 h2 h3 h4 h5 h6 h7 h8
  all_goals
    simp only [loop_step.ret.injEq] at h
    obtain ⟨rfl, rfl, rfl⟩ := h
    simp [send_sse_error, send_sse_done]

theorem generate_loop_first_call {σ : Type} (L : llama_api σ) (fuel : Nat) (s : LLaMAServer σ)
    (batch : List llama_token) (response : String) :
    (generate_loop L fuel s batch response).server.calls = s.calls ∨
    ∃ tail, (generate_loop L fuel s batch response).server.calls =
      s.calls ++ api_call.decode s.ctx batch :: tail := by
  cases fuel with
  | zero => exact Or.inl rfl
  | succ n =>
    simp only [generate_loop]
    cases hb : generate_body L s batch response with
    | ret e r s1 => exact generate_body_first_call L s s1 batch response r e hb
    | next s1 batch1 response1 =>
      obtain ⟨tok, hc, -, -, -, -, -, -, -, -, -, -⟩ :=
        generate_body_next L s s1 batch batch1 response response1 hb
      obtain ⟨new, hnew, -⟩ := generate_loop_calls L n s1 batch1 response1
      refine Or.inr ⟨api_call.sample tok :: new, ?_⟩
      rw [hnew, hc]
      simp

/-- C20 (code): the second turn `"Yo"` of a conversation, when 6 cells are
used.  The first tokenizer call of the turn, the sizing call, asks for the
beginning-of-sequence marker (`add_special = true`) although cells are used;
only the fill call is made without it.  With a tokenizer whose marker is the
token `0`, the fill call writes the 4 tokens of the text and no marker, and the
batch given to the first decode call is those 4 tokens followed by the token
`0`, the marker: the element of the vector that the sizing call counted for
the marker and that the fill call left as initialised. -/
theorem later_turn_requests_marker :
    (generate_response (toy_api 16 6) 20 5000 7000
        (generate_response (toy_api 16 6) 20 5000 7000
          (LLaMAServer.initialized (toy_api 16 6) 0 0) "Hi").server "Yo").server.calls.get? 6 =
      some (api_call.tokenize "Yo;>" 0 true) ∧
    (toy_api 16 6).llama_get_kv_cache_used_cells
        (generate_response (toy_api 16 6) 20 5000 7000
          (LLaMAServer.initialized (toy_api 16 6) 0 0) "Hi").server.ctx = 6 ∧
    (toy_marker_zero 16 6).llama_tokenize "Yo;>" 5 true true = (5, [0, 89, 111, 59, 62]) ∧
    (toy_marker_zero 16 6).llama_tokenize "Yo;>" 5 false true = (4, [89, 111, 59, 62]) ∧
    (generate_response (toy_marker_zero 16 6) 20 5000 7000
        (generate_response (toy_marker_zero 16 6) 20 5000 7000
          (LLaMAServer.initialized (toy_marker_zero 16 6) 0 0) "Hi").server
        "Yo").server.calls.drop 6 =
      [api_call.tokenize "Yo;>" 0 true, api_call.tokenize "Yo;>" 5 false,
        api_call.decode 6 [89, 111, 59, 62, 0], api_call.sample 2] := by
  decide

/-- In `generate` the fill call of the tokenizer, the second of the two
tokenizer calls and the last one of the request, is made with
`add_special = (used_cells == 0)`: with the marker when no cell of the context
is used and without it when some cell is used.  The tokens of the first decode
call, when there is one, are the vector that this fill call wrote into.  (The
sizing call before it always passes `true`; it writes no token.) -/
theorem generate_fill_add_special {σ : Type} (L : llama_api σ) (fuel : Nat) (s : LLaMAServer σ)
    (prompt : String) :
    ∃ rest,
      (generate L fuel s prompt).server.calls =
        s.calls ++ api_call.tokenize prompt 0 true ::
          api_call.tokenize prompt (-(L.llama_tokenize prompt 0 true true).1).toNat
            (decide (L.llama_get_kv_cache_used_cells s.ctx = 0)) :: rest ∧
      (∀ c ∈ rest, c.is_tokenize = false) ∧
      (rest = [] ∨ ∃ tail, rest = api_call.decode s.ctx
        (fit 0 (-(L.llama_tokenize prompt 0 true true).1).toNat
          (L.llama_tokenize prompt (-(L.llama_tokenize prompt 0 true true).1).toNat
            (decide (L.llama_get_kv_cache_used_cells s.ctx = 0)) true).2) :: tail) ∧
      (L.llama_get_kv_cache_used_cells s.ctx ≠ 0 →
        (generate L fuel s prompt).server.calls =
          s.calls ++ api_call.tokenize prompt 0 true ::
            api_call.tokenize prompt (-(L.llama_tokenize prompt 0 true true).1).toNat false ::
              rest) ∧
      (L.llama_get_kv_cache_used_cells s.ctx = 0 →
        (generate L fuel s prompt).server.calls =
          s.calls ++ api_call.tokenize prompt 0 true ::
            api_call.tokenize prompt (-(L.llama_tokenize prompt 0 true true).1).toNat true ::
              rest) := by
  have key : ∃ rest,
      (generate L fuel s prompt).server.calls =
        s.calls ++ api_call.tokenize prompt 0 true ::
          api_call.tokenize prompt (-(L.llama_tokenize prompt 0 true true).1).toNat
            (decide (L.llama_get_kv_cache_used_cells s.ctx = 0)) :: rest ∧
      (∀ c ∈ rest, c.is_tokenize = false) ∧
      (rest = [] ∨ ∃ tail, rest = api_call.decode s.ctx
        (fit 0 (-(L.llama_tokenize prompt 0 true true).1).toNat
          (L.llama_tokenize prompt (-(L.llama_tokenize prompt 0 true true).1).toNat
            (decide (L.llama_get_kv_cache_used_cells s.ctx = 0)) true).2) :: tail) := by
    by_cases ht : fill_return L s prompt < 0
    · rw [generate_of_fill_failed L fuel s prompt ht]
      refine ⟨[], ?_, by simp, Or.inl rfl⟩
      split_ifs <;> simp [send_sse_error, loop_entry]
    · rw [generate_of_fill_ok L fuel s prompt ht]
      obtain ⟨new, hnew, hall⟩ :=
        generate_loop_calls L fuel (loop_entry L s prompt) (prompt_batch L s prompt) ""
      refine ⟨new, ?_, fun c hc => (hall c hc).2, ?_⟩
      · rw [hnew]
        simp [loop_entry]
      · rcases generate_loop_first_call L fuel (loop_entry L s prompt)
          (prompt_batch L s prompt) "" with h0 | ⟨tail, h1⟩
        · left
          rw [hnew] at h0
          exact List.append_right_eq_self.mp h0
        · right
          rw [hnew] at h1
          exact ⟨tail, List.append_cancel_left h1⟩
  obtain ⟨rest, hc, hall, hfirst⟩ := key
  refine ⟨rest, hc, hall, hfirst, ?_, ?_⟩
  · intro hu
    rw [hc, decide_eq_false hu]
  · intro hu
    rw [hc, decide_eq_true hu]

/-- The tokenizer calls of `generate` on the small runtime: the prompt
`"Yo;>"` when 6 cells are used, and on a fresh context. -/
theorem generate_fill_add_special_witness :
    (generate (toy_api 16 6) 20 (LLaMAServer.initialized (toy_api 16 6) 6 0) "Yo;>").server.calls =
      [api_call.tokenize "Yo;>" 0 true, api_call.tokenize "Yo;>" 5 false,
        api_call.decode 6 [89, 111, 59, 62, 0], api_call.sample 2] ∧
    (generate (toy_api 16 6) 20 (LLaMAServer.initialized (toy_api 16 6) 0 0)
        "Yo;>").server.calls.take 3 =
      [api_call.tokenize "Yo;>" 0 true, api_call.tokenize "Yo;>" 5 true,
        api_call.decode 0 [1, 89, 111, 59, 62]] ∧
    ∃ rest,
      (generate (toy_api 16 6) 20 (LLaMAServer.initialized (toy_api 16 6) 6 0)
          "Yo;>").server.calls =
        (LLaMAServer.initialized (toy_api 16 6) 6 0).calls ++
          api_call.tokenize "Yo;>" 0 true ::
            api_call.tokenize "Yo;>"
              (-((toy_api 16 6).llama_tokenize "Yo;>" 0 true true).1).toNat false :: rest :=
  ⟨by decide, by decide,
    match generate_fill_add_special (toy_api 16 6) 20
      (LLaMAServer.initialized (toy_api 16 6) 6 0) "Yo;>" with
    | ⟨rest, _, _, _, h4, _⟩ => ⟨rest, h4 (by decide)⟩⟩

/-! ## The success response (C18) -/

theorem strdup_replicate (n : Nat) :
    strdup (String.mk (List.replicate n 'a')) = String.mk (List.replicate n 'a') := by
  simp only [strdup]
  congr 1
  induction n with
  | zero => rfl
  | succ k ih => rw [List.replicate_succ, List.takeWhile_cons_of_pos (by decide), ih]

/-- The response of `format_success_response` never has more than
`BUFFER_SIZE - 1` characters, whatever the length of `data`. -/
theorem format_success_response_length (data : String) :
    (format_success_response data).length ≤ 4095 := by
  simp only [format_success_response, String.length, List.length_take, BUFFER_SIZE]
  omega

theorem success_header_5000 :
    ("HTTP/1.1 200 OK\r\n" ++ "Content-Type: " ++ MIMETYPE_JSON ++ "\r\n" ++
        "Content-Length: " ++ toString (5000 : Nat) ++ "\r\n" ++ "\r\n") =
      "HTTP/1.1 200 OK\r\nContent-Type: application/json; charset=utf-8\r\nContent-Length: 5000\r\n\r\n" := by
  decide

theorem success_header_5000_length :
    ("HTTP/1.1 200 OK\r\nContent-Type: application/json; charset=utf-8\r\nContent-Length: 5000\r\n\r\n").data.length =
      88 := by
  decide

theorem http_body_success_header_5000 (body : List Char) :
    http_body
        (("HTTP/1.1 200 OK\r\nContent-Type: application/json; charset=utf-8\r\nContent-Length: 5000\r\n\r\n").data ++
          body) = body := by
  simp [http_body]

theorem format_success_response_5000 :
    format_success_response (String.mk (List.replicate 5000 'a')) =
      String.mk
        (("HTTP/1.1 200 OK\r\nContent-Type: application/json; charset=utf-8\r\nContent-Length: 5000\r\n\r\n").data ++
          List.replicate 4007 'a') := by
  have hl : (String.mk (List.replicate 5000 'a')).length = 5000 := by
    show (List.replicate 5000 'a').length = 5000
    rw [List.length_replicate]
  simp only [format_success_response, hl, strdup_replicate, success_header_5000,
    String.data_append, BUFFER_SIZE]
  rw [List.take_append_eq_append_take,
    List.take_of_length_le (by rw [success_header_5000_length]; norm_num),
    success_header_5000_length, List.take_replicate]
  norm_num

/-- C18 (code): `format_success_response` on a text of 5000 characters `a`.
The header announces `Content-Length: 5000`; the response has 4095 characters
in all and its body, the part after the blank line, is the first 4007
characters of the text. -/
theorem success_response_truncated :
    (String.mk (List.replicate 5000 'a')).length = 5000 ∧
    format_success_response (String.mk (List.replicate 5000 'a')) =
      String.mk
        (("HTTP/1.1 200 OK\r\nContent-Type: application/json; charset=utf-8\r\nContent-Length: 5000\r\n\r\n").data ++
          List.replicate 4007 'a') ∧
    http_body (format_success_response (String.mk (List.replicate 5000 'a'))).data =
      List.replicate 4007 'a' ∧
    (http_body (format_success_response (String.mk (List.replicate 5000 'a'))).data).length =
      4007 := by
  have hl : (String.mk (List.replicate 5000 'a')).length = 5000 := by
    show (List.replicate 5000 'a').length = 5000
    rw [List.length_replicate]
  have hb : http_body (format_success_response (String.mk (List.replicate 5000 'a'))).data =
      List.replicate 4007 'a' := by
    rw [format_success_response_5000]
    exact http_body_success_header_5000 _
  refine ⟨hl, format_success_response_5000, hb, ?_⟩
  rw [hb, List.length_replicate]

/-! ## The ring buffer: invariant and content -/

theorem mod_add_inj (cap f i j : Nat) (hi : i < cap) (hj : j < cap)
    (h : (f + i) % cap = (f + j) % cap) : i = j :=
  Nat.ModEq.eq_of_lt_of_lt (Nat.ModEq.add_left_cancel' f h) hi hj

theorem ring_buffer.to_vector_length {T : Type} [Inhabited T] (rb : ring_buffer T) :
    rb.to_vector.length = rb.sz := by
  simp [ring_buffer.to_vector]

theorem ring_buffer.to_vector_getElem? {T : Type} [Inhabited T] (rb : ring_buffer T) (i : Nat) :
    rb.to_vector[i]? =
      if i < rb.sz then some (rb.data.getD ((rb.first + i) % rb.capacity) default) else none := by
  simp only [ring_buffer.to_vector, List.getElem?_map]
  split_ifs with h
  · rw [List.getElem?_range h]; rfl
  · rw [List.getElem?_eq_none (by simpa using h)]; rfl

theorem getD_set_self {T : Type} (l : List T) (i : Nat) (a d : T) (h : i < l.length) :
    (l.set i a).getD i d = a := by
  simp [List.getD_eq_getElem?_getD, List.getElem?_set, h]

theorem getD_set_other {T : Type} (l : List T) (i j : Nat) (a d : T) (h : i ≠ j) :
    (l.set i a).getD j d = l.getD j d := by
  simp [List.getD_eq_getElem?_getD, List.getElem?_set_ne h]

theorem ring_buffer.wf_new {T : Type} [Inhabited T] (cap : Nat) (h : 0 < cap) :
    (ring_buffer.new cap : ring_buffer T).wf := by
  refine ⟨h, by simp [ring_buffer.new], Nat.zero_le _, h, ?_⟩
  simp [ring_buffer.new]

theorem ring_buffer.wf_push_back {T : Type} (rb : ring_buffer T) (value : T) (h : rb.wf) :
    (rb.push_back value).wf := by
  obtain ⟨h0, h1, h2, h3, h4⟩ := h
  simp only [ring_buffer.push_back]
  split_ifs with hf
  · refine ⟨h0, by simpa using h1, by simp [hf], Nat.mod_lt _ h0, ?_⟩
    simp only [h4, hf]
    simp [Nat.add_mod]
  · refine ⟨h0, by simpa using h1, by simp; omega, h3, ?_⟩
    simp only [h4]
    simp [Nat.add_assoc]

theorem ring_buffer.wf_clear {T : Type} (rb : ring_buffer T) (h : rb.wf) : rb.clear.wf := by
  obtain ⟨h0, h1, -, -, -⟩ := h
  exact ⟨h0, h1, Nat.zero_le _, h0, by simp [ring_buffer.clear]⟩

theorem ring_buffer.pop_front_eq {T : Type} [Inhabited T] (rb : ring_buffer T) :
    (rb.sz = 0 → rb.apply ring_op.pop_front = rb) ∧
    (rb.sz ≠ 0 → rb.apply ring_op.pop_front =
      { rb with first := (rb.first + 1) % rb.capacity, sz := rb.sz - 1 }) := by
  constructor
  · intro h
    simp [ring_buffer.apply, ring_buffer.pop_front, h]
  · intro h
    simp [ring_buffer.apply, ring_buffer.pop_front, h]

theorem ring_buffer.wf_apply {T : Type} [Inhabited T] (rb : ring_buffer T) (op : ring_op T)
    (h : rb.wf) : (rb.apply op).wf := by
  cases op with
  | push_back value => exact ring_buffer.wf_push_back rb value h
  | clear => exact ring_buffer.wf_clear rb h
  | pop_front =>
    by_cases hz : rb.sz = 0
    · rw [(ring_buffer.pop_front_eq rb).1 hz]; exact h
    · rw [(ring_buffer.pop_front_eq rb).2 hz]
      obtain ⟨h0, h1, h2, h3, h4⟩ := h
      refine ⟨h0, h1, by simp; omega, Nat.mod_lt _ h0, ?_⟩
      simp only [h4]
      rw [Nat.mod_add_mod]
      congr 1
      omega

theorem ring_buffer.wf_run {T : Type} [Inhabited T] (ops : List (ring_op T)) :
    ∀ rb : ring_buffer T, rb.wf → (rb.run ops).wf := by
  induction ops with
  | nil => intro rb h; exact h
  | cons op ops ih =>
    intro rb h
    exact ih (rb.apply op) (ring_buffer.wf_apply rb op h)

theorem ring_buffer.to_vector_push_back {T : Type} [Inhabited T] (rb : ring_buffer T)
    (value : T) (h : rb.wf) :
    (rb.push_back value).to_vector =
      (if rb.sz = rb.capacity then rb.to_vector.drop 1 else rb.to_vector) ++ [value] := by
  obtain ⟨h0, h1, h2, h3, h4⟩ := h
  apply List.ext_getElem?
  intro i
  rw [ring_buffer.to_vector_getElem?]
  by_cases hf : rb.sz = rb.capacity
  · have hpos : rb.pos = rb.first := by
      rw [h4, hf, Nat.add_mod_right, Nat.mod_eq_of_lt h3]
    simp only [ring_buffer.push_back, if_pos hf, hpos, Nat.mod_add_mod]
    rw [List.getElem?_append]
    simp only [List.length_drop, ring_buffer.to_vector_length, List.getElem?_drop,
      ring_buffer.to_vector_getElem?, hf]
    by_cases hi : i < rb.capacity - 1
    · have hne : rb.first ≠ (rb.first + 1 + i) % rb.capacity := by
        intro he
        have h5 : (rb.first + 0) % rb.capacity = (rb.first + (1 + i)) % rb.capacity := by
          rw [Nat.add_zero, Nat.mod_eq_of_lt h3, ← Nat.add_assoc]; exact he
        have := mod_add_inj rb.capacity rb.first 0 (1 + i) h0 (by omega) h5
        omega
      rw [if_pos (by omega), if_pos hi, if_pos (by omega), getD_set_other _ _ _ _ _ hne,
        Nat.add_assoc]
    · by_cases hi2 : i = rb.capacity - 1
      · have he : (rb.first + 1 + i) % rb.capacity = rb.first := by
          rw [hi2, show rb.first + 1 + (rb.capacity - 1) = rb.first + rb.capacity by omega,
            Nat.add_mod_right, Nat.mod_eq_of_lt h3]
        rw [if_pos (by omega), if_neg hi, he, getD_set_self _ _ _ _ (by omega)]
        simp [hi2]
      · rw [if_neg (by omega), if_neg hi]
        rw [List.getElem?_eq_none (by simp; omega)]
  · have hlt : rb.sz < rb.capacity := by omega
    simp only [ring_buffer.push_back, if_neg hf]
    rw [List.getElem?_append]
    simp only [ring_buffer.to_vector_length, ring_buffer.to_vector_getElem?]
    by_cases hi : i < rb.sz
    · have hne : rb.pos ≠ (rb.first + i) % rb.capacity := by
        intro he
        rw [h4] at he
        have := mod_add_inj rb.capacity rb.first rb.sz i hlt (by omega) he
        omega
      rw [if_pos (by omega), if_pos hi, if_pos hi, getD_set_other _ _ _ _ _ hne]
    · by_cases hi2 : i = rb.sz
      · rw [if_pos (by omega), if_neg hi, hi2, ← h4, getD_set_self _ _ _ _ (by rw [h1, h4]; exact Nat.mod_lt _ h0)]
        simp
      · rw [if_neg (by omega), if_neg hi]
        rw [List.getElem?_eq_none (by simp; omega)]

theorem ring_buffer.to_vector_pop_front {T : Type} [Inhabited T] (rb : ring_buffer T)
    (h : rb.wf) : (rb.apply ring_op.pop_front).to_vector = rb.to_vector.drop 1 := by
  obtain ⟨h0, h1, h2, h3, h4⟩ := h
  by_cases hz : rb.sz = 0
  · rw [(ring_buffer.pop_front_eq rb).1 hz]
    simp [ring_buffer.to_vector, hz]
  · rw [(ring_buffer.pop_front_eq rb).2 hz]
    apply List.ext_getElem?
    intro i
    rw [List.getElem?_drop, ring_buffer.to_vector_getElem?, ring_buffer.to_vector_getElem?]
    simp only [Nat.mod_add_mod]
    by_cases hi : i < rb.sz - 1
    · rw [if_pos hi, if_pos (by omega), Nat.add_assoc]
    · rw [if_neg hi, if_neg (by omega)]

theorem ring_buffer.to_vector_apply {T : Type} [Inhabited T] (rb : ring_buffer T)
    (op : ring_op T) (h : rb.wf) :
    (rb.apply op).to_vector = fifo_step rb.capacity rb.to_vector op := by
  cases op with
  | push_back value =>
    simp only [fifo_step, ring_buffer.to_vector_length]
    exact ring_buffer.to_vector_push_back rb value h
  | pop_front => exact ring_buffer.to_vector_pop_front rb h
  | clear => simp [ring_buffer.apply, ring_buffer.clear, ring_buffer.to_vector, fifo_step]

theorem ring_buffer.capacity_apply {T : Type} [Inhabited T] (rb : ring_buffer T)
    (op : ring_op T) : (rb.apply op).capacity = rb.capacity := by
  cases op with
  | push_back value => simp only [ring_buffer.apply, ring_buffer.push_back]; split_ifs <;> rfl
  | clear => rfl
  | pop_front =>
    by_cases hz : rb.sz = 0
    · rw [(ring_buffer.pop_front_eq rb).1 hz]
    · rw [(ring_buffer.pop_front_eq rb).2 hz]

theorem ring_buffer.to_vector_run {T : Type} [Inhabited T] (ops : List (ring_op T)) :
    ∀ rb : ring_buffer T, rb.wf →
      (rb.run ops).to_vector = ops.foldl (fifo_step rb.capacity) rb.to_vector ∧
      (rb.run ops).capacity = rb.capacity := by
  induction ops with
  | nil => intro rb _; exact ⟨rfl, rfl⟩
  | cons op ops ih =>
    intro rb h
    obtain ⟨i1, i2⟩ := ih (rb.apply op) (ring_buffer.wf_apply rb op h)
    simp only [ring_buffer.run, List.foldl_cons] at i1 i2 ⊢
    rw [i1, i2, ring_buffer.capacity_apply, ring_buffer.to_vector_apply rb op h]
    exact ⟨rfl, rfl⟩

theorem fifo_pushes {T : Type} (c : Nat) (hc : 0 < c) (xs : List T) :
    ∀ l : List T, l.length ≤ c →
      (xs.map ring_op.push_back).foldl (fifo_step c) l =
        (l ++ xs).drop (l.length + xs.length - c) := by
  induction xs with
  | nil =>
    intro l hl
    simp only [List.map_nil, List.foldl_nil, List.append_nil, List.length_nil, Nat.add_zero]
    rw [show l.length - c = 0 by omega, List.drop_zero]
  | cons x xs ih =>
    intro l hl
    simp only [List.map_cons, List.foldl_cons, fifo_step]
    by_cases hf : l.length = c
    · rw [if_pos hf, ih _ (by simp; omega)]
      cases l with
      | nil => simp at hf; omega
      | cons a l =>
        simp only [List.drop_succ_cons, List.drop_zero, List.length_append, List.length_cons,
          List.length_nil, List.append_assoc, List.singleton_append, List.cons_append] at hf ⊢
        rw [show l.length + (0 + 1) + xs.length - c = xs.length by omega,
          show l.length + 1 + (xs.length + 1) - c = xs.length + 1 by omega, List.drop_succ_cons]
        rfl
    · rw [if_neg hf, ih _ (by simp; omega)]
      simp only [List.length_append, List.length_cons, List.length_nil, List.append_assoc,
        List.singleton_append]
      congr 1
      omega

theorem ring_buffer.rat_spec {T : Type} [Inhabited T] (rb : ring_buffer T) (i : Nat) :
    (rb.sz ≤ i → rb.rat i = Except.error "ring buffer: index out of bounds") ∧
    (i < rb.sz → ∃ v, rb.rat i = Except.ok v ∧ rb.to_vector[rb.sz - 1 - i]? = some v) := by
  constructor
  · intro h
    simp [ring_buffer.rat, h]
  · intro h
    refine ⟨rb.data.getD ((rb.first + rb.sz - i - 1) % rb.capacity) default, ?_, ?_⟩
    · simp [ring_buffer.rat, h]
    · rw [ring_buffer.to_vector_getElem?, if_pos (by omega)]
      congr 3
      omega

theorem ring_buffer.rat_push_back {T : Type} [Inhabited T] (rb : ring_buffer T) (value : T)
    (h : rb.wf) : (rb.push_back value).rat 0 = Except.ok value := by
  have hw := ring_buffer.wf_push_back rb value h
  have hv := ring_buffer.to_vector_push_back rb value h
  have hlen := ring_buffer.to_vector_length (rb.push_back value)
  have hpos : 0 < (rb.push_back value).sz := by
    rw [← hlen, hv]; simp
  obtain ⟨v, h1, h2⟩ := (ring_buffer.rat_spec (rb.push_back value) 0).2 hpos
  rw [h1]
  have h3 : (rb.push_back value).to_vector[(rb.push_back value).sz - 1 - 0]? = some value := by
    rw [← hlen, hv]
    simp
  rw [h2] at h3
  simp only [Option.some.injEq] at h3
  rw [h3]

/-! ## The ring buffer (C21, C22, C23) -/

/-- C21 (code): a ring buffer of capacity 32 after one `push_back(7)`.  The
most recently pushed element is 7, which is what `rat(0)` returns and the only
element of `to_vector()`; `back()` returns 0, the value-initialised element at
the next write position. -/
theorem back_not_most_recent :
    ((ring_buffer.new 32 : ring_buffer llama_token).push_back 7).back = Except.ok 0 ∧
    ((ring_buffer.new 32 : ring_buffer llama_token).push_back 7).rat 0 = Except.ok 7 ∧
    ((ring_buffer.new 32 : ring_buffer llama_token).push_back 7).to_vector = [7] :=
  ⟨rfl, rfl, by decide⟩

/-- In a full buffer `back()` returns the element `front()` returns, the oldest
one. -/
theorem ring_buffer.back_of_full {T : Type} [Inhabited T] (rb : ring_buffer T) (h : rb.wf)
    (hf : rb.sz = rb.capacity) : rb.back = rb.front := by
  obtain ⟨h0, -, -, h3, h4⟩ := h
  have hpos : rb.pos = rb.first := by
    rw [h4, hf, Nat.add_mod_right, Nat.mod_eq_of_lt h3]
  simp only [ring_buffer.back, ring_buffer.front, hpos]

/-- C22: a ring buffer of capacity `c > 0` refines the bounded FIFO list.
After every sequence of `push_back`, `pop_front` and `clear` on an empty
buffer, `size()` is at most `c` and is the length of `to_vector()`, and
`to_vector()` is the bounded FIFO list after the same operations; after
pushes alone it is the last `min(n, c)` pushed values in push order. -/
theorem ring_buffer_refines_fifo {T : Type} [Inhabited T] (c : Nat) (hc : 0 < c)
    (ops : List (ring_op T)) :
    ((ring_buffer.new c : ring_buffer T).run ops).size ≤ c ∧
    ((ring_buffer.new c : ring_buffer T).run ops).to_vector.length =
      ((ring_buffer.new c : ring_buffer T).run ops).size ∧
    ((ring_buffer.new c : ring_buffer T).run ops).to_vector = fifo_run c ops ∧
    (∀ xs : List T,
      ((ring_buffer.new c : ring_buffer T).run (xs.map ring_op.push_back)).to_vector =
        xs.drop (xs.length - c) ∧
      ((ring_buffer.new c : ring_buffer T).run (xs.map ring_op.push_back)).size =
        min xs.length c) := by
  have hnew := ring_buffer.wf_new (T := T) c hc
  have hrun : ∀ ops : List (ring_op T),
      ((ring_buffer.new c : ring_buffer T).run ops).to_vector = fifo_run c ops := by
    intro ops
    have h := (ring_buffer.to_vector_run ops (ring_buffer.new c) hnew).1
    rw [h]
    rfl
  have hpush : ∀ xs : List T,
      ((ring_buffer.new c : ring_buffer T).run (xs.map ring_op.push_back)).to_vector =
        xs.drop (xs.length - c) := by
    intro xs
    rw [hrun, fifo_run, fifo_pushes c hc xs [] (Nat.zero_le _)]
    simp
  refine ⟨?_, ring_buffer.to_vector_length _, hrun ops, ?_⟩
  · obtain ⟨-, -, h2, -, -⟩ := ring_buffer.wf_run ops (ring_buffer.new c) hnew
    have hcap := (ring_buffer.to_vector_run ops (ring_buffer.new c) hnew).2
    rw [hcap] at h2
    exact h2
  · intro xs
    refine ⟨hpush xs, ?_⟩
    rw [ring_buffer.size, ← ring_buffer.to_vector_length, hpush xs, List.length_drop]
    omega

/-- C22 at capacity 3: four pushes, a pop and a push. -/
theorem ring_buffer_refines_fifo_witness :
    ((ring_buffer.new 3 : ring_buffer llama_token).run
        [ring_op.push_back 1, ring_op.push_back 2, ring_op.push_back 3, ring_op.push_back 4,
          ring_op.pop_front, ring_op.push_back 5]).to_vector = [3, 4, 5] ∧
    ((ring_buffer.new 3 : ring_buffer llama_token).run
        [ring_op.push_back 1, ring_op.push_back 2, ring_op.push_back 3, ring_op.push_back 4,
          ring_op.pop_front, ring_op.push_back 5]).to_vector =
      fifo_run 3
        [ring_op.push_back 1, ring_op.push_back 2, ring_op.push_back 3, ring_op.push_back 4,
          ring_op.pop_front, ring_op.push_back 5] :=
  ⟨by decide,
    (ring_buffer_refines_fifo 3 (by decide)
      [ring_op.push_back 1, ring_op.push_back 2, ring_op.push_back 3, ring_op.push_back 4,
        ring_op.pop_front, ring_op.push_back 5]).2.2.1⟩

/-- C23: in every state of a ring buffer of capacity `c > 0` reached from the
empty buffer by `push_back`, `pop_front` and `clear`, `rat(i)` throws the
out-of-bounds error exactly when `i ≥ size()`, and otherwise returns the
element `to_vector()[size() - 1 - i]`, the `i`-th most recent one; so a sampler
whose history is in such a state returns `t` from `common_sampler_last` right
after `common_sampler_accept` of `t`. -/
theorem ring_buffer_rat_recent {σ F : Type} (A : sampler_api σ F) (c : Nat) (hc : 0 < c)
    (ops : List (ring_op llama_token)) (i : Nat) :
    (((ring_buffer.new c : ring_buffer llama_token).run ops).rat i =
        Except.error "ring buffer: index out of bounds" ↔
      ((ring_buffer.new c : ring_buffer llama_token).run ops).size ≤ i) ∧
    (i < ((ring_buffer.new c : ring_buffer llama_token).run ops).size →
      ∃ v, ((ring_buffer.new c : ring_buffer llama_token).run ops).rat i = Except.ok v ∧
        ((ring_buffer.new c : ring_buffer llama_token).run ops).to_vector[
          ((ring_buffer.new c : ring_buffer llama_token).run ops).size - 1 - i]? = some v) ∧
    (∀ (gsmpl : common_sampler σ F) (t : llama_token) (accept_grammar : Bool),
      gsmpl.prev = (ring_buffer.new c : ring_buffer llama_token).run ops →
      common_sampler_last (common_sampler_accept A gsmpl t accept_grammar) = Except.ok t) := by
  have hspec := ring_buffer.rat_spec ((ring_buffer.new c : ring_buffer llama_token).run ops) i
  refine ⟨⟨?_, hspec.1⟩, hspec.2, ?_⟩
  · intro herr
    by_contra hlt
    obtain ⟨v, hv, -⟩ := hspec.2 (by simpa [ring_buffer.size] using hlt)
    rw [hv] at herr
    exact absurd herr (by simp)
  · intro gsmpl t accept_grammar hprev
    have hw := ring_buffer.wf_run ops (ring_buffer.new c) (ring_buffer.wf_new c hc)
    rw [← hprev] at hw
    exact ring_buffer.rat_push_back gsmpl.prev t hw

/-- C23 on the sampler of the small runtime: a history of capacity 32 after
two pushes, index 1, and an accepted token 7. -/
theorem ring_buffer_rat_recent_witness :
    ((ring_buffer.new 32 : ring_buffer llama_token).run
        [ring_op.push_back 4, ring_op.push_back 5]).rat 1 = Except.ok 4 ∧
    (∃ v, ((ring_buffer.new 32 : ring_buffer llama_token).run
        [ring_op.push_back 4, ring_op.push_back 5]).rat 1 = Except.ok v ∧
      ((ring_buffer.new 32 : ring_buffer llama_token).run
        [ring_op.push_back 4, ring_op.push_back 5]).to_vector[
          ((ring_buffer.new 32 : ring_buffer llama_token).run
            [ring_op.push_back 4, ring_op.push_back 5]).size - 1 - 1]? = some v) ∧
    common_sampler_last (common_sampler_accept toy_sampler_api toy_sampler 7 true) =
      Except.ok 7 :=
  ⟨rfl,
    (ring_buffer_rat_recent toy_sampler_api 32 (by decide)
      [ring_op.push_back 4, ring_op.push_back 5] 1).2.1 (by decide),
    (ring_buffer_rat_recent toy_sampler_api 32 (by decide) [] 0).2.2 toy_sampler 7 true rfl⟩


/-! ## Sampling and accepting a draft (C24) -/

theorem common_sampler_sample_facts {σ F : Type} [DecidableEq F] (A : sampler_api σ F)
    (gsmpl : common_sampler σ F) (idx : Int) (grammar_first : Bool)
    (r : llama_token × common_sampler σ F)
    (h : common_sampler_sample A gsmpl idx grammar_first = some r) :
    r.2.log = gsmpl.log ++ [sampler_event.sampled idx r.1] ∧ r.2.prev = gsmpl.prev := by
  simp only [common_sampler_sample] at h
  split at h
  · exact absurd h (by simp)
  · split_ifs at h with h1
    · simp only [Option.some.injEq] at h
      subst h
      exact ⟨rfl, rfl⟩
    · split at h
      · exact absurd h (by simp)
      · split_ifs at h with h2
        · simp only [Option.some.injEq] at h
          subst h
          exact ⟨rfl, rfl⟩
        · split at h
          · exact absurd h (by simp)
          · simp only [Option.some.injEq] at h
            subst h
            exact ⟨rfl, rfl⟩

theorem sample_accept_events_cons (idxs : List Int) (i : Nat) (hi : i < idxs.length)
    (id : llama_token) (r : List llama_token) :
    sample_accept_events (idxs.drop i) (id :: r) =
      sampler_event.sampled (idxs.getD i 0) id :: sampler_event.accepted id true ::
        sample_accept_events (idxs.drop (i + 1)) r := by
  rw [List.drop_eq_getElem_cons hi]
  simp only [sample_accept_events, List.getD_eq_getElem?_getD, List.getElem?_eq_getElem hi,
    Option.getD_some]

theorem sample_and_accept_loop_spec {σ F : Type} [DecidableEq F] (A : sampler_api σ F)
    (idxs : List Int) (grammar_first : Bool) (suf : List llama_token) :
    ∀ (i : Nat) (result : List llama_token) (gsmpl : common_sampler σ F)
      (out : Nat × List llama_token × common_sampler σ F),
      i + suf.length ≤ idxs.length →
      sample_and_accept_loop A idxs grammar_first i suf result gsmpl = some out →
      ∃ new, out.2.1 = result ++ new ∧
        out.2.2.log = gsmpl.log ++ sample_accept_events (idxs.drop i) new ∧
        out.2.2.prev = new.foldl ring_buffer.push_back gsmpl.prev ∧
        ((out.1 = i + suf.length ∧ new = suf) ∨
          (out.1 < i + suf.length ∧ i ≤ out.1 ∧
            ∃ id, new = suf.take (out.1 - i) ++ [id] ∧ suf[out.1 - i]? ≠ some id)) := by
  induction suf with
  | nil =>
    intro i result gsmpl out _ h
    simp only [sample_and_accept_loop, Option.some.injEq] at h
    subst h
    refine ⟨[], by simp, ?_, rfl, Or.inl ⟨rfl, rfl⟩⟩
    cases idxs.drop i <;> simp [sample_accept_events]
  | cons d ds ih =>
    intro i result gsmpl out hlen h
    simp only [List.length_cons] at hlen
    simp only [sample_and_accept_loop] at h
    cases hs : common_sampler_sample A gsmpl (idxs.getD i 0) grammar_first with
    | none => rw [hs] at h; exact absurd h (by simp)
    | some r =>
      rw [hs] at h
      obtain ⟨s1, s2⟩ := common_sampler_sample_facts A gsmpl _ grammar_first r hs
      simp only at h
      split_ifs at h with hd
      · simp only [Option.some.injEq] at h
        subst h
        refine ⟨[r.1], rfl, ?_, ?_, Or.inr ⟨by simp, le_refl _, r.1, by simp, ?_⟩⟩
        · rw [sample_accept_events_cons idxs i (by omega)]
          simp only [common_sampler_accept, s1, List.append_assoc, List.singleton_append]
          cases idxs.drop (i + 1) <;> simp [sample_accept_events]
        · simp [common_sampler_accept, s2]
        · simp only [Nat.sub_self, List.getElem?_cons_zero, ne_eq, Option.some.injEq]
          exact hd
      · have hd2 : d = r.1 := by
          by_contra hc
          exact hd hc
        obtain ⟨new, n1, n2, n3, n4⟩ := ih (i + 1) (result ++ [r.1])
          (common_sampler_accept A r.2 r.1 true) out (by omega) h
        refine ⟨r.1 :: new, ?_, ?_, ?_, ?_⟩
        · rw [n1]; simp
        · rw [n2, sample_accept_events_cons idxs i (by omega)]
          simp [common_sampler_accept, s1]
        · rw [n3]; simp [common_sampler_accept, s2]
        · rcases n4 with ⟨e1, e2⟩ | ⟨e1, e2, id, e3, e4⟩
          · left
            refine ⟨by rw [e1, List.length_cons]; omega, ?_⟩
            rw [e2, hd2]
          · right
            refine ⟨by rw [List.length_cons]; omega, by omega, id, ?_, ?_⟩
            · rw [e3, show out.1 - i = (out.1 - (i + 1)) + 1 by omega, List.take_succ_cons, hd2]
              rfl
            · rw [show out.1 - i = (out.1 - (i + 1)) + 1 by omega, List.getElem?_cons_succ]
              exact e4

theorem sample_and_accept_loop_total {σ F : Type} [DecidableEq F] (A : sampler_api σ F)
    (idxs : List Int) (grammar_first : Bool)
    (hs : ∀ (g : common_sampler σ F) (idx : Int),
      (common_sampler_sample A g idx grammar_first).isSome = true)
    (suf : List llama_token) :
    ∀ (i : Nat) (result : List llama_token) (gsmpl : common_sampler σ F),
      (sample_and_accept_loop A idxs grammar_first i suf result gsmpl).isSome = true := by
  induction suf with
  | nil => intro i result gsmpl; rfl
  | cons d ds ih =>
    intro i result gsmpl
    simp only [sample_and_accept_loop]
    cases hr : common_sampler_sample A gsmpl (idxs.getD i 0) grammar_first with
    | none =>
      have := hs gsmpl (idxs.getD i 0)
      rw [hr] at this
      exact absurd this (by simp)
    | some r =>
      simp only
      split_ifs
      · rfl
      · exact ih _ _ _
theorem sample_accept_events_append (idxs : List Int) (a : List llama_token)
    (id : llama_token) (h : a.length < idxs.length) :
    sample_accept_events idxs (a ++ [id]) =
      sample_accept_events idxs a ++
        [sampler_event.sampled (idxs.getD a.length 0) id, sampler_event.accepted id true] := by
  induction a generalizing idxs with
  | nil =>
    cases idxs with
    | nil => simp at h
    | cons x xs => cases xs <;> simp [sample_accept_events]
  | cons b bs ih =>
    cases idxs with
    | nil => simp at h
    | cons x xs =>
      simp only [List.length_cons, Nat.add_lt_add_iff_right] at h
      simp [sample_accept_events, ih xs h]

/-- C24: with `idxs.size() == draft.size() + 1`, a call of
`common_sampler_sample_and_accept_n` returns whenever every sampling inside it
does, and what it returns is a non-empty list `r` of at most
`draft.size() + 1` tokens whose tokens before the last are the tokens of
`draft` at the same positions; when `r` is not longer than `draft`, its last
token differs from the token of `draft` at that position.  The sampler has, in
order, sampled each token of `r` at the index of `idxs` at its position and
accepted it, once, and the history `prev` has received the tokens of `r` in
order.  The overload without `idxs` does the same with the indices
`0, 1, …, draft.size()`. -/
theorem sample_and_accept_n_spec {σ F : Type} [DecidableEq F] (A : sampler_api σ F)
    (gsmpl : common_sampler σ F) (idxs : List Int) (draft : List llama_token)
    (grammar_first : Bool) (hsz : idxs.length = draft.length + 1) :
    ((∀ (g : common_sampler σ F) (idx : Int),
        (common_sampler_sample A g idx grammar_first).isSome = true) →
      (common_sampler_sample_and_accept_n A gsmpl idxs draft grammar_first).isSome = true) ∧
    (∀ (r : List llama_token) (g1 : common_sampler σ F),
      common_sampler_sample_and_accept_n A gsmpl idxs draft grammar_first = some (r, g1) →
      r ≠ [] ∧ r.length ≤ draft.length + 1 ∧
      (∀ j : Nat, j + 1 < r.length → r[j]? = draft[j]?) ∧
      (r.length ≤ draft.length → r.getLast? ≠ draft[r.length - 1]?) ∧
      g1.log = gsmpl.log ++ sample_accept_events idxs r ∧
      g1.prev = r.foldl ring_buffer.push_back gsmpl.prev) ∧
    common_sampler_sample_and_accept_n_draft A gsmpl draft grammar_first =
      common_sampler_sample_and_accept_n A gsmpl
        ((List.range (draft.length + 1)).map (fun i => (i : Int))) draft grammar_first := by
  refine ⟨?_, ?_, rfl⟩
  · intro hs
    simp only [common_sampler_sample_and_accept_n, hsz, ne_eq, not_true_eq_false, if_false]
    have ht := sample_and_accept_loop_total A idxs grammar_first hs draft 0 [] gsmpl
    cases hl : sample_and_accept_loop A idxs grammar_first 0 draft [] gsmpl with
    | none => rw [hl] at ht; exact absurd ht (by simp)
    | some l =>
      simp only
      split_ifs
      · have h2 := hs l.2.2 (idxs.getD l.1 0)
        cases hr : common_sampler_sample A l.2.2 (idxs.getD l.1 0) grammar_first with
        | none => rw [hr] at h2; exact absurd h2 (by simp)
        | some r => rfl
      · rfl
  · intro r g1 h
    simp only [common_sampler_sample_and_accept_n, hsz, ne_eq, not_true_eq_false, if_false] at h
    cases hl : sample_and_accept_loop A idxs grammar_first 0 draft [] gsmpl with
    | none => rw [hl] at h; exact absurd h (by simp)
    | some l =>
      rw [hl] at h
      simp only at h
      obtain ⟨new, n1, n2, n3, n4⟩ := sample_and_accept_loop_spec A idxs grammar_first draft 0 []
        gsmpl l (by omega) hl
      simp only [List.nil_append, List.drop_zero, Nat.zero_add, Nat.sub_zero] at n1 n2 n4
      rcases n4 with ⟨e1, e2⟩ | ⟨e1, -, id, e3, e4⟩
      · rw [if_pos e1] at h
        cases hr : common_sampler_sample A l.2.2 (idxs.getD l.1 0) grammar_first with
        | none => rw [hr] at h; exact absurd h (by simp)
        | some s =>
          rw [hr] at h
          simp only [Option.some.injEq, Prod.mk.injEq] at h
          obtain ⟨hr1, hg1⟩ := h
          obtain ⟨s1, s2⟩ := common_sampler_sample_facts A l.2.2 _ grammar_first s hr
          subst hr1 hg1
          rw [n1, e2]
          refine ⟨by simp, by simp, ?_, ?_, ?_, ?_⟩
          · intro j hj
            simp only [List.length_append, List.length_singleton] at hj
            rw [List.getElem?_append_left (by omega)]
          · intro hle
            simp only [List.length_append, List.length_singleton] at hle
            omega
          · rw [sample_accept_events_append idxs draft s.1 (by omega)]
            simp only [common_sampler_accept, s1, n2, e2, e1, List.append_assoc,
              List.singleton_append, List.cons_append, List.nil_append]
          · simp only [common_sampler_accept, s2, n3, e2, List.foldl_append, List.foldl_cons,
              List.foldl_nil]
      · rw [if_neg (by omega)] at h
        simp only [Option.some.injEq, Prod.mk.injEq] at h
        obtain ⟨hr1, hg1⟩ := h
        subst hr1 hg1
        rw [n1, e3]
        have hk : (List.take l.1 draft).length = l.1 := by
          rw [List.length_take]; omega
        refine ⟨by simp, by simp, ?_, ?_, ?_, ?_⟩
        · intro j hj
          simp only [List.length_append, List.length_singleton, hk] at hj
          rw [List.getElem?_append_left (by omega), List.getElem?_take_of_lt (by omega)]
        · intro _
          simp only [List.length_append, List.length_singleton, hk, Nat.add_sub_cancel,
            List.getLast?_concat]
          exact fun hc => e4 hc.symm
        · rw [n2, e3]
        · rw [n3, e3]

/-- Every sampling over `first_sampler_api` succeeds. -/
theorem first_sampler_total (g : common_sampler Unit Int) (idx : Int) (grammar_first : Bool) :
    (common_sampler_sample first_sampler_api g idx grammar_first).isSome = true := by
  cases grammar_first <;>
  simp [common_sampler_sample, common_sampler.set_logits, selected_id, first_sampler_api,
    List.range_succ_eq_map, List.mapIdx_cons]

/-- C24 on the small runtimes: the draft `[0, 1, 5]` with the indices
`[0, 1, 2, 3]`; the tokens sampled are 0, 1 and 2, and the call returns
`[0, 1, 2]`.  Over the runtime whose samplings all succeed, the call
returns. -/
theorem sample_and_accept_n_spec_witness :
    (∃ (r : List llama_token) (g1 : common_sampler Bool Int),
      common_sampler_sample_and_accept_n toy_sampler_api toy_sampler [0, 1, 2, 3] [0, 1, 5]
          false = some (r, g1) ∧
      r = [0, 1, 2] ∧ r ≠ [] ∧
      g1.log = toy_sampler.log ++ sample_accept_events [0, 1, 2, 3] r ∧
      g1.prev = r.foldl ring_buffer.push_back toy_sampler.prev) ∧
    (common_sampler_sample_and_accept_n first_sampler_api first_sampler [0, 1, 2, 3] [0, 0, 5]
      false).isSome = true :=
  ⟨match h : common_sampler_sample_and_accept_n toy_sampler_api toy_sampler [0, 1, 2, 3]
      [0, 1, 5] false with
    | some (r, g1) =>
      ⟨r, g1, rfl,
        (by
          have h2 : (common_sampler_sample_and_accept_n toy_sampler_api toy_sampler
              [0, 1, 2, 3] [0, 1, 5] false).map (fun x => x.1) = some [0, 1, 2] := by decide
          rw [h] at h2
          simpa using h2),
        ((sample_and_accept_n_spec toy_sampler_api toy_sampler [0, 1, 2, 3] [0, 1, 5] false
          (by decide)).2.1 r g1 h).1,
        ((sample_and_accept_n_spec toy_sampler_api toy_sampler [0, 1, 2, 3] [0, 1, 5] false
          (by decide)).2.1 r g1 h).2.2.2.2.1,
        ((sample_and_accept_n_spec toy_sampler_api toy_sampler [0, 1, 2, 3] [0, 1, 5] false
          (by decide)).2.1 r g1 h).2.2.2.2.2⟩
    | none =>
      absurd h
        (by
          have h2 : (common_sampler_sample_and_accept_n toy_sampler_api toy_sampler
              [0, 1, 2, 3] [0, 1, 5] false).isSome = true := by decide
          intro hn
          rw [hn] at h2
          exact absurd h2 (by decide)),
    (sample_and_accept_n_spec first_sampler_api first_sampler [0, 1, 2, 3] [0, 0, 5] false
      (by decide)).1 (fun g idx => first_sampler_total g idx false)⟩

/-! ## Sampler type names (C25) -/

/-- C25: for each of the nine named sampler types, the name given by
`common_sampler_type_to_str` is read back as that type by
`common_sampler_types_from_names`, with and without alternative names, and the
character given by `common_sampler_type_to_chr` is read back as that type by
`common_sampler_types_from_chars`; the nine characters are pairwise
distinct. -/
theorem sampler_type_round_trip (t : common_sampler_type)
    (h : t ≠ common_sampler_type.COMMON_SAMPLER_TYPE_NONE) :
    common_sampler_types_from_names [common_sampler_type_to_str t] true = [t] ∧
    common_sampler_types_from_names [common_sampler_type_to_str t] false = [t] ∧
    common_sampler_types_from_chars (String.mk [common_sampler_type_to_chr t]) = [t] ∧
    (sampler_name_map.map (fun e => e.1)).Nodup ∧
    sampler_name_map.length = 9 ∧
    (∀ t2 : common_sampler_type, t2 ≠ common_sampler_type.COMMON_SAMPLER_TYPE_NONE →
      common_sampler_type_to_chr t2 = common_sampler_type_to_chr t → t2 = t) := by
  refine ⟨?_, ?_, ?_, by decide, by decide, ?_⟩
  · cases t <;> first | exact absurd rfl h | decide
  · cases t <;> first | exact absurd rfl h | decide
  · cases t <;> first | exact absurd rfl h | decide
  · intro t2 h2 hc
    revert h h2 hc
    cases t <;> cases t2 <;> decide

/-- C25 at the type `temperature`. -/
theorem sampler_type_round_trip_witness :
    common_sampler_types_from_names ["temperature"] true =
      [common_sampler_type.COMMON_SAMPLER_TYPE_TEMPERATURE] ∧
    common_sampler_types_from_chars "t" =
      [common_sampler_type.COMMON_SAMPLER_TYPE_TEMPERATURE] :=
  ⟨(sampler_type_round_trip common_sampler_type.COMMON_SAMPLER_TYPE_TEMPERATURE
      (by decide)).1,
    (sampler_type_round_trip common_sampler_type.COMMON_SAMPLER_TYPE_TEMPERATURE
      (by decide)).2.2.1⟩

/-! ## The dispatch of `handle_http_request` (C26) -/

/-- For a body that the JSON library parses to an object with a string-valued
`"prompt"`, `handle_http_request` calls `generate_response` once when the body
contains neither `GET /metrics` nor `OPTIONS`, and not at all when it contains
one of them. -/
theorem handle_http_request_calls {σ J : Type} (L : llama_api σ) (C : cjson_api J) (fuel : Nat)
    (now prompt_time generation_time : Int) (client_socket : Int) (request_body : String)
    (llama : LLaMAServer σ) (request prompt_item : J)
    (hp : C.cJSON_Parse request_body = some request)
    (hi : C.cJSON_GetObjectItem request "prompt" = some prompt_item)
    (hs : C.cJSON_IsString prompt_item = true) :
    (handle_http_request L C fuel now prompt_time generation_time client_socket request_body
        llama).generate_response_calls =
      if strstr request_body.data "GET /metrics".data ∨ strstr request_body.data "OPTIONS".data
      then 0 else 1 := by
  unfold handle_http_request
  cases h1 : strstr request_body.data "GET /metrics".data
  · cases h2 : strstr request_body.data "OPTIONS".data
    · simp only [hp, hi, Option.filter, hs, Bool.false_eq_true, if_false, if_true, or_self]
      split_ifs
      · rfl
      · cases (generate_response L fuel prompt_time generation_time llama
            (C.valuestring prompt_item)).outcome <;> rfl
    · simp
  · simp

/-- C26 (code): two bodies that are JSON objects with a string-valued
`"prompt"`, on a fresh server.  The prompt of the first contains `OPTIONS`:
the request is answered as an OPTIONS request, `generate_response` is not
called and the conversation stays empty.  The prompt of the second contains
`GET /metrics`: the request is answered with the metrics and
`generate_response` is not called.  A third body with the prompt `Hi` makes one
`generate_response` call. -/
theorem prompt_substring_skips_generation :
    toy_cjson.cJSON_Parse "\x7b\"prompt\":\"What does OPTIONS mean?\"\x7d" =
      some "What does OPTIONS mean?" ∧
    (handle_http_request (toy_api 16 6) toy_cjson 20 1000000 5000 7000 4
        "\x7b\"prompt\":\"What does OPTIONS mean?\"\x7d"
        (LLaMAServer.initialized (toy_api 16 6) 0 0)).generate_response_calls = 0 ∧
    (handle_http_request (toy_api 16 6) toy_cjson 20 1000000 5000 7000 4
        "\x7b\"prompt\":\"What does OPTIONS mean?\"\x7d"
        (LLaMAServer.initialized (toy_api 16 6) 0 0)).replies = [http_reply.cors] ∧
    (handle_http_request (toy_api 16 6) toy_cjson 20 1000000 5000 7000 4
        "\x7b\"prompt\":\"What does OPTIONS mean?\"\x7d"
        (LLaMAServer.initialized (toy_api 16 6) 0 0)).server.messages = [] ∧
    toy_cjson.cJSON_Parse "\x7b\"prompt\":\"Explain GET /metrics\"\x7d" =
      some "Explain GET /metrics" ∧
    (handle_http_request (toy_api 16 6) toy_cjson 20 1000000 5000 7000 4
        "\x7b\"prompt\":\"Explain GET /metrics\"\x7d"
        (LLaMAServer.initialized (toy_api 16 6) 0 0)).generate_response_calls = 0 ∧
    (handle_http_request (toy_api 16 6) toy_cjson 20 1000000 5000 7000 4
        "\x7b\"prompt\":\"Hi\"\x7d"
        (LLaMAServer.initialized (toy_api 16 6) 0 0)).generate_response_calls = 1 := by
  refine ⟨by decide, by decide, by decide, by decide, by decide, by decide, by decide⟩


end EdgeLLM
